import Mathlib

/-! CPU ray tracer: intersection library and scene queries.

A shallow embedding of `Utils.h` (namespace `GeometryUtils`), `DataTypes.h` (the
primitives and the mesh mutators `AppendTriangle`, `UpdateAABB`, `UpdateTransforms`,
`UpdateTransformedAABB`), the two scene queries and `AddMaterial` of `Scene.cpp`, the
pixel index arithmetic of `Renderer::RenderPixel`, and the Phong, Fresnel,
normal-distribution and geometry terms of `BRDFs.h`.

Conventions of the embedding.

* `float` has two readings.  The definitions of the namespaces `GeometryUtils`,
  `Scene`, `BRDF` and `TriangleMesh` read it as exact arithmetic in a linearly
  ordered field `K`; they are what the code computes on every run in which no
  operation rounds, and carry the statements that depend on control flow only.
  The definitions of the namespace `Float32` take the rounding `fl` as a
  parameter and apply it after every arithmetic operation; with `fl = round32`,
  IEEE 754 binary32 rounding to nearest, they are what the code computes on
  binary32 inputs.  Overflow, infinities and NaN are outside both readings: a
  division by zero, which the C++ would turn into an infinity or a NaN, is the
  field's `x / 0 = 0` in the exact reading and `none` in the rounded slab test,
  and the statements that depend on such a division assume the divisor non-zero.
* `sqrtf` is a parameter of every function that (transitively) takes a square
  root.  Statements that depend on its value assume `SqrtExactAt sqrtf x` for the
  argument `x` the code passes.  The concrete evaluations run over `ℚ`, with
  `Rat.sqrt` at squares of rationals, where it is exact, or with `sqrt32`, the
  correctly rounded square root on binary32.
* A `bool` function with a `HitRecord&` out-parameter returns the pair of the
  boolean and the record after the call.
* Reading a `std::vector` out of range is undefined behaviour in the source; the
  loops that index a mesh's buffers return `none` there.
* `unsigned char` material indices are natural numbers; the one conversion to
  `unsigned char`, in `AddMaterial`, is a reduction modulo 256.
-/

namespace dae

/-! ## Vector3 -/

/-- Modelled from the spec: `Math.h` / `Vector3.h` is not among the sources; the spec
treats the vector type as "a standard linear-algebra library".  Three `float`
components. -/
structure Vector3 (K : Type) where
  x : K
  y : K
  z : K
deriving DecidableEq

namespace Vector3

variable {K : Type} [LinearOrderedField K]

/-- Modelled from the spec: value-initialisation `Vector3{}` is the zero vector. -/
instance : Inhabited (Vector3 K) := ⟨⟨0, 0, 0⟩⟩

/-- Modelled from the spec: component-wise `operator+` of the missing `Vector3.h`. -/
instance : Add (Vector3 K) := ⟨fun a b => ⟨a.x + b.x, a.y + b.y, a.z + b.z⟩⟩

/-- Modelled from the spec: component-wise `operator-` of the missing `Vector3.h`. -/
instance : Sub (Vector3 K) := ⟨fun a b => ⟨a.x - b.x, a.y - b.y, a.z - b.z⟩⟩

/-- Modelled from the spec: unary `operator-` of the missing `Vector3.h`. -/
instance : Neg (Vector3 K) := ⟨fun a => ⟨-a.x, -a.y, -a.z⟩⟩

/-- Modelled from the spec: `float * Vector3` of the missing `Vector3.h`. -/
instance : HMul K (Vector3 K) (Vector3 K) := ⟨fun t a => ⟨t * a.x, t * a.y, t * a.z⟩⟩

/-- Modelled from the spec: `Vector3::Dot` of the missing `Vector3.h`, the standard
inner product. -/
def Dot (a b : Vector3 K) : K := a.x * b.x + a.y * b.y + a.z * b.z

/-- Modelled from the spec: `Vector3::Cross` of the missing `Vector3.h`, the standard
cross product. -/
def Cross (a b : Vector3 K) : Vector3 K :=
  ⟨a.y * b.z - a.z * b.y, a.z * b.x - a.x * b.z, a.x * b.y - a.y * b.x⟩

/-- Modelled from the spec: `Vector3::SqrMagnitude` of the missing `Vector3.h`. -/
def SqrMagnitude (a : Vector3 K) : K := a.x * a.x + a.y * a.y + a.z * a.z

/-- Modelled from the spec: `Vector3::Magnitude` of the missing `Vector3.h`,
`sqrtf(x*x + y*y + z*z)`. -/
def Magnitude (sqrtf : K → K) (a : Vector3 K) : K := sqrtf (a.x * a.x + a.y * a.y + a.z * a.z)

/-- Modelled from the spec: `Vector3::Normalized` of the missing `Vector3.h`, every
component divided by the magnitude. -/
def Normalized (sqrtf : K → K) (a : Vector3 K) : Vector3 K :=
  let m := Magnitude sqrtf a
  ⟨a.x / m, a.y / m, a.z / m⟩

/-- Modelled from the spec: `Vector3::Min` of the missing `Vector3.h`, the component-wise
minimum. -/
def Min (a b : Vector3 K) : Vector3 K := ⟨min a.x b.x, min a.y b.y, min a.z b.z⟩

/-- Modelled from the spec: `Vector3::Max` of the missing `Vector3.h`, the component-wise
maximum. -/
def Max (a b : Vector3 K) : Vector3 K := ⟨max a.x b.x, max a.y b.y, max a.z b.z⟩

end Vector3

/-- Modelled from the spec: `Vector4` of the missing `Math.h` headers, four `float`
components. -/
structure Vector4 (K : Type) where
  x : K
  y : K
  z : K
  w : K
deriving DecidableEq

/-- Modelled from the spec: `Matrix` of the missing `Math.h` headers, a 4x4 matrix stored
as four rows, in the order `Camera.h` passes them to its constructor: x axis, y axis,
z axis, translation.  Points are row vectors. -/
structure Matrix (K : Type) where
  xAxis : Vector4 K
  yAxis : Vector4 K
  zAxis : Vector4 K
  translation : Vector4 K
deriving DecidableEq

namespace Matrix

variable {K : Type} [LinearOrderedField K]

/-- Modelled from the spec: the value-initialised `Matrix{}` of the missing `Matrix.h`,
the identity. -/
def identity : Matrix K :=
  ⟨⟨1, 0, 0, 0⟩, ⟨0, 1, 0, 0⟩, ⟨0, 0, 1, 0⟩, ⟨0, 0, 0, 1⟩⟩

/-- Modelled from the spec: the value-initialised `Matrix{}` is the identity. -/
instance : Inhabited (Matrix K) := ⟨identity⟩

/-- Modelled from the spec: `Matrix::TransformVector` of the missing `Matrix.h`, the row
vector `(v, 0)` times the matrix. -/
def TransformVector (m : Matrix K) (v : Vector3 K) : Vector3 K :=
  ⟨m.xAxis.x * v.x + m.yAxis.x * v.y + m.zAxis.x * v.z,
   m.xAxis.y * v.x + m.yAxis.y * v.y + m.zAxis.y * v.z,
   m.xAxis.z * v.x + m.yAxis.z * v.y + m.zAxis.z * v.z⟩

/-- Modelled from the spec: `Matrix::TransformPoint` of the missing `Matrix.h`, the row
vector `(p, 1)` times the matrix. -/
def TransformPoint (m : Matrix K) (p : Vector3 K) : Vector3 K :=
  ⟨m.xAxis.x * p.x + m.yAxis.x * p.y + m.zAxis.x * p.z + m.translation.x,
   m.xAxis.y * p.x + m.yAxis.y * p.y + m.zAxis.y * p.z + m.translation.y,
   m.xAxis.z * p.x + m.yAxis.z * p.y + m.zAxis.z * p.z + m.translation.z⟩

/-- The row vector `r` times the matrix `m`. -/
def rowMul (r : Vector4 K) (m : Matrix K) : Vector4 K :=
  ⟨r.x * m.xAxis.x + r.y * m.yAxis.x + r.z * m.zAxis.x + r.w * m.translation.x,
   r.x * m.xAxis.y + r.y * m.yAxis.y + r.z * m.zAxis.y + r.w * m.translation.y,
   r.x * m.xAxis.z + r.y * m.yAxis.z + r.z * m.zAxis.z + r.w * m.translation.z,
   r.x * m.xAxis.w + r.y * m.yAxis.w + r.z * m.zAxis.w + r.w * m.translation.w⟩

/-- Modelled from the spec: `Matrix::operator*` of the missing `Matrix.h`, the matrix
product. -/
instance : Mul (Matrix K) :=
  ⟨fun a b => ⟨rowMul a.xAxis b, rowMul a.yAxis b, rowMul a.zAxis b, rowMul a.translation b⟩⟩

end Matrix

/-- The square-root function is exact at `x`: it returns the non-negative root. -/
def SqrtExactAt {K : Type} [LinearOrderedField K] (sqrtf : K → K) (x : K) : Prop :=
  0 ≤ sqrtf x ∧ sqrtf x * sqrtf x = x

/-- The macro `FLT_MAX` of `<cfloat>`: `(2 - 2^-23) * 2^127`. -/
def FLT_MAX {K : Type} [LinearOrderedField K] : K := 340282346638528859811704183484516925440

/-! ## DataTypes.h -/

/-- `struct Sphere`. -/
structure Sphere (K : Type) where
  origin : Vector3 K
  radius : K
  materialIndex : Nat := 0

/-- `struct Plane`. -/
structure Plane (K : Type) where
  origin : Vector3 K
  normal : Vector3 K
  materialIndex : Nat := 0

/-- `enum class TriangleCullMode`. -/
inductive TriangleCullMode where
  | FrontFaceCulling
  | BackFaceCulling
  | NoCulling
deriving DecidableEq

/-- `struct Triangle`. -/
structure Triangle (K : Type) where
  v0 : Vector3 K
  v1 : Vector3 K
  v2 : Vector3 K
  normal : Vector3 K
  cullMode : TriangleCullMode := TriangleCullMode.BackFaceCulling
  materialIndex : Nat := 0

/-- The three-vertex constructor `Triangle(_v0, _v1, _v2)`: the normal is the normalised
cross product of the two edges leaving `v0`; cull mode and material index keep their
default member initialisers. -/
def Triangle.ofVertices {K : Type} [LinearOrderedField K] (sqrtf : K → K)
    (_v0 _v1 _v2 : Vector3 K) : Triangle K :=
  let edgeV0V1 := _v1 - _v0
  let edgeV0V2 := _v2 - _v0
  { v0 := _v0
    v1 := _v1
    v2 := _v2
    normal := Vector3.Normalized sqrtf (Vector3.Cross edgeV0V1 edgeV0V2) }

/-- The four-argument constructor `Triangle(_v0, _v1, _v2, _normal)`: the normal passed
in is normalised. -/
def Triangle.ofVerticesNormal {K : Type} [LinearOrderedField K] (sqrtf : K → K)
    (_v0 _v1 _v2 _normal : Vector3 K) : Triangle K :=
  { v0 := _v0
    v1 := _v1
    v2 := _v2
    normal := Vector3.Normalized sqrtf _normal }

/-- `struct TriangleMesh`.  The intersection tests and the scene queries read the index
buffer, the material index, the cull mode, the world-space bounding box and the
transformed position buffer; the other members are the state of the mesh mutators. -/
structure TriangleMesh (K : Type) [LinearOrderedField K] where
  indices : List Int := []
  materialIndex : Nat := 0
  cullMode : TriangleCullMode := TriangleCullMode.BackFaceCulling
  transformedMinAABB : Vector3 K := default
  transformedMaxAABB : Vector3 K := default
  transformedPositions : List (Vector3 K) := []
  positions : List (Vector3 K) := []
  normals : List (Vector3 K) := []
  rotationTransform : Matrix K := default
  translationTransform : Matrix K := default
  scaleTransform : Matrix K := default
  minAABB : Vector3 K := default
  maxAABB : Vector3 K := default
  transformedNormals : List (Vector3 K) := []

namespace TriangleMesh

variable {K : Type} [LinearOrderedField K]

/-- `TriangleMesh::UpdateAABB`: nothing happens on an empty position buffer; otherwise
both corners start at `positions[0]` and the loop over all positions takes the
component-wise minimum and maximum. -/
def UpdateAABB (mesh : TriangleMesh K) : TriangleMesh K :=
  match mesh.positions with
  | [] => mesh
  | p0 :: _ =>
    let box := mesh.positions.foldl
      (fun (box : Vector3 K × Vector3 K) pos => (Vector3.Min box.1 pos, Vector3.Max box.2 pos))
      (p0, p0)
    { mesh with minAABB := box.1, maxAABB := box.2 }

/-- `TriangleMesh::UpdateTransformedAABB`: the transformed box is the component-wise
minimum and maximum over the images of the eight corners of `[minAABB, maxAABB]`, visited
in the order of the source. -/
def UpdateTransformedAABB (mesh : TriangleMesh K) (finalTransform : Matrix K) :
    TriangleMesh K :=
  let tMinAABB0 := finalTransform.TransformPoint mesh.minAABB
  let tMaxAABB0 := tMinAABB0
  let tAABB1 := finalTransform.TransformPoint ⟨mesh.maxAABB.x, mesh.minAABB.y, mesh.minAABB.z⟩
  let tMinAABB1 := Vector3.Min tAABB1 tMinAABB0
  let tMaxAABB1 := Vector3.Max tAABB1 tMaxAABB0
  let tAABB2 := finalTransform.TransformPoint ⟨mesh.maxAABB.x, mesh.minAABB.y, mesh.maxAABB.z⟩
  let tMinAABB2 := Vector3.Min tAABB2 tMinAABB1
  let tMaxAABB2 := Vector3.Max tAABB2 tMaxAABB1
  let tAABB3 := finalTransform.TransformPoint ⟨mesh.minAABB.x, mesh.minAABB.y, mesh.maxAABB.z⟩
  let tMinAABB3 := Vector3.Min tAABB3 tMinAABB2
  let tMaxAABB3 := Vector3.Max tAABB3 tMaxAABB2
  let tAABB4 := finalTransform.TransformPoint ⟨mesh.minAABB.x, mesh.maxAABB.y, mesh.minAABB.z⟩
  let tMinAABB4 := Vector3.Min tAABB4 tMinAABB3
  let tMaxAABB4 := Vector3.Max tAABB4 tMaxAABB3
  let tAABB5 := finalTransform.TransformPoint ⟨mesh.maxAABB.x, mesh.maxAABB.y, mesh.minAABB.z⟩
  let tMinAABB5 := Vector3.Min tAABB5 tMinAABB4
  let tMaxAABB5 := Vector3.Max tAABB5 tMaxAABB4
  let tAABB6 := finalTransform.TransformPoint mesh.maxAABB
  let tMinAABB6 := Vector3.Min tAABB6 tMinAABB5
  let tMaxAABB6 := Vector3.Max tAABB6 tMaxAABB5
  let tAABB7 := finalTransform.TransformPoint ⟨mesh.minAABB.x, mesh.maxAABB.y, mesh.maxAABB.z⟩
  let tMinAABB7 := Vector3.Min tAABB7 tMinAABB6
  let tMaxAABB7 := Vector3.Max tAABB7 tMaxAABB6
  { mesh with transformedMinAABB := tMinAABB7, transformedMaxAABB := tMaxAABB7 }

/-- `TriangleMesh::UpdateTransforms`: the transformed positions are rebuilt from
`positions`, the transformed box from `[minAABB, maxAABB]`, the transformed normals from
`normals`. -/
def UpdateTransforms (sqrtf : K → K) (mesh : TriangleMesh K) : TriangleMesh K :=
  let finalTransform := mesh.rotationTransform * mesh.translationTransform * mesh.scaleTransform
  let mesh1 := { mesh with
    transformedPositions := mesh.positions.map (fun pos => finalTransform.TransformPoint pos) }
  let mesh2 := UpdateTransformedAABB mesh1 finalTransform
  { mesh2 with
    transformedNormals := mesh2.normals.map
      (fun norm => Vector3.Normalized sqrtf (finalTransform.TransformVector norm)) }

/-- `TriangleMesh::AppendTriangle`.  `startIndex` is `static_cast<int>(positions.size())`,
read here without the wrap of the cast (a position buffer of fewer than `2^31` entries). -/
def AppendTriangle (sqrtf : K → K) (mesh : TriangleMesh K) (triangle : Triangle K)
    (ignoreTransformUpdate : Bool) : TriangleMesh K :=
  let startIndex : Int := mesh.positions.length
  let mesh1 := { mesh with
    positions := mesh.positions ++ [triangle.v0, triangle.v1, triangle.v2]
    indices := mesh.indices ++ [startIndex, startIndex + 1, startIndex + 1 + 1]
    normals := mesh.normals ++ [triangle.normal] }
  if !ignoreTransformUpdate then
    UpdateTransforms sqrtf mesh1
  else
    mesh1

end TriangleMesh

/-- `struct Ray`; the literal `0.0001f` is read as the decimal `1/10000`. -/
structure Ray (K : Type) [LinearOrderedField K] where
  origin : Vector3 K
  direction : Vector3 K
  min : K := 1 / 10000
  max : K := FLT_MAX

/-- `struct HitRecord`. -/
structure HitRecord (K : Type) [LinearOrderedField K] where
  origin : Vector3 K := default
  normal : Vector3 K := default
  t : K := FLT_MAX
  didHit : Bool := false
  materialIndex : Nat := 0
deriving DecidableEq

namespace GeometryUtils

variable {K : Type} [LinearOrderedField K]

/-- `GeometryUtils::HitTest_Sphere` (four-argument form). -/
def HitTest_Sphere (sqrtf : K → K) (sphere : Sphere K) (ray : Ray K) (hitRecord : HitRecord K)
    (ignoreHitRecord : Bool) : Bool × HitRecord K :=
  let L := sphere.origin - ray.origin
  let tca := Vector3.Dot L ray.direction
  let d2 := Vector3.Dot L L - tca * tca
  let radius2 := sphere.radius * sphere.radius
  if d2 > radius2 then
    (false, hitRecord)
  else
    let thc := sqrtf (radius2 - d2)
    let t0 := tca - thc
    if t0 < 0 ∨ t0 > ray.max then
      (false, hitRecord)
    else if !ignoreHitRecord then
      let P := ray.origin + t0 * ray.direction
      (true, { hitRecord with
                origin := P
                normal := Vector3.Normalized sqrtf (P - sphere.origin)
                t := t0
                didHit := true
                materialIndex := sphere.materialIndex })
    else
      (true, hitRecord)

/-- `GeometryUtils::HitTest_Sphere` (two-argument overload): a scratch record,
`ignoreHitRecord = true`. -/
def HitTest_Sphere_Bool (sqrtf : K → K) (sphere : Sphere K) (ray : Ray K) : Bool :=
  let temp : HitRecord K := {}
  (HitTest_Sphere sqrtf sphere ray temp true).1

/-- `GeometryUtils::HitTest_Plane` (four-argument form); the literal `0.0001f` is read
as the decimal `1/10000`. -/
def HitTest_Plane (plane : Plane K) (ray : Ray K) (hitRecord : HitRecord K)
    (ignoreHitRecord : Bool) : Bool × HitRecord K :=
  let denom := Vector3.Dot plane.normal ray.direction
  if |denom| > 1 / 10000 then
    let t := Vector3.Dot (plane.origin - ray.origin) plane.normal / denom
    if t ≥ ray.min ∧ t ≤ ray.max then
      if !ignoreHitRecord then
        (true, { hitRecord with
                  origin := ray.origin + t * ray.direction
                  t := t
                  didHit := true
                  materialIndex := plane.materialIndex
                  normal := if denom < 0 then plane.normal else -plane.normal })
      else
        (true, hitRecord)
    else
      (false, hitRecord)
  else
    (false, hitRecord)

/-- `GeometryUtils::HitTest_Plane` (two-argument overload). -/
def HitTest_Plane_Bool (plane : Plane K) (ray : Ray K) : Bool :=
  let temp : HitRecord K := {}
  (HitTest_Plane plane ray temp true).1

/-- `GeometryUtils::HitTest_Triangle` (four-argument form).  The `for`/`switch` over the
three edges is unrolled: iteration `i` tests edge `a` against `c = P - (start of a)`. -/
def HitTest_Triangle (triangle : Triangle K) (ray : Ray K) (hitRecord : HitRecord K)
    (ignoreHitRecord : Bool) : Bool × HitRecord K :=
  let a := triangle.v1 - triangle.v0
  let b := triangle.v2 - triangle.v0
  let n := Vector3.Cross a b
  if Vector3.Dot n ray.direction = 0 then
    (false, hitRecord)
  else
    let l := triangle.v0 - ray.origin
    let t := Vector3.Dot n l / Vector3.Dot n ray.direction
    if t < ray.min ∨ t > ray.max then
      (false, hitRecord)
    else
      let P := ray.origin + t * ray.direction
      if Vector3.Dot (Vector3.Cross (triangle.v1 - triangle.v0) (P - triangle.v0)) n < 0 then
        (false, hitRecord)
      else if Vector3.Dot (Vector3.Cross (triangle.v2 - triangle.v1) (P - triangle.v1)) n < 0 then
        (false, hitRecord)
      else if Vector3.Dot (Vector3.Cross (triangle.v0 - triangle.v2) (P - triangle.v2)) n < 0 then
        (false, hitRecord)
      else if !ignoreHitRecord then
        (true, { hitRecord with
                  origin := P
                  normal := triangle.normal
                  t := t
                  didHit := true
                  materialIndex := triangle.materialIndex })
      else
        (true, hitRecord)

/-- `GeometryUtils::HitTest_Triangle` (two-argument overload). -/
def HitTest_Triangle_Bool (triangle : Triangle K) (ray : Ray K) : Bool :=
  let temp : HitRecord K := {}
  (HitTest_Triangle triangle ray temp true).1

/-- `GeometryUtils::SlabTest_TriangleMesh`.  The three divisions are by the components
of the ray direction. -/
def SlabTest_TriangleMesh (mesh : TriangleMesh K) (ray : Ray K) : Bool :=
  let tx1 := (mesh.transformedMinAABB.x - ray.origin.x) / ray.direction.x
  let tx2 := (mesh.transformedMaxAABB.x - ray.origin.x) / ray.direction.x
  let tmin := min tx1 tx2
  let tmax := max tx1 tx2
  let ty1 := (mesh.transformedMinAABB.y - ray.origin.y) / ray.direction.y
  let ty2 := (mesh.transformedMaxAABB.y - ray.origin.y) / ray.direction.y
  let tmin := max tmin (min ty1 ty2)
  let tmax := min tmax (max ty1 ty2)
  let tz1 := (mesh.transformedMinAABB.z - ray.origin.z) / ray.direction.z
  let tz2 := (mesh.transformedMaxAABB.z - ray.origin.z) / ray.direction.z
  let tmin := max tmin (min tz1 tz2)
  let tmax := min tmax (max tz1 tz2)
  decide (tmax > 0 ∧ tmax ≥ tmin)

/-- The element read `mesh.transformedPositions[i]` with an `int` index: `none` when the
index is negative or past the end (undefined behaviour in the source). -/
def positionAt (positions : List (Vector3 K)) (i : Int) : Option (Vector3 K) :=
  if 0 ≤ i then positions[i.toNat]? else none

/-- The triangle both mesh loops build on the fly: the three-vertex constructor on the
transformed positions, then the mesh's material index and cull mode. -/
def meshTriangle (sqrtf : K → K) (mesh : TriangleMesh K) (p0 p1 p2 : Vector3 K) : Triangle K :=
  { Triangle.ofVertices sqrtf p0 p1 p2 with
    materialIndex := mesh.materialIndex
    cullMode := mesh.cullMode }

/-- The `k`-th sub-triangle of an index buffer, read straight from the buffers: the
triangle built from the three consecutive indices `3k`, `3k+1`, `3k+2` into the mesh's
`transformedPositions`; `none` when one of the reads is out of range. -/
def subTriangleOf (sqrtf : K → K) (mesh : TriangleMesh K) (indices : List Int) (k : Nat) :
    Option (Triangle K) :=
  match indices[3 * k]?, indices[3 * k + 1]?, indices[3 * k + 2]? with
  | some i0, some i1, some i2 =>
    match positionAt mesh.transformedPositions i0, positionAt mesh.transformedPositions i1,
      positionAt mesh.transformedPositions i2 with
    | some p0, some p1, some p2 => some (meshTriangle sqrtf mesh p0 p1 p2)
    | _, _, _ => none
  | _, _, _ => none

/-- The `k`-th sub-triangle of a mesh. -/
def subTriangleAt (sqrtf : K → K) (mesh : TriangleMesh K) (k : Nat) : Option (Triangle K) :=
  subTriangleOf sqrtf mesh mesh.indices k

/-- The index invariant of the data model, on an index buffer: the index count is a
multiple of 3 and every index is a valid offset into `transformedPositions`. -/
def IndicesValid (mesh : TriangleMesh K) (indices : List Int) : Prop :=
  indices.length % 3 = 0
    ∧ ∀ i ∈ indices, 0 ≤ i ∧ i.toNat < mesh.transformedPositions.length

/-- The index invariant of the data model, for a mesh. -/
def IndexInvariant (mesh : TriangleMesh K) : Prop := IndicesValid mesh mesh.indices

/-- The `for (i = 0; i < indices.size(); i += 3)` loop of `HitTest_TriangleMesh`, run on
the indices not yet visited, with the loop state `didHitSomething`, `closestT`,
`closestHit`.  A trailing group of one or two indices makes the source read
`indices[i + 1]` or `indices[i + 2]` out of range. -/
def meshLoop (sqrtf : K → K) (mesh : TriangleMesh K) (ray : Ray K) :
    List Int → Bool → K → HitRecord K → Option (Bool × K × HitRecord K)
  | [], didHitSomething, closestT, closestHit => some (didHitSomething, closestT, closestHit)
  | i0 :: i1 :: i2 :: rest, didHitSomething, closestT, closestHit =>
    match positionAt mesh.transformedPositions i0, positionAt mesh.transformedPositions i1,
      positionAt mesh.transformedPositions i2 with
    | some p0, some p1, some p2 =>
      let triangle := meshTriangle sqrtf mesh p0 p1 p2
      let r := HitTest_Triangle triangle ray {} false
      if r.1 then
        if r.2.t < closestT then
          meshLoop sqrtf mesh ray rest true r.2.t r.2
        else
          meshLoop sqrtf mesh ray rest true closestT closestHit
      else
        meshLoop sqrtf mesh ray rest didHitSomething closestT closestHit
    | _, _, _ => none
  | _, _, _, _ => none

/-- `GeometryUtils::HitTest_TriangleMesh` (four-argument form). -/
def HitTest_TriangleMesh (sqrtf : K → K) (mesh : TriangleMesh K) (ray : Ray K)
    (hitRecord : HitRecord K) (ignoreHitRecord : Bool) : Option (Bool × HitRecord K) :=
  if !SlabTest_TriangleMesh mesh ray then
    some (false, hitRecord)
  else
    match meshLoop sqrtf mesh ray mesh.indices false FLT_MAX {} with
    | none => none
    | some (didHitSomething, _, closestHit) =>
      if didHitSomething ∧ !ignoreHitRecord then
        some (didHitSomething, closestHit)
      else
        some (didHitSomething, hitRecord)

/-- The reference of the pruning claim, "the plain linear scan over all sub-triangles
without the slab test": the loop and the epilogue of `HitTest_TriangleMesh`, entered
unconditionally. -/
def HitTest_TriangleMesh_LinearScan (sqrtf : K → K) (mesh : TriangleMesh K) (ray : Ray K)
    (hitRecord : HitRecord K) (ignoreHitRecord : Bool) : Option (Bool × HitRecord K) :=
  match meshLoop sqrtf mesh ray mesh.indices false FLT_MAX {} with
  | none => none
  | some (didHitSomething, _, closestHit) =>
    if didHitSomething ∧ !ignoreHitRecord then
      some (didHitSomething, closestHit)
    else
      some (didHitSomething, hitRecord)

/-- The argument `radius2 - d2` of the `sqrtf` call in `HitTest_Sphere`. -/
def sphereSqrtArg (sphere : Sphere K) (ray : Ray K) : K :=
  let L := sphere.origin - ray.origin
  sphere.radius * sphere.radius
    - (Vector3.Dot L L - Vector3.Dot L ray.direction * Vector3.Dot L ray.direction)

/-- The near root `t0 = tca - thc` computed by `HitTest_Sphere`. -/
def sphereNearRoot (sqrtf : K → K) (sphere : Sphere K) (ray : Ray K) : K :=
  Vector3.Dot (sphere.origin - ray.origin) ray.direction - sqrtf (sphereSqrtArg sphere ray)

/-- The squared perpendicular distance from the point `O` to the line of `ray`, for a
unit ray direction: the squared length of `O - origin` minus its projection on the
direction. -/
def perpDistSq (O : Vector3 K) (ray : Ray K) : K :=
  let L := O - ray.origin
  let foot := Vector3.Dot L ray.direction * ray.direction
  Vector3.SqrMagnitude (L - foot)

/-- The parameter `t` computed by `HitTest_Plane`. -/
def planeT (plane : Plane K) (ray : Ray K) : K :=
  Vector3.Dot (plane.origin - ray.origin) plane.normal / Vector3.Dot plane.normal ray.direction

/-- The un-normalised face normal `n = Cross(v1 - v0, v2 - v0)` computed by
`HitTest_Triangle`. -/
def triangleCross (triangle : Triangle K) : Vector3 K :=
  Vector3.Cross (triangle.v1 - triangle.v0) (triangle.v2 - triangle.v0)

/-- The parameter `t` computed by `HitTest_Triangle`. -/
def triangleT (triangle : Triangle K) (ray : Ray K) : K :=
  Vector3.Dot (triangleCross triangle) (triangle.v0 - ray.origin)
    / Vector3.Dot (triangleCross triangle) ray.direction

/-- The point `P = ray.origin + t * ray.direction` computed by `HitTest_Triangle`. -/
def trianglePoint (triangle : Triangle K) (ray : Ray K) : Vector3 K :=
  ray.origin + triangleT triangle ray * ray.direction

/-- The point `p` lies component-wise within the mesh's transformed bounding box
`[transformedMinAABB, transformedMaxAABB]`. -/
def insideTransformedAABB (mesh : TriangleMesh K) (p : Vector3 K) : Prop :=
  (mesh.transformedMinAABB.x ≤ p.x ∧ p.x ≤ mesh.transformedMaxAABB.x)
    ∧ (mesh.transformedMinAABB.y ≤ p.y ∧ p.y ≤ mesh.transformedMaxAABB.y)
    ∧ (mesh.transformedMinAABB.z ≤ p.z ∧ p.z ≤ mesh.transformedMaxAABB.z)

end GeometryUtils

/-! ## Scene.cpp -/

/-- The geometry members of `class Scene` (declared in `Scene.h`, which is not among the
sources; the member names are those `Scene.cpp` uses). -/
structure Scene (K : Type) [LinearOrderedField K] where
  m_SphereGeometries : List (Sphere K) := []
  m_PlaneGeometries : List (Plane K) := []
  m_Triangles : List (Triangle K) := []
  m_TriangleMeshGeometries : List (TriangleMesh K) := []

namespace Scene

open GeometryUtils

variable {K : Type} [LinearOrderedField K]

/-- The `switch` on the cull mode in `GetClosestHit`: `true` when the hit is skipped
(`continue`). -/
def culled (cullMode : TriangleCullMode) (normal direction : Vector3 K) : Bool :=
  match cullMode with
  | TriangleCullMode.BackFaceCulling => decide (Vector3.Dot normal direction > 0)
  | TriangleCullMode.FrontFaceCulling => decide (Vector3.Dot normal direction < 0)
  | TriangleCullMode.NoCulling => false

/-- The update `if (hit.didHit && hit.t < closestT) { closestT = hit.t; closestHit = hit; }`
on the loop state `(closestT, closestHit)`. -/
def keepCloser (st : K × HitRecord K) (hit : HitRecord K) : K × HitRecord K :=
  if hit.didHit ∧ hit.t < st.1 then (hit.t, hit) else st

/-- One iteration of the sphere loop of `GetClosestHit`. -/
def sphereStep (sqrtf : K → K) (ray : Ray K) (st : K × HitRecord K) (sphere : Sphere K) :
    K × HitRecord K :=
  let r := HitTest_Sphere sqrtf sphere ray {} false
  if r.1 then keepCloser st r.2 else st

/-- One iteration of the plane loop of `GetClosestHit`. -/
def planeStep (ray : Ray K) (st : K × HitRecord K) (plane : Plane K) : K × HitRecord K :=
  let r := HitTest_Plane plane ray {} false
  if r.1 then keepCloser st r.2 else st

/-- One iteration of the standalone-triangle loop of `GetClosestHit`. -/
def triangleStep (ray : Ray K) (st : K × HitRecord K) (triangle : Triangle K) :
    K × HitRecord K :=
  let r := HitTest_Triangle triangle ray {} false
  if r.1 then
    if culled triangle.cullMode triangle.normal ray.direction then st
    else keepCloser st r.2
  else st

/-- The mesh loop of `GetClosestHit`, on the meshes not yet visited. -/
def meshesLoop (sqrtf : K → K) (ray : Ray K) :
    List (TriangleMesh K) → K × HitRecord K → Option (K × HitRecord K)
  | [], st => some st
  | mesh :: rest, st =>
    match HitTest_TriangleMesh sqrtf mesh ray {} false with
    | none => none
    | some r =>
      if r.1 then
        if culled mesh.cullMode r.2.normal ray.direction then meshesLoop sqrtf ray rest st
        else meshesLoop sqrtf ray rest (keepCloser st r.2)
      else meshesLoop sqrtf ray rest st

/-- `Scene::GetClosestHit`: the value of the out-parameter `closestHit` after the call. -/
def GetClosestHit (sqrtf : K → K) (scene : Scene K) (ray : Ray K) (closestHit : HitRecord K) :
    Option (HitRecord K) :=
  let closestHit := { closestHit with didHit := false }
  let closestT : K := FLT_MAX
  let st := (closestT, closestHit)
  let st := scene.m_SphereGeometries.foldl (sphereStep sqrtf ray) st
  let st := scene.m_PlaneGeometries.foldl (planeStep ray) st
  let st := scene.m_Triangles.foldl (triangleStep ray) st
  (meshesLoop sqrtf ray scene.m_TriangleMeshGeometries st).map Prod.snd

/-- The inner loop of `DoesHit` over one mesh's index buffer, on the indices not yet
visited: `some true` at the first sub-triangle hit, `some false` when the buffer is
exhausted, `none` on an out-of-range read. -/
def doesHitIndices (sqrtf : K → K) (mesh : TriangleMesh K) (ray : Ray K) :
    List Int → Option Bool
  | [] => some false
  | i0 :: i1 :: i2 :: rest =>
    match positionAt mesh.transformedPositions i0, positionAt mesh.transformedPositions i1,
      positionAt mesh.transformedPositions i2 with
    | some p0, some p1, some p2 =>
      if HitTest_Triangle_Bool (meshTriangle sqrtf mesh p0 p1 p2) ray then some true
      else doesHitIndices sqrtf mesh ray rest
    | _, _, _ => none
  | _ => none

/-- The mesh loop of `DoesHit`, on the meshes not yet visited. -/
def doesHitMeshes (sqrtf : K → K) (ray : Ray K) : List (TriangleMesh K) → Option Bool
  | [] => some false
  | mesh :: rest =>
    match doesHitIndices sqrtf mesh ray mesh.indices with
    | none => none
    | some true => some true
    | some false => doesHitMeshes sqrtf ray rest

/-- `Scene::DoesHit`. -/
def DoesHit (sqrtf : K → K) (scene : Scene K) (ray : Ray K) : Option Bool :=
  if scene.m_SphereGeometries.any (fun sphere => HitTest_Sphere_Bool sqrtf sphere ray) then
    some true
  else if scene.m_PlaneGeometries.any (fun plane => HitTest_Plane_Bool plane ray) then
    some true
  else if scene.m_Triangles.any (fun triangle => HitTest_Triangle_Bool triangle ray) then
    some true
  else
    doesHitMeshes sqrtf ray scene.m_TriangleMeshGeometries

end Scene

/-- `Scene::Scene()`: the member `m_Materials` of a fresh scene holds the built-in
default material alone.  `Material.h` is not among the sources, so the material type `M`
and the default material (`new Material_SolidColor({1,0,0})`) are parameters. -/
def Scene.freshMaterials {M : Type} (defaultMaterial : M) : List M := [defaultMaterial]

/-- `Scene::AddMaterial`, on the member `m_Materials`: the vector after the `push_back`
and the `unsigned char` returned, `static_cast<unsigned char>(m_Materials.size() - 1)`. -/
def Scene.AddMaterial {M : Type} (m_Materials : List M) (pMaterial : M) : List M × Nat :=
  let m_Materials := m_Materials ++ [pMaterial]
  (m_Materials, (m_Materials.length - 1) % 256)

/-- The member `m_Materials` after constructing a scene and calling `AddMaterial` on each
element of `added`, in order. -/
def Scene.materialsAfter {M : Type} (defaultMaterial : M) (added : List M) : List M :=
  added.foldl (fun m_Materials pMaterial => (Scene.AddMaterial m_Materials pMaterial).1)
    (Scene.freshMaterials defaultMaterial)

/-! ## BRDFs.h -/

/-- Modelled from the spec: `ColorRGB` of the missing `Math.h` headers, three `float`
channels. -/
structure ColorRGB (K : Type) where
  r : K
  g : K
  b : K
deriving DecidableEq

namespace ColorRGB

variable {K : Type} [LinearOrderedField K]

/-- Modelled from the spec: channel-wise `operator+` of the missing `ColorRGB.h`. -/
instance : Add (ColorRGB K) := ⟨fun a c => ⟨a.r + c.r, a.g + c.g, a.b + c.b⟩⟩

/-- Modelled from the spec: channel-wise `operator-` of the missing `ColorRGB.h`. -/
instance : Sub (ColorRGB K) := ⟨fun a c => ⟨a.r - c.r, a.g - c.g, a.b - c.b⟩⟩

/-- Modelled from the spec: `ColorRGB * float` of the missing `ColorRGB.h`. -/
instance : HMul (ColorRGB K) K (ColorRGB K) := ⟨fun a t => ⟨a.r * t, a.g * t, a.b * t⟩⟩

end ColorRGB

namespace BRDF

variable {K : Type} [LinearOrderedField K]

/-- `BRDF::FresnelFunction_Schlick`.  The literal `0.04f` is read as the decimal `4/100`
and `std::pow(x, 5.f)` as the fifth power. -/
def FresnelFunction_Schlick (h v : Vector3 K) (f0 : ColorRGB K) : ColorRGB K :=
  let f1 : ColorRGB K := if f0 = ⟨0, 0, 0⟩ then ⟨4 / 100, 4 / 100, 4 / 100⟩ else f0
  f1 + ((⟨1, 1, 1⟩ : ColorRGB K) - f1) * (1 - max 0 (Vector3.Dot h v)) ^ 5

/-- `BRDF::Phong`.  `std::pow` with the variable exponent `exp` is the parameter `powf`
(base first, exponent second). -/
def Phong (powf : K → K → K) (ks exp : K) (l v n : Vector3 K) : ColorRGB K :=
  let reflect := -l - (2 * Vector3.Dot (-l) n) * n
  let vDotR := max 0 (Vector3.Dot reflect v)
  let spec := ks * powf vDotR exp
  ⟨spec, spec, spec⟩

end BRDF

/-! ## Renderer.cpp -/

namespace Renderer

/-- The pixel column `px{ pixelIndex % m_Width }` of `Renderer::RenderPixel`, in
`uint32_t`. -/
def RenderPixel_px (m_Width pixelIndex : Nat) : Nat := (pixelIndex % m_Width) % 2 ^ 32

/-- The pixel row `py{ pixelIndex / m_Width }` of `Renderer::RenderPixel`, in `uint32_t`. -/
def RenderPixel_py (m_Width pixelIndex : Nat) : Nat := (pixelIndex / m_Width) % 2 ^ 32

/-- The offset `px + (py * m_Width)` into `m_pBufferPixels` that `Renderer::RenderPixel`
writes, computed in `uint32_t`. -/
def RenderPixel_offset (m_Width pixelIndex : Nat) : Nat :=
  (RenderPixel_px m_Width pixelIndex
    + (RenderPixel_py m_Width pixelIndex * m_Width) % 2 ^ 32) % 2 ^ 32

end Renderer

/-! ## Binary32 arithmetic

The definitions above read `float` as exact.  Those of the namespace `Float32` take as a
parameter the rounding `fl` that the machine applies to the result of every arithmetic
operation, and round after each operation in the order in which the source evaluates
them (no fused multiply-add).  With `fl = round32` over `ℚ` they compute what the source
computes on binary32 inputs, as long as no operation overflows, divides by zero or
produces a NaN; with `fl = id` they are the exact definitions.  `sqrtf` is the library
function, whose values are binary32 numbers.  Negation, comparison, `std::min` and
`std::max` do not round. -/

/-- The exponent of the unit in the last place of the binary32 numbers of the binade of
`q`: normal numbers have 24 significant bits, subnormal ones are multiples of
`2^-149`. -/
def ulpExp (q : ℚ) : ℤ := max (Int.log 2 |q|) (-126) - 23

/-- Rounding to the nearest integer, ties to the even one. -/
def roundHalfEven (x : ℚ) : ℤ :=
  if x - ⌊x⌋ < 1 / 2 then ⌊x⌋
  else if 1 / 2 < x - ⌊x⌋ then ⌊x⌋ + 1
  else if ⌊x⌋ % 2 = 0 then ⌊x⌋
  else ⌊x⌋ + 1

/-- IEEE 754 binary32 rounding to nearest, ties to even, of a rational number.  Results
beyond `FLT_MAX`, which the machine turns into an infinity, are outside the model. -/
def round32 (q : ℚ) : ℚ := (roundHalfEven (q / 2 ^ ulpExp q) : ℚ) * 2 ^ ulpExp q

/-- The binary32 value of the literal `0.0001f`: `13743895 * 2^-37`. -/
def epsilon32 {K : Type} [LinearOrderedField K] : K := 13743895 / 2 ^ 37

namespace Float32

variable {K : Type} [LinearOrderedField K]

/-- Modelled from the spec: `Vector3::operator-` of the missing `Vector3.h`, rounded. -/
def sub (fl : K → K) (a b : Vector3 K) : Vector3 K :=
  ⟨fl (a.x - b.x), fl (a.y - b.y), fl (a.z - b.z)⟩

/-- Modelled from the spec: `Vector3::operator+` of the missing `Vector3.h`, rounded. -/
def add (fl : K → K) (a b : Vector3 K) : Vector3 K :=
  ⟨fl (a.x + b.x), fl (a.y + b.y), fl (a.z + b.z)⟩

/-- Modelled from the spec: the product `scale * v` of the missing `Vector3.h`, rounded. -/
def scale (fl : K → K) (t : K) (a : Vector3 K) : Vector3 K :=
  ⟨fl (t * a.x), fl (t * a.y), fl (t * a.z)⟩

/-- Modelled from the spec: `Vector3::Dot` of the missing `Vector3.h`,
`a.x * b.x + a.y * b.y + a.z * b.z` evaluated left to right, rounded. -/
def Dot (fl : K → K) (a b : Vector3 K) : K :=
  fl (fl (fl (a.x * b.x) + fl (a.y * b.y)) + fl (a.z * b.z))

/-- Modelled from the spec: `Vector3::Cross` of the missing `Vector3.h`, rounded. -/
def Cross (fl : K → K) (a b : Vector3 K) : Vector3 K :=
  ⟨fl (fl (a.y * b.z) - fl (a.z * b.y)),
   fl (fl (a.z * b.x) - fl (a.x * b.z)),
   fl (fl (a.x * b.y) - fl (a.y * b.x))⟩

/-- Modelled from the spec: `Vector3::Magnitude` of the missing `Vector3.h`,
`sqrtf(x*x + y*y + z*z)`, rounded. -/
def Magnitude (fl sqrtf : K → K) (a : Vector3 K) : K :=
  sqrtf (fl (fl (fl (a.x * a.x) + fl (a.y * a.y)) + fl (a.z * a.z)))

/-- Modelled from the spec: `Vector3::Normalized` of the missing `Vector3.h`, every
component divided by the magnitude, rounded. -/
def Normalized (fl sqrtf : K → K) (a : Vector3 K) : Vector3 K :=
  let m := Magnitude fl sqrtf a
  ⟨fl (a.x / m), fl (a.y / m), fl (a.z / m)⟩

/-- The three-vertex constructor `Triangle(_v0, _v1, _v2)`, rounded. -/
def ofVertices (fl sqrtf : K → K) (_v0 _v1 _v2 : Vector3 K) : Triangle K :=
  let edgeV0V1 := sub fl _v1 _v0
  let edgeV0V2 := sub fl _v2 _v0
  { v0 := _v0
    v1 := _v1
    v2 := _v2
    normal := Normalized fl sqrtf (Cross fl edgeV0V1 edgeV0V2) }

/-- The four-argument constructor `Triangle(_v0, _v1, _v2, _normal)`, rounded. -/
def ofVerticesNormal (fl sqrtf : K → K) (_v0 _v1 _v2 _normal : Vector3 K) : Triangle K :=
  { v0 := _v0
    v1 := _v1
    v2 := _v2
    normal := Normalized fl sqrtf _normal }

/-- `GeometryUtils::HitTest_Sphere` (four-argument form), rounded. -/
def HitTest_Sphere (fl sqrtf : K → K) (sphere : Sphere K) (ray : Ray K)
    (hitRecord : HitRecord K) (ignoreHitRecord : Bool) : Bool × HitRecord K :=
  let L := sub fl sphere.origin ray.origin
  let tca := Dot fl L ray.direction
  let d2 := fl (Dot fl L L - fl (tca * tca))
  let radius2 := fl (sphere.radius * sphere.radius)
  if d2 > radius2 then
    (false, hitRecord)
  else
    let thc := sqrtf (fl (radius2 - d2))
    let t0 := fl (tca - thc)
    if t0 < 0 ∨ t0 > ray.max then
      (false, hitRecord)
    else if !ignoreHitRecord then
      let P := add fl ray.origin (scale fl t0 ray.direction)
      (true, { hitRecord with
                origin := P
                normal := Normalized fl sqrtf (sub fl P sphere.origin)
                t := t0
                didHit := true
                materialIndex := sphere.materialIndex })
    else
      (true, hitRecord)

/-- The value `d2` that `HitTest_Sphere` computes. -/
def sphereD2 (fl : K → K) (sphere : Sphere K) (ray : Ray K) : K :=
  let L := sub fl sphere.origin ray.origin
  let tca := Dot fl L ray.direction
  fl (Dot fl L L - fl (tca * tca))

/-- The value `radius2` that `HitTest_Sphere` computes. -/
def sphereRadius2 (fl : K → K) (sphere : Sphere K) : K :=
  fl (sphere.radius * sphere.radius)

/-- The value `t0` that `HitTest_Sphere` computes. -/
def sphereT0 (fl sqrtf : K → K) (sphere : Sphere K) (ray : Ray K) : K :=
  let L := sub fl sphere.origin ray.origin
  let tca := Dot fl L ray.direction
  fl (tca - sqrtf (fl (sphereRadius2 fl sphere - sphereD2 fl sphere ray)))

/-- `GeometryUtils::HitTest_Plane` (four-argument form), rounded; the literal `0.0001f`
is its binary32 value. -/
def HitTest_Plane (fl : K → K) (plane : Plane K) (ray : Ray K) (hitRecord : HitRecord K)
    (ignoreHitRecord : Bool) : Bool × HitRecord K :=
  let denom := Dot fl plane.normal ray.direction
  if |denom| > epsilon32 then
    let t := fl (Dot fl (sub fl plane.origin ray.origin) plane.normal / denom)
    if t ≥ ray.min ∧ t ≤ ray.max then
      if !ignoreHitRecord then
        (true, { hitRecord with
                  origin := add fl ray.origin (scale fl t ray.direction)
                  t := t
                  didHit := true
                  materialIndex := plane.materialIndex
                  normal := if denom < 0 then plane.normal else -plane.normal })
      else
        (true, hitRecord)
    else
      (false, hitRecord)
  else
    (false, hitRecord)

/-- The value `denom` that `HitTest_Plane` computes. -/
def planeDenom (fl : K → K) (plane : Plane K) (ray : Ray K) : K :=
  Dot fl plane.normal ray.direction

/-- The value `t` that `HitTest_Plane` computes. -/
def planeT (fl : K → K) (plane : Plane K) (ray : Ray K) : K :=
  fl (Dot fl (sub fl plane.origin ray.origin) plane.normal / planeDenom fl plane ray)

/-- The point that `HitTest_Plane` reports. -/
def planePoint (fl : K → K) (plane : Plane K) (ray : Ray K) : Vector3 K :=
  add fl ray.origin (scale fl (planeT fl plane ray) ray.direction)

/-- `GeometryUtils::HitTest_Triangle` (four-argument form), rounded. -/
def HitTest_Triangle (fl : K → K) (triangle : Triangle K) (ray : Ray K)
    (hitRecord : HitRecord K) (ignoreHitRecord : Bool) : Bool × HitRecord K :=
  let a := sub fl triangle.v1 triangle.v0
  let b := sub fl triangle.v2 triangle.v0
  let n := Cross fl a b
  if Dot fl n ray.direction = 0 then
    (false, hitRecord)
  else
    let l := sub fl triangle.v0 ray.origin
    let t := fl (Dot fl n l / Dot fl n ray.direction)
    if t < ray.min ∨ t > ray.max then
      (false, hitRecord)
    else
      let P := add fl ray.origin (scale fl t ray.direction)
      if Dot fl (Cross fl (sub fl triangle.v1 triangle.v0) (sub fl P triangle.v0)) n < 0 then
        (false, hitRecord)
      else if Dot fl (Cross fl (sub fl triangle.v2 triangle.v1) (sub fl P triangle.v1)) n < 0 then
        (false, hitRecord)
      else if Dot fl (Cross fl (sub fl triangle.v0 triangle.v2) (sub fl P triangle.v2)) n < 0 then
        (false, hitRecord)
      else if !ignoreHitRecord then
        (true, { hitRecord with
                  origin := P
                  normal := triangle.normal
                  t := t
                  didHit := true
                  materialIndex := triangle.materialIndex })
      else
        (true, hitRecord)

/-- The un-normalised normal `n` that `HitTest_Triangle` computes. -/
def triangleCross (fl : K → K) (triangle : Triangle K) : Vector3 K :=
  Cross fl (sub fl triangle.v1 triangle.v0) (sub fl triangle.v2 triangle.v0)

/-- The value `Dot(n, ray.direction)` that `HitTest_Triangle` computes. -/
def triangleDenom (fl : K → K) (triangle : Triangle K) (ray : Ray K) : K :=
  Dot fl (triangleCross fl triangle) ray.direction

/-- The value `t` that `HitTest_Triangle` computes. -/
def triangleT (fl : K → K) (triangle : Triangle K) (ray : Ray K) : K :=
  fl (Dot fl (triangleCross fl triangle) (sub fl triangle.v0 ray.origin)
    / triangleDenom fl triangle ray)

/-- The point `P` that `HitTest_Triangle` computes. -/
def trianglePoint (fl : K → K) (triangle : Triangle K) (ray : Ray K) : Vector3 K :=
  add fl ray.origin (scale fl (triangleT fl triangle ray) ray.direction)

/-- The value `Dot(Cross(a, c), n)` that `HitTest_Triangle` computes for the edge from
`from_` to `to_`. -/
def triangleEdge (fl : K → K) (triangle : Triangle K) (ray : Ray K)
    (from_ to_ : Vector3 K) : K :=
  Dot fl (Cross fl (sub fl to_ from_) (sub fl (trianglePoint fl triangle ray) from_))
    (triangleCross fl triangle)

/-- One of the six quotients `(corner - origin) / direction` of `SlabTest_TriangleMesh`,
rounded. -/
def slabT (fl : K → K) (corner origin direction : K) : K :=
  fl (fl (corner - origin) / direction)

/-- `GeometryUtils::SlabTest_TriangleMesh`, rounded.  A zero direction component makes
the source divide by zero; the infinities and NaN that result are outside the model, and
the test returns `none`. -/
def SlabTest_TriangleMesh (fl : K → K) (mesh : TriangleMesh K) (ray : Ray K) : Option Bool :=
  if ray.direction.x = 0 ∨ ray.direction.y = 0 ∨ ray.direction.z = 0 then
    none
  else
    let tx1 := fl (fl (mesh.transformedMinAABB.x - ray.origin.x) / ray.direction.x)
    let tx2 := fl (fl (mesh.transformedMaxAABB.x - ray.origin.x) / ray.direction.x)
    let tmin := min tx1 tx2
    let tmax := max tx1 tx2
    let ty1 := fl (fl (mesh.transformedMinAABB.y - ray.origin.y) / ray.direction.y)
    let ty2 := fl (fl (mesh.transformedMaxAABB.y - ray.origin.y) / ray.direction.y)
    let tmin := max tmin (min ty1 ty2)
    let tmax := min tmax (max ty1 ty2)
    let tz1 := fl (fl (mesh.transformedMinAABB.z - ray.origin.z) / ray.direction.z)
    let tz2 := fl (fl (mesh.transformedMaxAABB.z - ray.origin.z) / ray.direction.z)
    let tmin := max tmin (min tz1 tz2)
    let tmax := min tmax (max tz1 tz2)
    some (decide (tmax > 0 ∧ tmax ≥ tmin))

/-- The triangle the mesh loop builds on the fly, rounded. -/
def meshTriangle (fl sqrtf : K → K) (mesh : TriangleMesh K) (p0 p1 p2 : Vector3 K) :
    Triangle K :=
  { ofVertices fl sqrtf p0 p1 p2 with
    materialIndex := mesh.materialIndex
    cullMode := mesh.cullMode }

/-- The loop of `HitTest_TriangleMesh`, rounded. -/
def meshLoop (fl sqrtf : K → K) (mesh : TriangleMesh K) (ray : Ray K) :
    List Int → Bool → K → HitRecord K → Option (Bool × K × HitRecord K)
  | [], didHitSomething, closestT, closestHit => some (didHitSomething, closestT, closestHit)
  | i0 :: i1 :: i2 :: rest, didHitSomething, closestT, closestHit =>
    match GeometryUtils.positionAt mesh.transformedPositions i0,
      GeometryUtils.positionAt mesh.transformedPositions i1,
      GeometryUtils.positionAt mesh.transformedPositions i2 with
    | some p0, some p1, some p2 =>
      let triangle := meshTriangle fl sqrtf mesh p0 p1 p2
      let r := HitTest_Triangle fl triangle ray {} false
      if r.1 then
        if r.2.t < closestT then
          meshLoop fl sqrtf mesh ray rest true r.2.t r.2
        else
          meshLoop fl sqrtf mesh ray rest true closestT closestHit
      else
        meshLoop fl sqrtf mesh ray rest didHitSomething closestT closestHit
    | _, _, _ => none
  | _, _, _, _ => none

/-- `GeometryUtils::HitTest_TriangleMesh` (four-argument form), rounded. -/
def HitTest_TriangleMesh (fl sqrtf : K → K) (mesh : TriangleMesh K) (ray : Ray K)
    (hitRecord : HitRecord K) (ignoreHitRecord : Bool) : Option (Bool × HitRecord K) :=
  match SlabTest_TriangleMesh fl mesh ray with
  | none => none
  | some false => some (false, hitRecord)
  | some true =>
    match meshLoop fl sqrtf mesh ray mesh.indices false FLT_MAX {} with
    | none => none
    | some (didHitSomething, _, closestHit) =>
      if didHitSomething ∧ !ignoreHitRecord then
        some (didHitSomething, closestHit)
      else
        some (didHitSomething, hitRecord)

/-- The sub-triangles of an index buffer, read from the buffers three indices at a time:
the triangle of the indices `3k`, `3k+1`, `3k+2` for every `k` below a third of the index
count; `none` where a read is out of range. -/
def subTrianglesOf (fl sqrtf : K → K) (mesh : TriangleMesh K) (indices : List Int) :
    List (Option (Triangle K)) :=
  (List.range (indices.length / 3)).map (fun k =>
    match indices[3 * k]?, indices[3 * k + 1]?, indices[3 * k + 2]? with
    | some i0, some i1, some i2 =>
      match GeometryUtils.positionAt mesh.transformedPositions i0,
        GeometryUtils.positionAt mesh.transformedPositions i1,
        GeometryUtils.positionAt mesh.transformedPositions i2 with
      | some p0, some p1, some p2 => some (meshTriangle fl sqrtf mesh p0 p1 p2)
      | _, _, _ => none
    | _, _, _ => none)

/-- The records of the triangles of a list that `HitTest_Triangle` reports as hit, in
the order of the list. -/
def scanHits (fl : K → K) (ray : Ray K) (triangles : List (Triangle K)) :
    List (HitRecord K) :=
  triangles.filterMap (fun triangle =>
    let r := HitTest_Triangle fl triangle ray {} false
    if r.1 then some r.2 else none)

/-- The first record of least `t` among those of a list with `t` below the `t` of
`start`, and `start` when there is none. -/
def closestOf (start : HitRecord K) (hits : List (HitRecord K)) : HitRecord K :=
  hits.foldl (fun best hit => if hit.t < best.t then hit else best) start

/-- The reference of the pruning claim, "the plain linear scan over all sub-triangles
without the slab test", written from the words of the claim: every sub-triangle is
tested with `HitTest_Triangle`; the scan reports a hit when some sub-triangle is hit, and
then hands back the record of the first hit of least `t` among those with `t < FLT_MAX`
(the value-initialised record when there is none), unless `ignoreHitRecord` is set.  An
index count that is no multiple of 3 or a read out of range gives `none`. -/
def HitTest_TriangleMesh_LinearScan (fl sqrtf : K → K) (mesh : TriangleMesh K) (ray : Ray K)
    (hitRecord : HitRecord K) (ignoreHitRecord : Bool) : Option (Bool × HitRecord K) :=
  if mesh.indices.length % 3 = 0
      ∧ (subTrianglesOf fl sqrtf mesh mesh.indices).all Option.isSome then
    let hits := scanHits fl ray ((subTrianglesOf fl sqrtf mesh mesh.indices).filterMap id)
    if !hits.isEmpty ∧ !ignoreHitRecord then
      some (true, closestOf {} hits)
    else
      some (!hits.isEmpty, hitRecord)
  else
    none

end Float32

namespace GeometryUtils

variable {K : Type} [LinearOrderedField K]

/-- The value `d2` of `HitTest_Sphere`, in exact arithmetic. -/
def sphereD2 (sphere : Sphere K) (ray : Ray K) : K :=
  let L := sphere.origin - ray.origin
  Vector3.Dot L L - Vector3.Dot L ray.direction * Vector3.Dot L ray.direction

end GeometryUtils

namespace Float32

variable {K : Type} [LinearOrderedField K]

end Float32

namespace Float32

variable {K : Type} [LinearOrderedField K]

/-- The denominator and the point that `HitTest_Plane` computes carry no rounding error:
each equals its value in exact arithmetic. -/
def PlanePointExact (fl : K → K) (plane : Plane K) (ray : Ray K) : Prop :=
  planeDenom fl plane ray = Vector3.Dot plane.normal ray.direction
    ∧ planePoint fl plane ray = ray.origin + GeometryUtils.planeT plane ray * ray.direction

end Float32

/-- The library function `sqrtf` on binary32 numbers, correctly rounded as IEEE 754 asks:
the binary32 number nearest to the square root.  The result of a binary32 argument is
never a tie and never below the normal range. -/
def sqrt32 (q : ℚ) : ℚ :=
  if q ≤ 0 then 0
  else
    let u : ℤ := Int.log 2 q / 2 - 23
    let x : ℚ := q / 2 ^ (2 * u)
    let f : ℕ := Nat.sqrt ⌊x⌋.toNat
    let n : ℕ := if x ≤ f * f + f + 1 / 4 then f else f + 1
    n * 2 ^ u

namespace Float32

variable {K : Type} [LinearOrderedField K]

end Float32

/-! ## Concrete inputs -/

namespace Examples

/-- The ray from the world origin along `+z`, with the default interval
`[0.0001, FLT_MAX]`. -/
def rayZ : Ray ℚ := { origin := ⟨0, 0, 0⟩, direction := ⟨0, 0, 1⟩ }

/-- A unit sphere ahead of `rayZ`. -/
def sphereAhead : Sphere ℚ := { origin := ⟨0, 0, 5⟩, radius := 1, materialIndex := 3 }

/-- A unit sphere whose surface is `1/20000` ahead of the origin of `rayZ`. -/
def sphereTouching : Sphere ℚ := { origin := ⟨0, 0, 1 + 1 / 20000⟩, radius := 1, materialIndex := 3 }

/-- The plane `z = 7` with normal `+z`. -/
def planeZ7 : Plane ℚ := { origin := ⟨0, 0, 7⟩, normal := ⟨0, 0, 1⟩, materialIndex := 2 }

/-- A triangle in the plane `z = FLT_MAX`, around the line of `rayZ`, never culled. -/
def triangleFar : Triangle ℚ :=
  { v0 := ⟨-1 / 4, -1 / 4, FLT_MAX⟩
    v1 := ⟨1 / 4, -1 / 4, FLT_MAX⟩
    v2 := ⟨0, 1 / 4, FLT_MAX⟩
    normal := ⟨0, 0, 1⟩
    cullMode := TriangleCullMode.NoCulling
    materialIndex := 1 }

/-- A mesh of two triangles under `BackFaceCulling`: the first, in the plane `z = 3`,
has its normal along `+z`; the second, in the plane `z = 6`, along `-z`.  The
bounding box is that of the six positions. -/
def meshTwoFaced : TriangleMesh ℚ :=
  { indices := [0, 1, 2, 3, 4, 5]
    materialIndex := 4
    cullMode := TriangleCullMode.BackFaceCulling
    transformedMinAABB := ⟨0, 0, 3⟩
    transformedMaxAABB := ⟨8, 16, 6⟩
    transformedPositions :=
      [⟨0, 0, 3⟩, ⟨4, 0, 3⟩, ⟨0, 8, 3⟩, ⟨0, 0, 6⟩, ⟨0, 16, 6⟩, ⟨8, 0, 6⟩] }

/-- The second sub-triangle of `meshTwoFaced`, as the mesh loops build it. -/
def triangleFarFace : Triangle ℚ :=
  { v0 := ⟨0, 0, 6⟩
    v1 := ⟨0, 16, 6⟩
    v2 := ⟨8, 0, 6⟩
    normal := ⟨0, 0, -1⟩
    cullMode := TriangleCullMode.BackFaceCulling
    materialIndex := 4 }

/-- The unit-direction ray from the world origin along `(1/3, 2/3, 2/3)`, with the
default interval. -/
def rayDiag : Ray ℚ := { origin := ⟨0, 0, 0⟩, direction := ⟨1 / 3, 2 / 3, 2 / 3⟩ }

/-- The plane `z = 12` with normal `+z`, behind `meshTwoFaced` as seen along `rayDiag`. -/
def planeZ12 : Plane ℚ := { origin := ⟨0, 0, 12⟩, normal := ⟨0, 0, 1⟩, materialIndex := 2 }

/-- The ray from the world origin along `-z`, with the default interval. -/
def rayBack : Ray ℚ := { origin := ⟨0, 0, 0⟩, direction := ⟨0, 0, -1⟩ }

/-- A scene of one sphere, `sphereAhead`. -/
def sceneSphere : Scene ℚ := { m_SphereGeometries := [sphereAhead] }

/-- The record `GetClosestHit` leaves when `rayZ` is traced through `sceneSphere`. -/
def recordAfterHit : HitRecord ℚ :=
  { origin := ⟨0, 0, 4⟩, normal := ⟨0, 0, -1⟩, t := 4, didHit := true, materialIndex := 3 }

/-- The buffers of `meshTwoFaced` with a bounding box moved away from them, to
`[100, 101]^3`. -/
def meshStaleBox : TriangleMesh ℚ :=
  { indices := [0, 1, 2, 3, 4, 5]
    materialIndex := 4
    cullMode := TriangleCullMode.BackFaceCulling
    transformedMinAABB := ⟨100, 100, 100⟩
    transformedMaxAABB := ⟨101, 101, 101⟩
    transformedPositions :=
      [⟨0, 0, 3⟩, ⟨4, 0, 3⟩, ⟨0, 8, 3⟩, ⟨0, 0, 6⟩, ⟨0, 16, 6⟩, ⟨8, 0, 6⟩] }

/-- The ray from the world origin along `(2^-104, 2^-104, 1)`, with the default interval.
Every component is a binary32 number, and so is its length as `Magnitude` computes it
(`1`).  At `t = FLT_MAX = (2^24 - 1) * 2^104` it reaches `(2^24 - 1, 2^24 - 1, FLT_MAX)`. -/
def raySentinel : Ray ℚ := { origin := ⟨0, 0, 0⟩, direction := ⟨1 / 2 ^ 104, 1 / 2 ^ 104, 1⟩ }

/-- A mesh of one triangle in the plane `z = FLT_MAX`, with a vertex at the point where
`raySentinel` reaches `t = FLT_MAX`; the bounding box is that of its three positions.
All coordinates are binary32 numbers, and on `raySentinel` every intermediate value of
the slab test and of the triangle test is one too, so that no operation rounds. -/
def meshAtSentinel : TriangleMesh ℚ :=
  { indices := [0, 1, 2]
    materialIndex := 4
    cullMode := TriangleCullMode.NoCulling
    transformedMinAABB := ⟨16777214, 16777214, FLT_MAX⟩
    transformedMaxAABB := ⟨16777215, 16777215, FLT_MAX⟩
    transformedPositions :=
      [⟨16777215, 16777215, FLT_MAX⟩,
       ⟨16777214, 16777215, FLT_MAX⟩,
       ⟨16777215, 16777214, FLT_MAX⟩] }

/-- The sub-triangle of `meshAtSentinel`, as the mesh loops build it. -/
def triangleAtSentinel : Triangle ℚ :=
  { v0 := ⟨16777215, 16777215, FLT_MAX⟩
    v1 := ⟨16777214, 16777215, FLT_MAX⟩
    v2 := ⟨16777215, 16777214, FLT_MAX⟩
    normal := ⟨0, 0, 1⟩
    cullMode := TriangleCullMode.NoCulling
    materialIndex := 4 }

/-- A triangle in the plane `z = 2` whose edge cross product is `(0, 0, -4)`. -/
def triangleFlat : Triangle ℚ :=
  { v0 := ⟨-1, -1, 2⟩
    v1 := ⟨0, 1, 2⟩
    v2 := ⟨1, -1, 2⟩
    normal := ⟨0, 0, -1⟩
    cullMode := TriangleCullMode.BackFaceCulling
    materialIndex := 1 }

/-- A triangle in the plane `z = 3`, with the normal its three-vertex constructor
computes. -/
def triangleAppended : Triangle ℚ :=
  { v0 := ⟨0, 0, 3⟩
    v1 := ⟨4, 0, 3⟩
    v2 := ⟨0, 8, 3⟩
    normal := ⟨0, 0, 1⟩ }

/-- The ray from `(1/2, 1/2, 0)` along the unit direction `(1/3, 2/3, 2/3)`, with the
default interval; it crosses the plane `z = 3` at `t = 9/2`, in `(2, 7/2, 3)`. -/
def rayAside : Ray ℚ := { origin := ⟨1 / 2, 1 / 2, 0⟩, direction := ⟨1 / 3, 2 / 3, 2 / 3⟩ }

/-- The default-constructed mesh `TriangleMesh{}` after `AppendTriangle(triangleAppended)`
with the default `ignoreTransformUpdate = false`. -/
def meshAppended : TriangleMesh ℚ :=
  TriangleMesh.AppendTriangle Rat.sqrt {} triangleAppended false

/-- The same mesh built the way `Scene.cpp` does: `AppendTriangle(triangle, true)`, then
`UpdateAABB()` and `UpdateTransforms()`. -/
def meshAppendedRefreshed : TriangleMesh ℚ :=
  TriangleMesh.UpdateTransforms Rat.sqrt
    (TriangleMesh.UpdateAABB (TriangleMesh.AppendTriangle Rat.sqrt {} triangleAppended true))

/-- A mesh of three positions, rotated a quarter turn about the y axis, translated by
`(1, 2, 3)` and scaled by 2, before its boxes and transformed buffers are computed. -/
def meshQuarterTurn : TriangleMesh ℚ :=
  { indices := [0, 1, 2]
    positions := [⟨-1, -1, 5⟩, ⟨1, -1, 5⟩, ⟨0, 1, 5⟩]
    normals := [⟨0, 0, 1⟩]
    rotationTransform := ⟨⟨0, 0, -1, 0⟩, ⟨0, 1, 0, 0⟩, ⟨1, 0, 0, 0⟩, ⟨0, 0, 0, 1⟩⟩
    translationTransform := ⟨⟨1, 0, 0, 0⟩, ⟨0, 1, 0, 0⟩, ⟨0, 0, 1, 0⟩, ⟨1, 2, 3, 1⟩⟩
    scaleTransform := ⟨⟨2, 0, 0, 0⟩, ⟨0, 2, 0, 0⟩, ⟨0, 0, 2, 0⟩, ⟨0, 0, 0, 1⟩⟩ }

/-- A stand-in for `std::pow` over the rationals, exact for exponents that are natural
numbers: the base raised to the numerator of the exponent. -/
def powNat (x e : ℚ) : ℚ := x ^ e.num.toNat

/-- The ray `rayZ` with the binary32 value of `0.0001f` as its `min`. -/
def rayZ32 : Ray ℚ := { origin := ⟨0, 0, 0⟩, direction := ⟨0, 0, 1⟩, min := epsilon32 }

/-- A sphere of radius `1/2` whose centre is `8192` ahead of the world origin and `1`
off the z axis: the line of `rayZ32` passes it at distance `1`. -/
def sphereOffAxis : Sphere ℚ := { origin := ⟨0, 1, 8192⟩, radius := 1 / 2, materialIndex := 3 }

/-- The plane `z = 3` with normal `+z`. -/
def planeZ3 : Plane ℚ := { origin := ⟨0, 0, 3⟩, normal := ⟨0, 0, 1⟩, materialIndex := 2 }

/-- The ray from the world origin whose direction is `(3/7, 6/7, 2/7)` rounded to
binary32 component by component; `Magnitude` computes its length as `1`. -/
def rayTilt : Ray ℚ :=
  { origin := ⟨0, 0, 0⟩
    direction := ⟨14380471 / 2 ^ 25, 14380471 / 2 ^ 24, 9586981 / 2 ^ 25⟩
    min := epsilon32 }

/-- The ray from the world origin along `(1/4, 1/4, 1)`, with the default interval: it
meets the plane `z = 3` in `(3/4, 3/4, 3)`. -/
def rayQuarter : Ray ℚ := { origin := ⟨0, 0, 0⟩, direction := ⟨1 / 4, 1 / 4, 1⟩ }

end Examples

end dae

namespace dae

open GeometryUtils Scene

section VectorLemmas

variable {K : Type} [LinearOrderedField K]

@[simp] theorem Vector3.add_x (a b : Vector3 K) : (a + b).x = a.x + b.x := rfl
@[simp] theorem Vector3.add_y (a b : Vector3 K) : (a + b).y = a.y + b.y := rfl
@[simp] theorem Vector3.add_z (a b : Vector3 K) : (a + b).z = a.z + b.z := rfl
@[simp] theorem Vector3.sub_x (a b : Vector3 K) : (a - b).x = a.x - b.x := rfl
@[simp] theorem Vector3.sub_y (a b : Vector3 K) : (a - b).y = a.y - b.y := rfl
@[simp] theorem Vector3.sub_z (a b : Vector3 K) : (a - b).z = a.z - b.z := rfl
@[simp] theorem Vector3.neg_x (a : Vector3 K) : (-a).x = -a.x := rfl
@[simp] theorem Vector3.neg_y (a : Vector3 K) : (-a).y = -a.y := rfl
@[simp] theorem Vector3.neg_z (a : Vector3 K) : (-a).z = -a.z := rfl
@[simp] theorem Vector3.smul_x (t : K) (a : Vector3 K) : (t * a).x = t * a.x := rfl
@[simp] theorem Vector3.smul_y (t : K) (a : Vector3 K) : (t * a).y = t * a.y := rfl
@[simp] theorem Vector3.smul_z (t : K) (a : Vector3 K) : (t * a).z = t * a.z := rfl
theorem Vector3.add_def (a b : Vector3 K) : a + b = ⟨a.x + b.x, a.y + b.y, a.z + b.z⟩ := rfl
theorem Vector3.sub_def (a b : Vector3 K) : a - b = ⟨a.x - b.x, a.y - b.y, a.z - b.z⟩ := rfl
theorem Vector3.neg_def (a : Vector3 K) : -a = ⟨-a.x, -a.y, -a.z⟩ := rfl
theorem Vector3.smul_def (t : K) (a : Vector3 K) :
    t * a = (⟨t * a.x, t * a.y, t * a.z⟩ : Vector3 K) := rfl
theorem Vector3.default_def : (default : Vector3 K) = ⟨0, 0, 0⟩ := rfl
@[simp] theorem Vector3.default_x : (default : Vector3 K).x = 0 := rfl
@[simp] theorem Vector3.default_y : (default : Vector3 K).y = 0 := rfl
@[simp] theorem Vector3.default_z : (default : Vector3 K).z = 0 := rfl

theorem Vector3.Dot_neg_left (a b : Vector3 K) : Vector3.Dot (-a) b = -Vector3.Dot a b := by
  simp only [Vector3.Dot, Vector3.neg_x, Vector3.neg_y, Vector3.neg_z]
  ring

end VectorLemmas

/-- `Rat.sqrt` returns the root of the square of a non-negative rational. -/
theorem rat_sqrt_sq (q : ℚ) (h : 0 ≤ q) : Rat.sqrt (q * q) = q := by
  rw [Rat.sqrt_eq, abs_of_nonneg h]

section SphereLemmas

variable {K : Type} [LinearOrderedField K]

/-- A failed `HitTest_Sphere` leaves the record as it was passed in. -/
theorem HitTest_Sphere_snd_of_false (sqrtf : K → K) (sphere : Sphere K) (ray : Ray K)
    (hitRecord : HitRecord K) (ignoreHitRecord : Bool)
    (h : (HitTest_Sphere sqrtf sphere ray hitRecord ignoreHitRecord).1 = false) :
    (HitTest_Sphere sqrtf sphere ray hitRecord ignoreHitRecord).2 = hitRecord := by
  unfold HitTest_Sphere at h ⊢
  simp only [] at h ⊢
  split_ifs at h ⊢ <;> rfl

/-- The record written by a successful `HitTest_Sphere` with `ignoreHitRecord = false`. -/
theorem HitTest_Sphere_snd_of_true (sqrtf : K → K) (sphere : Sphere K) (ray : Ray K)
    (hitRecord : HitRecord K)
    (h : (HitTest_Sphere sqrtf sphere ray hitRecord false).1 = true) :
    (HitTest_Sphere sqrtf sphere ray hitRecord false).2 =
      { origin := ray.origin + sphereNearRoot sqrtf sphere ray * ray.direction
        normal := Vector3.Normalized sqrtf
          (ray.origin + sphereNearRoot sqrtf sphere ray * ray.direction - sphere.origin)
        t := sphereNearRoot sqrtf sphere ray
        didHit := true
        materialIndex := sphere.materialIndex } := by
  unfold HitTest_Sphere at h ⊢
  unfold sphereNearRoot sphereSqrtArg
  simp only [] at h ⊢
  split_ifs at h ⊢ with h1 h2 h3 <;> first | rfl | exact absurd rfl h3

end SphereLemmas

section IndexLemmas

variable {K : Type}

/-- Two vectors with equal components are equal. -/
theorem Vector3.eq_of_components (a b : Vector3 K) (hx : a.x = b.x) (hy : a.y = b.y)
    (hz : a.z = b.z) : a = b := by
  cases a
  cases b
  simp only [Vector3.mk.injEq]
  exact ⟨hx, hy, hz⟩

/-- A valid index reads a position. -/
theorem positionAt_of_valid (positions : List (Vector3 K)) (i : Int)
    (h : 0 ≤ i ∧ i.toNat < positions.length) : ∃ p, positionAt positions i = some p := by
  unfold positionAt
  rw [if_pos h.1]
  exact ⟨positions[i.toNat], List.getElem?_eq_getElem h.2⟩

/-- A position read from a buffer is an entry of the buffer. -/
theorem positionAt_mem (positions : List (Vector3 K)) (i : Int) (p : Vector3 K)
    (h : positionAt positions i = some p) : p ∈ positions := by
  unfold positionAt at h
  split_ifs at h
  exact List.getElem?_mem h

/-- Validity of an index buffer passes to the buffer past its first three indices. -/
theorem IndicesValid_tail [LinearOrderedField K] (mesh : TriangleMesh K) (i0 i1 i2 : Int)
    (rest : List Int)
    (h : IndicesValid mesh (i0 :: i1 :: i2 :: rest)) : IndicesValid mesh rest := by
  obtain ⟨hlen, hall⟩ := h
  refine ⟨?_, fun i hi => hall i (by simp [hi])⟩
  simp only [List.length_cons] at hlen
  omega

end IndexLemmas

section SceneLemmas

variable {K : Type} [LinearOrderedField K]

/-- A left fold whose step leaves the state alone on every element returns the state. -/
theorem foldl_eq_of_fixed {α β : Type} (f : β → α → β) (st : β) (l : List α)
    (h : ∀ a ∈ l, f st a = st) : l.foldl f st = st := by
  induction l with
  | nil => rfl
  | cons a l ih =>
    rw [List.foldl_cons, h a (List.mem_cons_self a l)]
    exact ih (fun b hb => h b (List.mem_cons_of_mem a hb))

/-- A successful `HitTest_Plane` has its `t` at most `ray.max`. -/
theorem HitTest_Plane_t_le_max (plane : Plane K) (ray : Ray K) (hitRecord : HitRecord K)
    (h : (HitTest_Plane plane ray hitRecord false).1 = true) :
    (HitTest_Plane plane ray hitRecord false).2.t ≤ ray.max
    ∧ (HitTest_Plane plane ray hitRecord false).2.didHit = true
    ∧ (HitTest_Plane plane ray hitRecord false).2.materialIndex = plane.materialIndex := by
  unfold HitTest_Plane at h ⊢
  simp only [Bool.not_false, if_true] at h ⊢
  split_ifs at h ⊢ with h1 h2 <;> exact ⟨h2.2, rfl, rfl⟩

/-- A successful `HitTest_Triangle` with `ignoreHitRecord = false` sets `didHit`, copies
the triangle's normal and material index, and has `ray.min ≤ t ≤ ray.max`. -/
theorem HitTest_Triangle_of_true (triangle : Triangle K) (ray : Ray K) (hitRecord : HitRecord K)
    (h : (HitTest_Triangle triangle ray hitRecord false).1 = true) :
    (HitTest_Triangle triangle ray hitRecord false).2.didHit = true
    ∧ (HitTest_Triangle triangle ray hitRecord false).2.normal = triangle.normal
    ∧ (HitTest_Triangle triangle ray hitRecord false).2.materialIndex = triangle.materialIndex
    ∧ ray.min ≤ (HitTest_Triangle triangle ray hitRecord false).2.t
    ∧ (HitTest_Triangle triangle ray hitRecord false).2.t ≤ ray.max := by
  unfold HitTest_Triangle at h ⊢
  simp only [Bool.not_false, if_true] at h ⊢
  split_ifs at h ⊢ with h1 h2 h3 h4 h5
  push_neg at h2
  exact ⟨rfl, rfl, rfl, h2.1, h2.2⟩

/-- A failed `HitTest_Triangle` leaves the record as it was passed in. -/
theorem HitTest_Triangle_snd_of_false (triangle : Triangle K) (ray : Ray K)
    (hitRecord : HitRecord K) (ignoreHitRecord : Bool)
    (h : (HitTest_Triangle triangle ray hitRecord ignoreHitRecord).1 = false) :
    (HitTest_Triangle triangle ray hitRecord ignoreHitRecord).2 = hitRecord := by
  unfold HitTest_Triangle at h ⊢
  simp only [] at h ⊢
  split_ifs at h ⊢ <;> rfl

/-- The boolean of `HitTest_Triangle` does not depend on the record passed in nor on
`ignoreHitRecord`. -/
theorem HitTest_Triangle_fst_indep (triangle : Triangle K) (ray : Ray K)
    (r1 r2 : HitRecord K) (b1 b2 : Bool) :
    (HitTest_Triangle triangle ray r1 b1).1 = (HitTest_Triangle triangle ray r2 b2).1 := by
  unfold HitTest_Triangle
  simp only []
  split_ifs <;> rfl

/-- The boolean of `HitTest_Sphere` does not depend on the record passed in nor on
`ignoreHitRecord`. -/
theorem HitTest_Sphere_fst_indep (sqrtf : K → K) (sphere : Sphere K) (ray : Ray K)
    (r1 r2 : HitRecord K) (b1 b2 : Bool) :
    (HitTest_Sphere sqrtf sphere ray r1 b1).1 = (HitTest_Sphere sqrtf sphere ray r2 b2).1 := by
  unfold HitTest_Sphere
  simp only []
  split_ifs <;> rfl

/-- The boolean of `HitTest_Plane` does not depend on the record passed in nor on
`ignoreHitRecord`. -/
theorem HitTest_Plane_fst_indep (plane : Plane K) (ray : Ray K)
    (r1 r2 : HitRecord K) (b1 b2 : Bool) :
    (HitTest_Plane plane ray r1 b1).1 = (HitTest_Plane plane ray r2 b2).1 := by
  unfold HitTest_Plane
  simp only []
  split_ifs <;> rfl

/-- The cull switch, spelled out by cases. -/
theorem culled_eq_true_iff (cullMode : TriangleCullMode) (normal direction : Vector3 K) :
    culled cullMode normal direction = true ↔
      (cullMode = TriangleCullMode.BackFaceCulling ∧ Vector3.Dot normal direction > 0)
      ∨ (cullMode = TriangleCullMode.FrontFaceCulling ∧ Vector3.Dot normal direction < 0) := by
  cases cullMode <;> simp [culled]

/-- The mesh loop of `GetClosestHit` returns its state when every mesh is missed or its
reported hit is culled. -/
theorem meshesLoop_eq_of_no_hit (sqrtf : K → K) (ray : Ray K) (st : K × HitRecord K)
    (l : List (TriangleMesh K))
    (h : ∀ m ∈ l, ∃ r, HitTest_TriangleMesh sqrtf m ray {} false = some r
      ∧ (r.1 = true → culled m.cullMode r.2.normal ray.direction = true)) :
    meshesLoop sqrtf ray l st = some st := by
  induction l with
  | nil => rfl
  | cons m l ih =>
    obtain ⟨r, hr, hc⟩ := h m (List.mem_cons_self m l)
    have ih' := ih (fun b hb => h b (List.mem_cons_of_mem m hb))
    unfold meshesLoop
    rw [hr]
    simp only []
    by_cases h1 : r.1 = true
    · rw [if_pos h1, if_pos (hc h1)]
      exact ih'
    · rw [if_neg h1]
      exact ih'

/-- The first sub-triangle of an index buffer is built from its first three indices. -/
theorem subTriangleOf_zero (sqrtf : K → K) (mesh : TriangleMesh K) (i0 i1 i2 : Int)
    (rest : List Int) (p0 p1 p2 : Vector3 K)
    (h0 : positionAt mesh.transformedPositions i0 = some p0)
    (h1 : positionAt mesh.transformedPositions i1 = some p1)
    (h2 : positionAt mesh.transformedPositions i2 = some p2) :
    subTriangleOf sqrtf mesh (i0 :: i1 :: i2 :: rest) 0 = some (meshTriangle sqrtf mesh p0 p1 p2) := by
  unfold subTriangleOf
  simp only [Nat.mul_zero, Nat.zero_add, List.getElem?_cons_zero, List.getElem?_cons_succ, h0, h1,
    h2]

/-- The later sub-triangles of an index buffer are those of the buffer past its first
three indices. -/
theorem subTriangleOf_succ (sqrtf : K → K) (mesh : TriangleMesh K) (i0 i1 i2 : Int)
    (rest : List Int) (k : Nat) :
    subTriangleOf sqrtf mesh (i0 :: i1 :: i2 :: rest) (k + 1) = subTriangleOf sqrtf mesh rest k := by
  have a0 : (i0 :: i1 :: i2 :: rest)[3 * (k + 1)]? = rest[3 * k]? := by
    rw [show 3 * (k + 1) = 3 * k + 1 + 1 + 1 by ring]
    simp only [List.getElem?_cons_succ]
  have a1 : (i0 :: i1 :: i2 :: rest)[3 * (k + 1) + 1]? = rest[3 * k + 1]? := by
    rw [show 3 * (k + 1) + 1 = 3 * k + 1 + 1 + 1 + 1 by ring]
    simp only [List.getElem?_cons_succ]
  have a2 : (i0 :: i1 :: i2 :: rest)[3 * (k + 1) + 2]? = rest[3 * k + 2]? := by
    rw [show 3 * (k + 1) + 2 = 3 * k + 2 + 1 + 1 + 1 by ring]
    simp only [List.getElem?_cons_succ]
  simp only [subTriangleOf, a0, a1, a2]

/-- An empty index buffer has no sub-triangle. -/
theorem subTriangleOf_nil (sqrtf : K → K) (mesh : TriangleMesh K) (k : Nat) :
    subTriangleOf sqrtf mesh [] k = none := by
  unfold subTriangleOf
  simp only [List.getElem?_nil]

/-- On a valid index buffer the inner loop of `DoesHit` returns, and returns true exactly
when some sub-triangle passes the boolean triangle test. -/
theorem doesHitIndices_spec (sqrtf : K → K) (mesh : TriangleMesh K) (ray : Ray K) :
    ∀ (indices : List Int), IndicesValid mesh indices →
      ∃ b, doesHitIndices sqrtf mesh ray indices = some b
        ∧ (b = true ↔ ∃ k tri, subTriangleOf sqrtf mesh indices k = some tri
            ∧ HitTest_Triangle_Bool tri ray = true)
  | [], _ => ⟨false, rfl, by simp [subTriangleOf_nil]⟩
  | [_], h => absurd h.1 (by simp)
  | [_, _], h => absurd h.1 (by simp)
  | i0 :: i1 :: i2 :: rest, h => by
    obtain ⟨b, hb, hiff⟩ := doesHitIndices_spec sqrtf mesh ray rest (IndicesValid_tail mesh i0 i1 i2 rest h)
    obtain ⟨p0, h0⟩ := positionAt_of_valid mesh.transformedPositions i0 (h.2 i0 (by simp))
    obtain ⟨p1, h1⟩ := positionAt_of_valid mesh.transformedPositions i1 (h.2 i1 (by simp))
    obtain ⟨p2, h2⟩ := positionAt_of_valid mesh.transformedPositions i2 (h.2 i2 (by simp))
    have hz := subTriangleOf_zero sqrtf mesh i0 i1 i2 rest p0 p1 p2 h0 h1 h2
    by_cases hhit : HitTest_Triangle_Bool (meshTriangle sqrtf mesh p0 p1 p2) ray = true
    · refine ⟨true, ?_, ?_⟩
      · simp only [doesHitIndices, h0, h1, h2, hhit, if_true]
      · simp only [true_iff]
        exact ⟨0, _, hz, hhit⟩
    · refine ⟨b, ?_, ?_⟩
      · simp only [doesHitIndices, h0, h1, h2, hhit, if_false]
        exact hb
      · rw [hiff]
        constructor
        · rintro ⟨k, tri, hk, ht⟩
          exact ⟨k + 1, tri, by rw [subTriangleOf_succ]; exact hk, ht⟩
        · rintro ⟨k, tri, hk, ht⟩
          cases k with
          | zero =>
            rw [hz] at hk
            cases hk
            exact absurd ht hhit
          | succ k =>
            rw [subTriangleOf_succ] at hk
            exact ⟨k, tri, hk, ht⟩

/-- On meshes that satisfy the index invariant the mesh loop of `DoesHit` returns, and
returns true exactly when some sub-triangle of some mesh passes the boolean test. -/
theorem doesHitMeshes_spec (sqrtf : K → K) (ray : Ray K) :
    ∀ (meshes : List (TriangleMesh K)), (∀ m ∈ meshes, IndexInvariant m) →
      ∃ b, doesHitMeshes sqrtf ray meshes = some b
        ∧ (b = true ↔ ∃ m ∈ meshes, ∃ k tri, subTriangleAt sqrtf m k = some tri
            ∧ HitTest_Triangle_Bool tri ray = true)
  | [], _ => ⟨false, rfl, by simp⟩
  | mesh :: rest, h => by
    obtain ⟨b, hb, hiff⟩ := doesHitMeshes_spec sqrtf ray rest
      (fun m hm => h m (List.mem_cons_of_mem mesh hm))
    obtain ⟨c, hc, hciff⟩ := doesHitIndices_spec sqrtf mesh ray mesh.indices
      (h mesh (List.mem_cons_self mesh rest))
    cases c with
    | true =>
      refine ⟨true, ?_, ?_⟩
      · simp only [doesHitMeshes, hc]
      · simp only [true_iff]
        obtain ⟨k, tri, hk, ht⟩ := hciff.mp rfl
        exact ⟨mesh, List.mem_cons_self mesh rest, k, tri, hk, ht⟩
    | false =>
      refine ⟨b, ?_, ?_⟩
      · simp only [doesHitMeshes, hc]
        exact hb
      · rw [hiff]
        constructor
        · rintro ⟨m, hm, k, tri, hk, ht⟩
          exact ⟨m, List.mem_cons_of_mem mesh hm, k, tri, hk, ht⟩
        · rintro ⟨m, hm, k, tri, hk, ht⟩
          rcases List.mem_cons.mp hm with rfl | hm'
          · exact absurd (hciff.mpr ⟨k, tri, hk, ht⟩) (by simp)
          · exact ⟨m, hm', k, tri, hk, ht⟩

end SceneLemmas

open Examples

section SphereClaims

variable {K : Type} [LinearOrderedField K]

/-- C9 (the code at the failing input): the surface of `sphereTouching` is `1/20000`
ahead of the origin of `rayZ`, whose interval is `[1/10000, FLT_MAX]`.  The near root
`1/20000` lies below `ray.min`, yet `HitTest_Sphere` reports the hit with that `t`: the
lower bound it tests is `0`, not `ray.min`. -/
theorem HitTest_Sphere_below_min :
    HitTest_Sphere Rat.sqrt sphereTouching rayZ {} false
      = (true, { origin := ⟨0, 0, 1 / 20000⟩
                 normal := ⟨0, 0, -1⟩
                 t := 1 / 20000
                 didHit := true
                 materialIndex := 3 })
    ∧ (1 / 20000 : ℚ) < rayZ.min
    ∧ sphereNearRoot Rat.sqrt sphereTouching rayZ = 1 / 20000 := by
  have r1 : Rat.sqrt 1 = 1 := by simp
  refine ⟨?_, ?_, ?_⟩
  · norm_num [HitTest_Sphere, sphereTouching, rayZ, Vector3.Dot, Vector3.Normalized,
      Vector3.Magnitude, FLT_MAX, r1, Vector3.add_def, Vector3.sub_def, Vector3.smul_def]
  · norm_num [rayZ]
  · norm_num [sphereNearRoot, sphereSqrtArg, sphereTouching, rayZ, Vector3.Dot, r1]

/-- C10: whenever `HitTest_Plane` reports a hit, the normal written to the record is
`plane.normal` when `denom < 0` and `-plane.normal` otherwise, and it satisfies
`dot(hitRecord.normal, ray.direction) ≤ 0`. -/
theorem HitTest_Plane_normal_faces_ray (plane : Plane K) (ray : Ray K) (hitRecord : HitRecord K)
    (hhit : (HitTest_Plane plane ray hitRecord false).1 = true) :
    Vector3.Dot (HitTest_Plane plane ray hitRecord false).2.normal ray.direction ≤ 0
    ∧ (HitTest_Plane plane ray hitRecord false).2.normal
        = (if Vector3.Dot plane.normal ray.direction < 0 then plane.normal else -plane.normal) := by
  unfold HitTest_Plane at hhit ⊢
  simp only [Bool.not_false, if_true] at hhit ⊢
  split_ifs at hhit ⊢ with h1 h2 h3
  · exact ⟨le_of_lt h3, rfl⟩
  · refine ⟨?_, rfl⟩
    show Vector3.Dot (-plane.normal) ray.direction ≤ 0
    rw [Vector3.Dot_neg_left]
    push_neg at h3
    linarith

/-- Witness for C10: `rayZ` hits `planeZ7` from the side its normal points away from, so
the reported normal is the flipped one. -/
theorem HitTest_Plane_normal_faces_ray_witness :
    (HitTest_Plane planeZ7 rayZ {} false).1 = true
    ∧ Vector3.Dot (HitTest_Plane planeZ7 rayZ {} false).2.normal rayZ.direction ≤ 0 := by
  have h : (HitTest_Plane planeZ7 rayZ {} false).1 = true := by
    norm_num [HitTest_Plane, planeZ7, rayZ, Vector3.Dot, FLT_MAX]
  exact ⟨h, (HitTest_Plane_normal_faces_ray planeZ7 rayZ {} h).1⟩

end SphereClaims

section SceneClaims

variable {K : Type} [LinearOrderedField K]

/-- Counterexample to C2 as stated: tracing `rayZ` through `sceneSphere` leaves
`recordAfterHit` (`t = 4`); `rayBack` hits nothing in that scene, and `GetClosestHit`
called on it with the reused record leaves `didHit = false` but `t = 4`, not `FLT_MAX`. -/
theorem GetClosestHit_reused_record_counterexample :
    GetClosestHit Rat.sqrt sceneSphere rayZ {} = some recordAfterHit
    ∧ (HitTest_Sphere Rat.sqrt sphereAhead rayBack {} false).1 = false
    ∧ GetClosestHit Rat.sqrt sceneSphere rayBack recordAfterHit
        = some { recordAfterHit with didHit := false }
    ∧ ({ recordAfterHit with didHit := false } : HitRecord ℚ).t ≠ FLT_MAX := by
  have r1 : Rat.sqrt 1 = 1 := by simp
  refine ⟨?_, ?_, ?_, ?_⟩
  · norm_num [GetClosestHit, sceneSphere, meshesLoop, sphereStep, keepCloser, HitTest_Sphere,
      sphereAhead, rayZ, recordAfterHit, Vector3.Dot, Vector3.Normalized, Vector3.Magnitude,
      FLT_MAX, r1, Vector3.add_def, Vector3.sub_def, Vector3.smul_def]
  · norm_num [HitTest_Sphere, sphereAhead, rayBack, Vector3.Dot, r1]
  · norm_num [GetClosestHit, sceneSphere, meshesLoop, sphereStep, keepCloser, HitTest_Sphere,
      sphereAhead, rayBack, recordAfterHit, Vector3.Dot, r1]
  · norm_num [recordAfterHit, FLT_MAX]

/-- C2 (amended): when the ray hits nothing (every sphere and plane test fails, every
standalone triangle and every mesh is missed or its hit is culled), `GetClosestHit`
leaves the record with `didHit = false` and every other field, `t` included, as it came
in; so `t` is `FLT_MAX` when the incoming record carries `FLT_MAX` (a freshly constructed
one does). -/
theorem GetClosestHit_miss (sqrtf : K → K) (scene : Scene K) (ray : Ray K)
    (closestHit : HitRecord K)
    (hS : ∀ s ∈ scene.m_SphereGeometries, (HitTest_Sphere sqrtf s ray {} false).1 = false)
    (hP : ∀ p ∈ scene.m_PlaneGeometries, (HitTest_Plane p ray {} false).1 = false)
    (hT : ∀ t ∈ scene.m_Triangles, (HitTest_Triangle t ray {} false).1 = true →
      culled t.cullMode t.normal ray.direction = true)
    (hM : ∀ m ∈ scene.m_TriangleMeshGeometries,
      ∃ r, HitTest_TriangleMesh sqrtf m ray {} false = some r
        ∧ (r.1 = true → culled m.cullMode r.2.normal ray.direction = true)) :
    GetClosestHit sqrtf scene ray closestHit = some { closestHit with didHit := false }
    ∧ (closestHit.t = FLT_MAX → ∀ r, GetClosestHit sqrtf scene ray closestHit = some r →
        r.didHit = false ∧ r.t = FLT_MAX) := by
  have key : GetClosestHit sqrtf scene ray closestHit
      = some { closestHit with didHit := false } := by
    unfold GetClosestHit
    simp only []
    rw [foldl_eq_of_fixed (sphereStep sqrtf ray) _ _
      (fun s hs => by simp only [sphereStep, hS s hs, Bool.false_eq_true, if_false])]
    rw [foldl_eq_of_fixed (planeStep ray) _ _
      (fun p hp => by simp only [planeStep, hP p hp, Bool.false_eq_true, if_false])]
    rw [foldl_eq_of_fixed (triangleStep ray) _ _
      (fun t ht => by
        by_cases h1 : (HitTest_Triangle t ray {} false).1 = true
        · simp only [triangleStep, h1, hT t ht h1, if_true]
        · simp only [triangleStep, h1, Bool.false_eq_true, if_false])]
    rw [meshesLoop_eq_of_no_hit sqrtf ray _ _ hM]
    rfl
  refine ⟨key, ?_⟩
  intro ht r hr
  rw [key] at hr
  cases hr
  exact ⟨rfl, ht⟩

/-- Witness for the amended C2: `rayBack` through `sceneSphere`, on the reused record. -/
theorem GetClosestHit_miss_witness :
    GetClosestHit Rat.sqrt sceneSphere rayBack recordAfterHit
      = some { recordAfterHit with didHit := false } := by
  have r1 : Rat.sqrt 1 = 1 := by simp
  refine (GetClosestHit_miss Rat.sqrt sceneSphere rayBack recordAfterHit ?_ ?_ ?_ ?_).1
  · intro s hs
    have e : s = sphereAhead := by simpa [sceneSphere] using hs
    subst e
    norm_num [HitTest_Sphere, sphereAhead, rayBack, Vector3.Dot, r1]
  · intro p hp
    simp [sceneSphere] at hp
  · intro t ht
    simp [sceneSphere] at ht
  · intro m hm
    simp [sceneSphere] at hm

/-- C3: in a scene of exactly one sphere and one plane, when the ray hits both and the
sphere's `t` is strictly smaller than the plane's, `GetClosestHit` leaves `didHit = true`,
`t` equal to the sphere's `t` and the sphere's material index.  The ray interval is
within the range of `float` (`ray.max ≤ FLT_MAX`). -/
theorem GetClosestHit_sphere_nearer (sqrtf : K → K) (sphere : Sphere K) (plane : Plane K)
    (ray : Ray K) (closestHit : HitRecord K)
    (hmax : ray.max ≤ FLT_MAX)
    (hs : (HitTest_Sphere sqrtf sphere ray {} false).1 = true)
    (hp : (HitTest_Plane plane ray {} false).1 = true)
    (hlt : (HitTest_Sphere sqrtf sphere ray {} false).2.t
      < (HitTest_Plane plane ray {} false).2.t) :
    ∃ r, GetClosestHit sqrtf
          { m_SphereGeometries := [sphere], m_PlaneGeometries := [plane] } ray closestHit = some r
      ∧ r.didHit = true
      ∧ r.t = (HitTest_Sphere sqrtf sphere ray {} false).2.t
      ∧ r.materialIndex = sphere.materialIndex := by
  obtain ⟨hpt, _, _⟩ := HitTest_Plane_t_le_max plane ray {} hp
  have hsrec := HitTest_Sphere_snd_of_true sqrtf sphere ray {} hs
  have hsd : (HitTest_Sphere sqrtf sphere ray {} false).2.didHit = true := by rw [hsrec]
  have hsm : (HitTest_Sphere sqrtf sphere ray {} false).2.materialIndex = sphere.materialIndex := by
    rw [hsrec]
  have hst : (HitTest_Sphere sqrtf sphere ray {} false).2.t < FLT_MAX :=
    lt_of_lt_of_le hlt (le_trans hpt hmax)
  refine ⟨(HitTest_Sphere sqrtf sphere ray {} false).2, ?_, hsd, rfl, hsm⟩
  unfold GetClosestHit
  simp only [List.foldl_cons, List.foldl_nil, meshesLoop, Option.map_some']
  have e1 : sphereStep sqrtf ray (FLT_MAX, { closestHit with didHit := false }) sphere
      = ((HitTest_Sphere sqrtf sphere ray {} false).2.t,
          (HitTest_Sphere sqrtf sphere ray {} false).2) := by
    simp only [sphereStep, hs, if_true, keepCloser]
    rw [if_pos ⟨hsd, hst⟩]
  rw [e1]
  have e2 : planeStep ray ((HitTest_Sphere sqrtf sphere ray {} false).2.t,
        (HitTest_Sphere sqrtf sphere ray {} false).2) plane
      = ((HitTest_Sphere sqrtf sphere ray {} false).2.t,
          (HitTest_Sphere sqrtf sphere ray {} false).2) := by
    simp only [planeStep, hp, if_true, keepCloser]
    rw [if_neg]
    intro h
    exact absurd h.2 (not_lt.mpr (le_of_lt hlt))
  rw [e2]

/-- Witness for C3: `rayZ` hits `sphereAhead` at `t = 4` and `planeZ7` at `t = 7`. -/
theorem GetClosestHit_sphere_nearer_witness :
    (HitTest_Sphere Rat.sqrt sphereAhead rayZ {} false).1 = true
    ∧ (HitTest_Plane planeZ7 rayZ {} false).1 = true
    ∧ (HitTest_Sphere Rat.sqrt sphereAhead rayZ {} false).2.t
        < (HitTest_Plane planeZ7 rayZ {} false).2.t
    ∧ ∃ r, GetClosestHit Rat.sqrt
          { m_SphereGeometries := [sphereAhead], m_PlaneGeometries := [planeZ7] } rayZ {} = some r
        ∧ r.didHit = true
        ∧ r.t = (HitTest_Sphere Rat.sqrt sphereAhead rayZ {} false).2.t
        ∧ r.materialIndex = sphereAhead.materialIndex := by
  have r1 : Rat.sqrt 1 = 1 := by simp
  have h0 : rayZ.max ≤ (FLT_MAX : ℚ) := by norm_num [rayZ]
  have h1 : (HitTest_Sphere Rat.sqrt sphereAhead rayZ {} false).1 = true := by
    norm_num [HitTest_Sphere, sphereAhead, rayZ, Vector3.Dot, FLT_MAX, r1]
  have h2 : (HitTest_Plane planeZ7 rayZ {} false).1 = true := by
    norm_num [HitTest_Plane, planeZ7, rayZ, Vector3.Dot, FLT_MAX]
  have h3 : (HitTest_Sphere Rat.sqrt sphereAhead rayZ {} false).2.t
      < (HitTest_Plane planeZ7 rayZ {} false).2.t := by
    norm_num [HitTest_Sphere, HitTest_Plane, sphereAhead, planeZ7, rayZ, Vector3.Dot, FLT_MAX, r1]
  exact ⟨h1, h2, h3, GetClosestHit_sphere_nearer Rat.sqrt sphereAhead planeZ7 rayZ {} h0 h1 h2 h3⟩

/-- Counterexample to C4 as stated: `triangleFar` is the only primitive, `rayZ` (default
interval, `ray.max = FLT_MAX`) hits it geometrically at `t = FLT_MAX`, its cull mode is
`NoCulling`, yet `GetClosestHit` reports no hit: the comparison with the sentinel
`closestT = FLT_MAX` is strict. -/
theorem GetClosestHit_triangle_at_sentinel_counterexample :
    (HitTest_Triangle triangleFar rayZ {} false).1 = true
    ∧ (HitTest_Triangle triangleFar rayZ {} false).2.t = FLT_MAX
    ∧ triangleFar.cullMode = TriangleCullMode.NoCulling
    ∧ GetClosestHit Rat.sqrt { m_Triangles := [triangleFar] } rayZ {} = some {} := by
  refine ⟨?_, ?_, rfl, ?_⟩
  · norm_num [HitTest_Triangle, triangleFar, rayZ, Vector3.Dot, Vector3.Cross, FLT_MAX]
  · norm_num [HitTest_Triangle, triangleFar, rayZ, Vector3.Dot, Vector3.Cross, FLT_MAX]
  · norm_num [GetClosestHit, meshesLoop, triangleStep, keepCloser, culled, HitTest_Triangle,
      triangleFar, rayZ, Vector3.Dot, Vector3.Cross, FLT_MAX]

/-- C4 (amended): in a scene whose only primitive is one standalone triangle,
`GetClosestHit` reports a hit if and only if `HitTest_Triangle` reports a geometric hit
with `t < FLT_MAX` and the cull filter accepts it: `BackFaceCulling` rejects exactly when
`dot(triangle.normal, ray.direction) > 0`, `FrontFaceCulling` exactly when that dot is
`< 0`, `NoCulling` never. -/
theorem GetClosestHit_single_triangle (sqrtf : K → K) (triangle : Triangle K) (ray : Ray K)
    (closestHit : HitRecord K) :
    ∃ r, GetClosestHit sqrtf { m_Triangles := [triangle] } ray closestHit = some r
      ∧ (r.didHit = true ↔
          (HitTest_Triangle triangle ray {} false).1 = true
          ∧ (HitTest_Triangle triangle ray {} false).2.t < FLT_MAX
          ∧ ¬ (triangle.cullMode = TriangleCullMode.BackFaceCulling
                ∧ Vector3.Dot triangle.normal ray.direction > 0)
          ∧ ¬ (triangle.cullMode = TriangleCullMode.FrontFaceCulling
                ∧ Vector3.Dot triangle.normal ray.direction < 0)) := by
  unfold GetClosestHit
  simp only [List.foldl_cons, List.foldl_nil, meshesLoop, Option.map_some']
  refine ⟨_, rfl, ?_⟩
  have hc := culled_eq_true_iff triangle.cullMode triangle.normal ray.direction
  by_cases h1 : (HitTest_Triangle triangle ray {} false).1 = true
  · have hd := (HitTest_Triangle_of_true triangle ray {} h1).1
    by_cases h2 : culled triangle.cullMode triangle.normal ray.direction = true
    · simp only [triangleStep, h1, h2, if_true, Bool.false_eq_true, false_iff, true_and]
      rintro ⟨_, h3, h4⟩
      rcases hc.mp h2 with h | h
      · exact h3 h
      · exact h4 h
    · have hn : ¬ ((triangle.cullMode = TriangleCullMode.BackFaceCulling
            ∧ Vector3.Dot triangle.normal ray.direction > 0)
          ∨ (triangle.cullMode = TriangleCullMode.FrontFaceCulling
            ∧ Vector3.Dot triangle.normal ray.direction < 0)) := fun h => h2 (hc.mpr h)
      push_neg at hn
      by_cases h3 : (HitTest_Triangle triangle ray {} false).2.t < FLT_MAX
      · simp only [triangleStep, h1, h2, if_true, if_false, keepCloser, hd, h3, and_self,
          Bool.false_eq_true, true_and, true_iff, not_and, not_lt]
        exact ⟨fun a => le_of_not_lt (fun b => absurd b (not_lt.mpr (hn.1 a))),
          fun a => le_of_not_lt (fun b => absurd b (not_lt.mpr (hn.2 a)))⟩
      · simp only [triangleStep, h1, h2, if_true, if_false, keepCloser, hd, h3, and_false,
          Bool.false_eq_true, false_and, true_and]
  · simp only [triangleStep, h1, if_false, Bool.false_eq_true, false_and]

/-- C1 (the code at the failing input): the scene holds `planeZ12` and `meshTwoFaced`.
The second sub-triangle of the mesh is hit by `rayDiag` at `t = 9` and passes the
`BackFaceCulling` filter (normal against the ray); the first is hit at `t = 9/2` and is
back-facing.  `HitTest_TriangleMesh` reduces to the nearest sub-triangle before any
filtering, so `GetClosestHit` filters the whole mesh away with the `t = 9/2` record: it
reports the plane at `t = 18`, not the minimum `t = 9` over the hits that pass the
filter, and with the mesh alone it reports no hit at all. -/
theorem GetClosestHit_mesh_filters_after_reduction :
    subTriangleAt Rat.sqrt meshTwoFaced 1 = some triangleFarFace
    ∧ HitTest_Triangle triangleFarFace rayDiag {} false
        = (true, { origin := ⟨3, 6, 6⟩, normal := ⟨0, 0, -1⟩, t := 9, didHit := true,
                   materialIndex := 4 })
    ∧ culled meshTwoFaced.cullMode triangleFarFace.normal rayDiag.direction = false
    ∧ HitTest_TriangleMesh Rat.sqrt meshTwoFaced rayDiag {} false
        = some (true, { origin := ⟨3 / 2, 3, 3⟩, normal := ⟨0, 0, 1⟩, t := 9 / 2, didHit := true,
                        materialIndex := 4 })
    ∧ GetClosestHit Rat.sqrt
          { m_PlaneGeometries := [planeZ12], m_TriangleMeshGeometries := [meshTwoFaced] }
          rayDiag {}
        = some { origin := ⟨6, 12, 12⟩, normal := ⟨0, 0, -1⟩, t := 18, didHit := true,
                 materialIndex := 2 }
    ∧ GetClosestHit Rat.sqrt { m_TriangleMeshGeometries := [meshTwoFaced] } rayDiag {}
        = some {} := by
  have r1 : Rat.sqrt 1024 = 32 := by
    have e : (1024 : ℚ) = 32 * 32 := by norm_num
    rw [e, rat_sqrt_sq 32 (by norm_num)]
  have r2 : Rat.sqrt 16384 = 128 := by
    have e : (16384 : ℚ) = 128 * 128 := by norm_num
    rw [e, rat_sqrt_sq 128 (by norm_num)]
  have p0 : positionAt meshTwoFaced.transformedPositions 0 = some ⟨0, 0, 3⟩ := rfl
  have p1 : positionAt meshTwoFaced.transformedPositions 1 = some ⟨4, 0, 3⟩ := rfl
  have p2 : positionAt meshTwoFaced.transformedPositions 2 = some ⟨0, 8, 3⟩ := rfl
  have p3 : positionAt meshTwoFaced.transformedPositions 3 = some ⟨0, 0, 6⟩ := rfl
  have p4 : positionAt meshTwoFaced.transformedPositions 4 = some ⟨0, 16, 6⟩ := rfl
  have p5 : positionAt meshTwoFaced.transformedPositions 5 = some ⟨8, 0, 6⟩ := rfl
  have hidx : meshTwoFaced.indices = [0, 1, 2, 3, 4, 5] := rfl
  have hmesh : HitTest_TriangleMesh Rat.sqrt meshTwoFaced rayDiag {} false
      = some (true, { origin := ⟨3 / 2, 3, 3⟩, normal := ⟨0, 0, 1⟩, t := 9 / 2, didHit := true,
                      materialIndex := 4 }) := by
    unfold HitTest_TriangleMesh
    rw [hidx]
    simp only [meshLoop, p0, p1, p2, p3, p4, p5]
    norm_num [SlabTest_TriangleMesh, meshTriangle, SlabTest_TriangleMesh, meshLoop, positionAt, meshTriangle,
      Triangle.ofVertices, HitTest_Triangle, meshTwoFaced, rayDiag, Vector3.Dot, Vector3.Cross,
      Vector3.Normalized, Vector3.Magnitude, FLT_MAX, r1, r2, Vector3.add_def, Vector3.sub_def,
      Vector3.smul_def]
  refine ⟨?_, ?_, ?_, hmesh, ?_, ?_⟩
  · unfold subTriangleAt subTriangleOf
    rw [hidx]
    simp only [Nat.mul_one, List.getElem?_cons_succ, List.getElem?_cons_zero, p3, p4, p5]
    norm_num [meshTriangle, Triangle.ofVertices,
      meshTwoFaced, triangleFarFace, Vector3.Cross, Vector3.Normalized, Vector3.Magnitude, r2,
      Vector3.sub_def]
  · norm_num [HitTest_Triangle, triangleFarFace, rayDiag, Vector3.Dot, Vector3.Cross, FLT_MAX,
      Vector3.add_def, Vector3.sub_def, Vector3.smul_def]
  · norm_num [culled, meshTwoFaced, triangleFarFace, rayDiag, Vector3.Dot]
  · have habs : |(2 / 3 : ℚ)| = 2 / 3 := abs_of_pos (by norm_num)
    unfold GetClosestHit
    simp only [List.foldl_nil, List.foldl_cons, meshesLoop, hmesh]
    norm_num [culled, planeStep, keepCloser, HitTest_Plane, planeZ12, meshTwoFaced, rayDiag,
      Vector3.Dot, FLT_MAX, habs, Vector3.add_def, Vector3.sub_def, Vector3.smul_def, Vector3.neg_def]
  · unfold GetClosestHit
    simp only [List.foldl_nil, meshesLoop, hmesh]
    norm_num [culled, meshTwoFaced, rayDiag, Vector3.Dot]

/-- C5: on a scene whose meshes satisfy the index invariant of the data model, `DoesHit`
returns, and returns true if and only if at least one sphere, plane, standalone triangle
or mesh sub-triangle (built from three consecutive indices into the mesh's
`transformedPositions`) passes its boolean hit test; on the scene with no primitives it
returns false. -/
theorem DoesHit_iff_some_primitive_hit (sqrtf : K → K) (scene : Scene K) (ray : Ray K)
    (hinv : ∀ m ∈ scene.m_TriangleMeshGeometries, IndexInvariant m) :
    (∃ b, DoesHit sqrtf scene ray = some b
      ∧ (b = true ↔
          (∃ s ∈ scene.m_SphereGeometries, HitTest_Sphere_Bool sqrtf s ray = true)
          ∨ (∃ p ∈ scene.m_PlaneGeometries, HitTest_Plane_Bool p ray = true)
          ∨ (∃ t ∈ scene.m_Triangles, HitTest_Triangle_Bool t ray = true)
          ∨ (∃ m ∈ scene.m_TriangleMeshGeometries, ∃ k tri,
              subTriangleAt sqrtf m k = some tri ∧ HitTest_Triangle_Bool tri ray = true)))
    ∧ DoesHit sqrtf ({} : Scene K) ray = some false := by
  refine ⟨?_, rfl⟩
  obtain ⟨b, hb, hiff⟩ := doesHitMeshes_spec sqrtf ray scene.m_TriangleMeshGeometries hinv
  unfold DoesHit
  by_cases h1 : scene.m_SphereGeometries.any (fun sphere => HitTest_Sphere_Bool sqrtf sphere ray)
      = true
  · rw [if_pos h1]
    exact ⟨true, rfl, by simp only [true_iff]; exact Or.inl (List.any_eq_true.mp h1)⟩
  · rw [if_neg h1]
    have n1 : ¬ ∃ s ∈ scene.m_SphereGeometries, HitTest_Sphere_Bool sqrtf s ray = true :=
      fun h => h1 (List.any_eq_true.mpr h)
    by_cases h2 : scene.m_PlaneGeometries.any (fun plane => HitTest_Plane_Bool plane ray) = true
    · rw [if_pos h2]
      exact ⟨true, rfl, by simp only [true_iff]; exact Or.inr (Or.inl (List.any_eq_true.mp h2))⟩
    · rw [if_neg h2]
      have n2 : ¬ ∃ p ∈ scene.m_PlaneGeometries, HitTest_Plane_Bool p ray = true :=
        fun h => h2 (List.any_eq_true.mpr h)
      by_cases h3 : scene.m_Triangles.any (fun triangle => HitTest_Triangle_Bool triangle ray)
          = true
      · rw [if_pos h3]
        exact ⟨true, rfl, by
          simp only [true_iff]; exact Or.inr (Or.inr (Or.inl (List.any_eq_true.mp h3)))⟩
      · rw [if_neg h3]
        have n3 : ¬ ∃ t ∈ scene.m_Triangles, HitTest_Triangle_Bool t ray = true :=
          fun h => h3 (List.any_eq_true.mpr h)
        refine ⟨b, hb, ?_⟩
        rw [hiff]
        constructor
        · intro h
          exact Or.inr (Or.inr (Or.inr h))
        · rintro (h | h | h | h)
          · exact absurd h n1
          · exact absurd h n2
          · exact absurd h n3
          · exact h

/-- Witness for C5: `meshTwoFaced` satisfies the index invariant, so `DoesHit` returns on
the scene made of it. -/
theorem DoesHit_iff_some_primitive_hit_witness :
    (∀ m ∈ ({ m_TriangleMeshGeometries := [meshTwoFaced] } : Scene ℚ).m_TriangleMeshGeometries,
      IndexInvariant m)
    ∧ ∃ b, DoesHit Rat.sqrt ({ m_TriangleMeshGeometries := [meshTwoFaced] } : Scene ℚ) rayDiag
          = some b
        ∧ (b = true ↔
            (∃ s ∈ ({ m_TriangleMeshGeometries := [meshTwoFaced] } : Scene ℚ).m_SphereGeometries,
              HitTest_Sphere_Bool Rat.sqrt s rayDiag = true)
            ∨ (∃ p ∈ ({ m_TriangleMeshGeometries := [meshTwoFaced] } : Scene ℚ).m_PlaneGeometries,
              HitTest_Plane_Bool p rayDiag = true)
            ∨ (∃ t ∈ ({ m_TriangleMeshGeometries := [meshTwoFaced] } : Scene ℚ).m_Triangles,
              HitTest_Triangle_Bool t rayDiag = true)
            ∨ (∃ m ∈ ({ m_TriangleMeshGeometries := [meshTwoFaced] }
                  : Scene ℚ).m_TriangleMeshGeometries,
                ∃ k tri, subTriangleAt Rat.sqrt m k = some tri
                  ∧ HitTest_Triangle_Bool tri rayDiag = true)) := by
  have h : ∀ m ∈ ({ m_TriangleMeshGeometries := [meshTwoFaced] } : Scene ℚ).m_TriangleMeshGeometries,
      IndexInvariant m := by
    intro m hm
    have e : m = meshTwoFaced := by simpa using hm
    subst e
    refine ⟨by simp [meshTwoFaced], ?_⟩
    intro i hi
    simp only [meshTwoFaced, List.mem_cons, List.mem_singleton, List.not_mem_nil, or_false] at hi
    rcases hi with rfl | rfl | rfl | rfl | rfl | rfl <;> simp [meshTwoFaced]
  exact ⟨h, (DoesHit_iff_some_primitive_hit Rat.sqrt
    { m_TriangleMeshGeometries := [meshTwoFaced] } rayDiag h).1⟩

end SceneClaims

section TriangleLemmas

variable {K : Type} [LinearOrderedField K]

/-- A non-zero vector has a positive squared length. -/
theorem Vector3.sqr_pos_of_ne_zero (a : Vector3 K) (h : a ≠ ⟨0, 0, 0⟩) :
    0 < a.x * a.x + a.y * a.y + a.z * a.z := by
  obtain ⟨x, y, z⟩ := a
  by_contra hn
  have hx := mul_self_nonneg x
  have hy := mul_self_nonneg y
  have hz := mul_self_nonneg z
  have h0 : x * x = 0 ∧ y * y = 0 ∧ z * z = 0 := by
    refine ⟨?_, ?_, ?_⟩ <;> linarith
  apply h
  rw [mul_self_eq_zero, mul_self_eq_zero, mul_self_eq_zero] at h0
  obtain ⟨rfl, rfl, rfl⟩ := h0
  rfl

/-- Where `sqrtf` is exact, the magnitude of a non-zero vector is positive. -/
theorem Vector3.Magnitude_pos (sqrtf : K → K) (a : Vector3 K) (h : a ≠ ⟨0, 0, 0⟩)
    (hs : SqrtExactAt sqrtf (Vector3.SqrMagnitude a)) : 0 < Vector3.Magnitude sqrtf a := by
  obtain ⟨h0, h1⟩ := hs
  have hpos := Vector3.sqr_pos_of_ne_zero a h
  unfold Vector3.SqrMagnitude at h0 h1
  unfold Vector3.Magnitude
  rcases lt_or_eq_of_le h0 with hlt | heq
  · exact hlt
  · rw [← heq] at h1
    linarith

/-- Where `sqrtf` is exact, the normalisation of a non-zero vector has squared length 1. -/
theorem Vector3.SqrMagnitude_Normalized (sqrtf : K → K) (a : Vector3 K) (h : a ≠ ⟨0, 0, 0⟩)
    (hs : SqrtExactAt sqrtf (Vector3.SqrMagnitude a)) :
    Vector3.SqrMagnitude (Vector3.Normalized sqrtf a) = 1 := by
  have hm := Vector3.Magnitude_pos sqrtf a h hs
  have hsq : Vector3.Magnitude sqrtf a * Vector3.Magnitude sqrtf a
      = a.x * a.x + a.y * a.y + a.z * a.z := hs.2
  simp only [Vector3.SqrMagnitude, Vector3.Normalized]
  field_simp
  linear_combination -hsq

end TriangleLemmas

section PlaneClaims

variable {K : Type} [LinearOrderedField K]

end PlaneClaims

section TriangleClaims

variable {K : Type} [LinearOrderedField K]

end TriangleClaims

section MeshClaims

variable {K : Type} [LinearOrderedField K]

/-- The loop of `HitTest_TriangleMesh` on a valid index buffer, from any loop state: it
returns; the flag is set exactly when it was set or some sub-triangle is hit; the final
`closestT` is at most the initial one and at most the `t` of every sub-triangle hit; and
either the state `(closestT, closestHit)` is untouched, or `closestT` strictly decreased
and `closestHit` is the record of a sub-triangle hit whose `t` is the final `closestT`. -/
theorem meshLoop_spec (sqrtf : K → K) (mesh : TriangleMesh K) (ray : Ray K) :
    ∀ (indices : List Int), IndicesValid mesh indices →
      ∀ (d : Bool) (c : K) (h : HitRecord K),
        ∃ d' c' h', meshLoop sqrtf mesh ray indices d c h = some (d', c', h')
          ∧ (d' = true ↔ d = true ∨ ∃ k tri, subTriangleOf sqrtf mesh indices k = some tri
              ∧ (HitTest_Triangle tri ray {} false).1 = true)
          ∧ (∀ k tri, subTriangleOf sqrtf mesh indices k = some tri →
              (HitTest_Triangle tri ray {} false).1 = true →
              c' ≤ (HitTest_Triangle tri ray {} false).2.t)
          ∧ c' ≤ c
          ∧ ((c' = c ∧ h' = h)
              ∨ (c' < c ∧ ∃ k tri, subTriangleOf sqrtf mesh indices k = some tri
                  ∧ (HitTest_Triangle tri ray {} false).1 = true
                  ∧ h' = (HitTest_Triangle tri ray {} false).2
                  ∧ c' = (HitTest_Triangle tri ray {} false).2.t))
  | [], _ => fun d c h =>
    ⟨d, c, h, rfl, by simp [subTriangleOf_nil], by simp [subTriangleOf_nil], le_refl c,
      Or.inl ⟨rfl, rfl⟩⟩
  | [_], hv => absurd hv.1 (by simp)
  | [_, _], hv => absurd hv.1 (by simp)
  | i0 :: i1 :: i2 :: rest, hv => by
    intro d c h
    have ih := meshLoop_spec sqrtf mesh ray rest (IndicesValid_tail mesh i0 i1 i2 rest hv)
    obtain ⟨p0, h0⟩ := positionAt_of_valid mesh.transformedPositions i0 (hv.2 i0 (by simp))
    obtain ⟨p1, h1⟩ := positionAt_of_valid mesh.transformedPositions i1 (hv.2 i1 (by simp))
    obtain ⟨p2, h2⟩ := positionAt_of_valid mesh.transformedPositions i2 (hv.2 i2 (by simp))
    have hz := subTriangleOf_zero sqrtf mesh i0 i1 i2 rest p0 p1 p2 h0 h1 h2
    by_cases hhit : (HitTest_Triangle (meshTriangle sqrtf mesh p0 p1 p2) ray {} false).1 = true
    · by_cases hlt : (HitTest_Triangle (meshTriangle sqrtf mesh p0 p1 p2) ray {} false).2.t < c
      · obtain ⟨d', c', h', hrun, hA, hB, hC, hD⟩ := ih true
          (HitTest_Triangle (meshTriangle sqrtf mesh p0 p1 p2) ray {} false).2.t
          (HitTest_Triangle (meshTriangle sqrtf mesh p0 p1 p2) ray {} false).2
        refine ⟨d', c', h', ?_, ?_, ?_, le_of_lt (lt_of_le_of_lt hC hlt), Or.inr ?_⟩
        · simp only [meshLoop, h0, h1, h2, hhit, hlt, if_true]
          exact hrun
        · have hd' : d' = true := hA.mpr (Or.inl rfl)
          exact ⟨fun _ => Or.inr ⟨0, _, hz, hhit⟩, fun _ => hd'⟩
        · intro k tri hk ht
          cases k with
          | zero =>
            rw [hz] at hk
            cases hk
            exact hC
          | succ k =>
            rw [subTriangleOf_succ] at hk
            exact hB k tri hk ht
        · refine ⟨lt_of_le_of_lt hC hlt, ?_⟩
          rcases hD with ⟨hc', hh'⟩ | ⟨_, k, tri, hk, ht, hh', hc'⟩
          · exact ⟨0, _, hz, hhit, hh', hc'⟩
          · exact ⟨k + 1, tri, by rw [subTriangleOf_succ]; exact hk, ht, hh', hc'⟩
      · obtain ⟨d', c', h', hrun, hA, hB, hC, hD⟩ := ih true c h
        refine ⟨d', c', h', ?_, ?_, ?_, hC, ?_⟩
        · simp only [meshLoop, h0, h1, h2, hhit, hlt, if_true, if_false]
          exact hrun
        · have hd' : d' = true := hA.mpr (Or.inl rfl)
          exact ⟨fun _ => Or.inr ⟨0, _, hz, hhit⟩, fun _ => hd'⟩
        · intro k tri hk ht
          cases k with
          | zero =>
            rw [hz] at hk
            cases hk
            exact le_trans hC (not_lt.mp hlt)
          | succ k =>
            rw [subTriangleOf_succ] at hk
            exact hB k tri hk ht
        · rcases hD with hsame | ⟨hc, k, tri, hk, ht, hh', hc'⟩
          · exact Or.inl hsame
          · exact Or.inr ⟨hc, k + 1, tri, by rw [subTriangleOf_succ]; exact hk, ht, hh', hc'⟩
    · obtain ⟨d', c', h', hrun, hA, hB, hC, hD⟩ := ih d c h
      refine ⟨d', c', h', ?_, ?_, ?_, hC, ?_⟩
      · simp only [meshLoop, h0, h1, h2, hhit, if_false]
        exact hrun
      · rw [hA]
        constructor
        · rintro (hd | ⟨k, tri, hk, ht⟩)
          · exact Or.inl hd
          · exact Or.inr ⟨k + 1, tri, by rw [subTriangleOf_succ]; exact hk, ht⟩
        · rintro (hd | ⟨k, tri, hk, ht⟩)
          · exact Or.inl hd
          · cases k with
            | zero =>
              rw [hz] at hk
              cases hk
              exact absurd ht hhit
            | succ k =>
              rw [subTriangleOf_succ] at hk
              exact Or.inr ⟨k, tri, hk, ht⟩
      · intro k tri hk ht
        cases k with
        | zero =>
          rw [hz] at hk
          cases hk
          exact absurd ht hhit
        | succ k =>
          rw [subTriangleOf_succ] at hk
          exact hB k tri hk ht
      · rcases hD with hsame | ⟨hc, k, tri, hk, ht, hh', hc'⟩
        · exact Or.inl hsame
        · exact Or.inr ⟨hc, k + 1, tri, by rw [subTriangleOf_succ]; exact hk, ht, hh', hc'⟩

/-- A sub-triangle carries the mesh's material index and cull mode. -/
theorem subTriangleOf_material (sqrtf : K → K) (mesh : TriangleMesh K) (indices : List Int)
    (k : Nat) (tri : Triangle K) (h : subTriangleOf sqrtf mesh indices k = some tri) :
    tri.materialIndex = mesh.materialIndex ∧ tri.cullMode = mesh.cullMode := by
  unfold subTriangleOf at h
  split at h
  · split at h
    · cases h
      exact ⟨rfl, rfl⟩
    · exact absurd h (by simp)
  · exact absurd h (by simp)

/-- The run of the mesh tests on `meshAtSentinel` and `raySentinel`: the index invariant
holds, the slab test passes, the only sub-triangle is `triangleAtSentinel`, it is hit at
`t = FLT_MAX`, and `HitTest_TriangleMesh` returns true with the value-initialised
record whatever record is passed in. -/
theorem meshAtSentinel_run :
    IndexInvariant meshAtSentinel
    ∧ SlabTest_TriangleMesh meshAtSentinel raySentinel = true
    ∧ subTriangleAt Rat.sqrt meshAtSentinel 0 = some triangleAtSentinel
    ∧ HitTest_Triangle triangleAtSentinel raySentinel {} false
        = (true, { origin := ⟨16777215, 16777215, FLT_MAX⟩
                   normal := ⟨0, 0, 1⟩
                   t := FLT_MAX
                   didHit := true
                   materialIndex := 4 })
    ∧ ∀ hitRecord : HitRecord ℚ,
        HitTest_TriangleMesh Rat.sqrt meshAtSentinel raySentinel hitRecord false
          = some (true, { origin := ⟨0, 0, 0⟩, normal := ⟨0, 0, 0⟩, t := FLT_MAX,
                          didHit := false, materialIndex := 0 }) := by
  have r1 : Rat.sqrt 1 = 1 := by simp
  have p0 : positionAt meshAtSentinel.transformedPositions 0
      = some ⟨16777215, 16777215, FLT_MAX⟩ := rfl
  have p1 : positionAt meshAtSentinel.transformedPositions 1
      = some ⟨16777214, 16777215, FLT_MAX⟩ := rfl
  have p2 : positionAt meshAtSentinel.transformedPositions 2
      = some ⟨16777215, 16777214, FLT_MAX⟩ := rfl
  have hidx : meshAtSentinel.indices = [0, 1, 2] := rfl
  have htri : meshTriangle Rat.sqrt meshAtSentinel
      ⟨16777215, 16777215, FLT_MAX⟩ ⟨16777214, 16777215, FLT_MAX⟩
      ⟨16777215, 16777214, FLT_MAX⟩ = triangleAtSentinel := by
    norm_num [meshTriangle, Triangle.ofVertices, meshAtSentinel, triangleAtSentinel,
      Vector3.Cross, Vector3.Normalized, Vector3.Magnitude, r1, Vector3.sub_def]
  have hhit : HitTest_Triangle triangleAtSentinel raySentinel {} false
      = (true, { origin := ⟨16777215, 16777215, FLT_MAX⟩
                 normal := ⟨0, 0, 1⟩
                 t := FLT_MAX
                 didHit := true
                 materialIndex := 4 }) := by
    norm_num [HitTest_Triangle, triangleAtSentinel, raySentinel, Vector3.Dot, Vector3.Cross,
      FLT_MAX, Vector3.add_def, Vector3.sub_def, Vector3.smul_def]
  have hslab : SlabTest_TriangleMesh meshAtSentinel raySentinel = true := by
    norm_num [SlabTest_TriangleMesh, meshAtSentinel, raySentinel, FLT_MAX]
  refine ⟨⟨by simp [meshAtSentinel], ?_⟩, hslab, ?_, hhit, ?_⟩
  · intro i hi
    simp only [meshAtSentinel, List.mem_cons, List.mem_singleton, List.not_mem_nil, or_false] at hi
    rcases hi with rfl | rfl | rfl <;> simp [meshAtSentinel]
  · unfold subTriangleAt subTriangleOf
    rw [hidx]
    simp only [Nat.mul_zero, Nat.zero_add, List.getElem?_cons_succ, List.getElem?_cons_zero, p0,
      p1, p2, htri]
  · intro hitRecord
    unfold HitTest_TriangleMesh
    rw [hslab, hidx]
    simp only [meshLoop, p0, p1, p2, htri, hhit]
    norm_num [FLT_MAX, Vector3.default_def]

/-- What `HitTest_TriangleMesh` does away from the sentinel: for a mesh satisfying the
index invariant and a ray that passes the slab test it returns, and returns true if and
only if at least one sub-triangle is hit by `HitTest_Triangle`; and when some sub-triangle
hit has `t < FLT_MAX`, the output record is that of a sub-triangle hit whose `t` is
minimal over all sub-triangle hits, with `didHit = true` and the mesh's material index. -/
theorem HitTest_TriangleMesh_closest (sqrtf : K → K) (mesh : TriangleMesh K) (ray : Ray K)
    (hitRecord : HitRecord K)
    (hinv : IndexInvariant mesh)
    (hslab : SlabTest_TriangleMesh mesh ray = true) :
    ∃ b r, HitTest_TriangleMesh sqrtf mesh ray hitRecord false = some (b, r)
      ∧ (b = true ↔ ∃ k tri, subTriangleAt sqrtf mesh k = some tri
          ∧ (HitTest_Triangle tri ray {} false).1 = true)
      ∧ ((∃ k tri, subTriangleAt sqrtf mesh k = some tri
            ∧ (HitTest_Triangle tri ray {} false).1 = true
            ∧ (HitTest_Triangle tri ray {} false).2.t < FLT_MAX) →
          (∃ k tri, subTriangleAt sqrtf mesh k = some tri
            ∧ HitTest_Triangle tri ray {} false = (true, r))
          ∧ (∀ k tri, subTriangleAt sqrtf mesh k = some tri →
              (HitTest_Triangle tri ray {} false).1 = true →
              r.t ≤ (HitTest_Triangle tri ray {} false).2.t)
          ∧ r.didHit = true
          ∧ r.materialIndex = mesh.materialIndex) := by
  obtain ⟨d', c', h', hrun, hA, hB, _, hD⟩ :=
    meshLoop_spec sqrtf mesh ray mesh.indices hinv false FLT_MAX {}
  have hA' : d' = true ↔ ∃ k tri, subTriangleAt sqrtf mesh k = some tri
      ∧ (HitTest_Triangle tri ray {} false).1 = true := by
    rw [hA]
    simp only [Bool.false_eq_true, false_or]
    rfl
  cases hd : d' with
  | false =>
    refine ⟨false, hitRecord, ?_, ?_, ?_⟩
    · unfold HitTest_TriangleMesh
      rw [hslab, hrun, hd]
      simp
    · have hA2 := hA'
      rw [hd] at hA2
      exact hA2
    · rintro ⟨k, tri, hk, ht, _⟩
      have := hA'.mpr ⟨k, tri, hk, ht⟩
      rw [hd] at this
      exact absurd this (by simp)
  | true =>
    refine ⟨true, h', ?_, ?_, ?_⟩
    · unfold HitTest_TriangleMesh
      rw [hslab, hrun, hd]
      simp
    · have hA2 := hA'
      rw [hd] at hA2
      exact hA2
    · rintro ⟨k, tri, hk, ht, hlt⟩
      have hc' : c' < FLT_MAX := lt_of_le_of_lt (hB k tri hk ht) hlt
      rcases hD with ⟨hsame, _⟩ | ⟨_, k0, tri0, hk0, ht0, hh0, hc0⟩
      · exact absurd hsame (ne_of_lt hc')
      · have hrec := HitTest_Triangle_of_true tri0 ray {} ht0
        refine ⟨⟨k0, tri0, hk0, ?_⟩, ?_, ?_, ?_⟩
        · rw [hh0]
          exact Prod.ext ht0 rfl
        · intro k1 tri1 hk1 ht1
          rw [hh0, ← hc0]
          exact hB k1 tri1 hk1 ht1
        · rw [hh0]
          exact hrec.1
        · rw [hh0, hrec.2.2.1]
          exact (subTriangleOf_material sqrtf mesh mesh.indices k0 tri0 hk0).1

/-- An instance of `HitTest_TriangleMesh_closest`: `meshTwoFaced` and `rayDiag`; the
record returned is that of the nearer sub-triangle, hit at `t = 9/2`. -/
theorem HitTest_TriangleMesh_closest_witness :
    IndexInvariant meshTwoFaced
    ∧ SlabTest_TriangleMesh meshTwoFaced rayDiag = true
    ∧ ∃ b r, HitTest_TriangleMesh Rat.sqrt meshTwoFaced rayDiag {} false = some (b, r)
      ∧ (b = true ↔ ∃ k tri, subTriangleAt Rat.sqrt meshTwoFaced k = some tri
          ∧ (HitTest_Triangle tri rayDiag {} false).1 = true)
      ∧ ((∃ k tri, subTriangleAt Rat.sqrt meshTwoFaced k = some tri
            ∧ (HitTest_Triangle tri rayDiag {} false).1 = true
            ∧ (HitTest_Triangle tri rayDiag {} false).2.t < FLT_MAX) →
          (∃ k tri, subTriangleAt Rat.sqrt meshTwoFaced k = some tri
            ∧ HitTest_Triangle tri rayDiag {} false = (true, r))
          ∧ (∀ k tri, subTriangleAt Rat.sqrt meshTwoFaced k = some tri →
              (HitTest_Triangle tri rayDiag {} false).1 = true →
              r.t ≤ (HitTest_Triangle tri rayDiag {} false).2.t)
          ∧ r.didHit = true
          ∧ r.materialIndex = meshTwoFaced.materialIndex) := by
  have hinv : IndexInvariant meshTwoFaced := by
    refine ⟨by simp [meshTwoFaced], ?_⟩
    intro i hi
    simp only [meshTwoFaced, List.mem_cons, List.mem_singleton, List.not_mem_nil, or_false] at hi
    rcases hi with rfl | rfl | rfl | rfl | rfl | rfl <;> simp [meshTwoFaced]
  have hslab : SlabTest_TriangleMesh meshTwoFaced rayDiag = true := by
    norm_num [SlabTest_TriangleMesh, meshTwoFaced, rayDiag]
  exact ⟨hinv, hslab, HitTest_TriangleMesh_closest Rat.sqrt meshTwoFaced rayDiag {} hinv hslab⟩

/-- The vertices of a sub-triangle are entries of `transformedPositions`. -/
theorem subTriangleOf_vertices (sqrtf : K → K) (mesh : TriangleMesh K) (indices : List Int)
    (k : Nat) (tri : Triangle K) (h : subTriangleOf sqrtf mesh indices k = some tri) :
    tri.v0 ∈ mesh.transformedPositions ∧ tri.v1 ∈ mesh.transformedPositions
      ∧ tri.v2 ∈ mesh.transformedPositions := by
  unfold subTriangleOf at h
  split at h
  · split at h
    · rename_i p0 p1 p2 h0 h1 h2
      cases h
      exact ⟨positionAt_mem _ _ _ h0, positionAt_mem _ _ _ h1, positionAt_mem _ _ _ h2⟩
    · exact absurd h (by simp)
  · exact absurd h (by simp)

end MeshClaims

section BRDFClaims

open BRDF

variable {K : Type} [LinearOrderedField K]

theorem ColorRGB.add_channels (a c : ColorRGB K) : a + c = ⟨a.r + c.r, a.g + c.g, a.b + c.b⟩ := rfl
theorem ColorRGB.sub_channels (a c : ColorRGB K) : a - c = ⟨a.r - c.r, a.g - c.g, a.b - c.b⟩ := rfl
theorem ColorRGB.scale_channels (a : ColorRGB K) (t : K) : a * t = ⟨a.r * t, a.g * t, a.b * t⟩ := rfl

/-- Counterexample to C17 as stated: for the base reflectance `(0, 0, 0)` and
`h = v = (0, 0, 1)`, so that `dot(h, v) = 1`, `FresnelFunction_Schlick` returns
`(0.04, 0.04, 0.04)`, not `f0`. -/
theorem FresnelFunction_Schlick_zero_f0_counterexample :
    Vector3.Dot (⟨0, 0, 1⟩ : Vector3 ℚ) ⟨0, 0, 1⟩ = 1
    ∧ FresnelFunction_Schlick (⟨0, 0, 1⟩ : Vector3 ℚ) ⟨0, 0, 1⟩ ⟨0, 0, 0⟩
        = ⟨4 / 100, 4 / 100, 4 / 100⟩
    ∧ FresnelFunction_Schlick (⟨0, 0, 1⟩ : Vector3 ℚ) ⟨0, 0, 1⟩ ⟨0, 0, 0⟩ ≠ ⟨0, 0, 0⟩ := by
  have h : FresnelFunction_Schlick (⟨0, 0, 1⟩ : Vector3 ℚ) ⟨0, 0, 1⟩ ⟨0, 0, 0⟩
      = ⟨4 / 100, 4 / 100, 4 / 100⟩ := by
    norm_num [FresnelFunction_Schlick, Vector3.Dot, ColorRGB.add_channels, ColorRGB.sub_channels,
      ColorRGB.scale_channels]
  refine ⟨by norm_num [Vector3.Dot], h, ?_⟩
  rw [h]
  intro hEq
  have hr := congrArg ColorRGB.r hEq
  norm_num at hr

/-- C17 (amended): for all vectors `h`, `v` with `dot(h, v) = 1`,
`FresnelFunction_Schlick(h, v, f0)` returns exactly `f0` for every base reflectance other
than `(0, 0, 0)`, and `(0.04, 0.04, 0.04)` for the base reflectance `(0, 0, 0)`. -/
theorem FresnelFunction_Schlick_normal_incidence (h v : Vector3 K) (f0 : ColorRGB K)
    (hdot : Vector3.Dot h v = 1) :
    (f0 ≠ ⟨0, 0, 0⟩ → FresnelFunction_Schlick h v f0 = f0)
    ∧ (f0 = ⟨0, 0, 0⟩ → FresnelFunction_Schlick h v f0 = ⟨4 / 100, 4 / 100, 4 / 100⟩) := by
  have hmax : max (0 : K) 1 = 1 := max_eq_right zero_le_one
  constructor
  · intro hne
    unfold FresnelFunction_Schlick
    rw [hdot, hmax, if_neg hne]
    simp only [ColorRGB.add_channels, ColorRGB.sub_channels, ColorRGB.scale_channels]
    norm_num
  · intro heq
    unfold FresnelFunction_Schlick
    rw [hdot, hmax, if_pos heq]
    simp only [ColorRGB.add_channels, ColorRGB.sub_channels, ColorRGB.scale_channels]
    norm_num

/-- Witness for the amended C17: base reflectance `(1/2, 1/4, 1/8)` at `h = v = (0, 0, 1)`. -/
theorem FresnelFunction_Schlick_normal_incidence_witness :
    Vector3.Dot (⟨0, 0, 1⟩ : Vector3 ℚ) ⟨0, 0, 1⟩ = 1
    ∧ FresnelFunction_Schlick (⟨0, 0, 1⟩ : Vector3 ℚ) ⟨0, 0, 1⟩ ⟨1 / 2, 1 / 4, 1 / 8⟩
        = ⟨1 / 2, 1 / 4, 1 / 8⟩ := by
  have hdot : Vector3.Dot (⟨0, 0, 1⟩ : Vector3 ℚ) ⟨0, 0, 1⟩ = 1 := by norm_num [Vector3.Dot]
  refine ⟨hdot, (FresnelFunction_Schlick_normal_incidence _ _ _ hdot).1 ?_⟩
  intro hEq
  have hr := congrArg ColorRGB.r hEq
  norm_num at hr

/-- C18: for every base reflectance `f0`, `(0, 0, 0)` included, and all `h`, `v` with
`dot(h, v) ≤ 0` (in particular `= 0`; the dot is clamped to 0),
`FresnelFunction_Schlick(h, v, f0)` returns `f0 + (1 - f0)`, the color `(1, 1, 1)`. -/
theorem FresnelFunction_Schlick_grazing (h v : Vector3 K) (f0 : ColorRGB K)
    (hdot : Vector3.Dot h v ≤ 0) :
    FresnelFunction_Schlick h v f0 = ⟨1, 1, 1⟩
    ∧ FresnelFunction_Schlick h v f0 = f0 + ((⟨1, 1, 1⟩ : ColorRGB K) - f0) := by
  have hmax : max (0 : K) (Vector3.Dot h v) = 0 := max_eq_left hdot
  have h1 : FresnelFunction_Schlick h v f0 = ⟨1, 1, 1⟩ := by
    unfold FresnelFunction_Schlick
    rw [hmax]
    simp only [ColorRGB.add_channels, ColorRGB.sub_channels, ColorRGB.scale_channels]
    norm_num
  refine ⟨h1, ?_⟩
  rw [h1]
  simp only [ColorRGB.add_channels, ColorRGB.sub_channels]
  norm_num

/-- Witness for C18: base reflectance `(0, 0, 0)` at `h = (0, 0, 1)`, `v = (1, 0, 0)`. -/
theorem FresnelFunction_Schlick_grazing_witness :
    Vector3.Dot (⟨0, 0, 1⟩ : Vector3 ℚ) ⟨1, 0, 0⟩ ≤ 0
    ∧ FresnelFunction_Schlick (⟨0, 0, 1⟩ : Vector3 ℚ) ⟨1, 0, 0⟩ ⟨0, 0, 0⟩ = ⟨1, 1, 1⟩ := by
  have hdot : Vector3.Dot (⟨0, 0, 1⟩ : Vector3 ℚ) ⟨1, 0, 0⟩ ≤ 0 := by norm_num [Vector3.Dot]
  exact ⟨hdot, (FresnelFunction_Schlick_grazing _ _ _ hdot).1⟩

end BRDFClaims

section MaterialClaims

variable {M : Type}

/-- The materials after any number of `AddMaterial` calls are the default material
followed by the added ones. -/
theorem materialsAfter_eq (defaultMaterial : M) (added : List M) :
    Scene.materialsAfter defaultMaterial added = defaultMaterial :: added := by
  have key : ∀ (added st : List M),
      added.foldl (fun m_Materials pMaterial => (Scene.AddMaterial m_Materials pMaterial).1) st
        = st ++ added := by
    intro added
    induction added with
    | nil => intro st; simp
    | cons a l ih =>
      intro st
      rw [List.foldl_cons, ih]
      simp [Scene.AddMaterial]
  unfold Scene.materialsAfter Scene.freshMaterials
  rw [key]
  rfl

/-- Counterexample to C20 as stated: with the natural numbers as materials, default
material `0`, after the 255 calls `AddMaterial(1)`, ..., `AddMaterial(255)` the scene
holds 256 materials; the next call, `AddMaterial(256)`, returns the index `0`, where the
default material sits, not the appended one. -/
theorem AddMaterial_wraps_counterexample :
    (Scene.materialsAfter 0 (List.range' 1 255)).length = 256
    ∧ (Scene.AddMaterial (Scene.materialsAfter 0 (List.range' 1 255)) 256).2 = 0
    ∧ (Scene.AddMaterial (Scene.materialsAfter 0 (List.range' 1 255)) 256).1[0]? = some 0
    ∧ (Scene.AddMaterial (Scene.materialsAfter 0 (List.range' 1 255)) 256).1[256]? = some 256 := by
  rw [materialsAfter_eq]
  refine ⟨by simp, ?_, ?_, ?_⟩
  · simp [Scene.AddMaterial]
  · simp [Scene.AddMaterial]
  · simp only [Scene.AddMaterial]
    rw [List.getElem?_append_right (by simp)]
    simp

/-- C20 (amended): in every scene state reachable from a fresh scene by `AddMaterial`
calls, `AddMaterial(m)` appends `m`, leaves `materials[0]` the built-in default material,
and returns the number of materials held before the call reduced modulo 256; when fewer
than 255 calls came before, that is the index `i` of the newly appended material,
`materials[i] = m`.  The first call on a fresh scene returns 1. -/
theorem AddMaterial_index (defaultMaterial : M) (added : List M) (m : M) :
    (Scene.AddMaterial (Scene.materialsAfter defaultMaterial added) m).1
        = Scene.materialsAfter defaultMaterial added ++ [m]
    ∧ (Scene.AddMaterial (Scene.materialsAfter defaultMaterial added) m).2
        = (added.length + 1) % 256
    ∧ (Scene.AddMaterial (Scene.materialsAfter defaultMaterial added) m).1[0]?
        = some defaultMaterial
    ∧ (added.length < 255 →
        (Scene.AddMaterial (Scene.materialsAfter defaultMaterial added) m).2 = added.length + 1
        ∧ (Scene.AddMaterial (Scene.materialsAfter defaultMaterial added) m).1[
            (Scene.AddMaterial (Scene.materialsAfter defaultMaterial added) m).2]? = some m)
    ∧ (Scene.AddMaterial (Scene.freshMaterials defaultMaterial) m).2 = 1 := by
  rw [materialsAfter_eq]
  have hidx : (Scene.AddMaterial (defaultMaterial :: added) m).2 = (added.length + 1) % 256 := by
    simp [Scene.AddMaterial]
  refine ⟨rfl, hidx, by simp [Scene.AddMaterial], ?_, by simp [Scene.AddMaterial, Scene.freshMaterials]⟩
  intro hlt
  have hmod : (added.length + 1) % 256 = added.length + 1 := Nat.mod_eq_of_lt (by omega)
  rw [hidx, hmod]
  refine ⟨rfl, ?_⟩
  simp only [Scene.AddMaterial]
  rw [List.getElem?_append_right (by simp)]
  simp

/-- Witness for the amended C20: two materials added to a fresh scene, then a third. -/
theorem AddMaterial_index_witness :
    ([7, 8] : List Nat).length < 255
    ∧ (Scene.AddMaterial (Scene.materialsAfter 0 [7, 8]) 9).2 = 3
    ∧ (Scene.AddMaterial (Scene.materialsAfter 0 [7, 8]) 9).1[
          (Scene.AddMaterial (Scene.materialsAfter 0 [7, 8]) 9).2]? = some 9 := by
  have h : ([7, 8] : List Nat).length < 255 := by decide
  exact ⟨h, (AddMaterial_index 0 [7, 8] 9).2.2.2.1 h⟩

end MaterialClaims

section GeometryTermClaims

open BRDF

variable {K : Type} [LinearOrderedField K]

/-- The reflection vector computed by `Phong` is `2 * dot(l, n) * n - l`. -/
theorem Phong_reflect_eq (l n : Vector3 K) :
    -l - (2 * Vector3.Dot (-l) n) * n = (2 * Vector3.Dot l n) * n - l := by
  apply Vector3.eq_of_components <;>
  · simp only [Vector3.Dot, Vector3.sub_x, Vector3.sub_y, Vector3.sub_z, Vector3.smul_x,
      Vector3.smul_y, Vector3.smul_z, Vector3.neg_x, Vector3.neg_y, Vector3.neg_z]
    ring

/-- For unit `n` and unit `l` the mirror reflection of `l` about `n` is a unit vector. -/
theorem reflect_unit (l n : Vector3 K) (hn : Vector3.Dot n n = 1) (hl : Vector3.Dot l l = 1) :
    Vector3.Dot ((2 * Vector3.Dot l n) * n - l) ((2 * Vector3.Dot l n) * n - l) = 1 := by
  simp only [Vector3.Dot, Vector3.sub_x, Vector3.sub_y, Vector3.sub_z, Vector3.smul_x,
    Vector3.smul_y, Vector3.smul_z] at hn hl ⊢
  linear_combination (4 * (l.x * n.x + l.y * n.y + l.z * n.z) ^ 2) * hn + hl

/-- C25: `Phong` returns a color with three equal channels
`ks * max(0, dot(r, v))^exp`, where `r = 2 * dot(l, n) * n - l` is the mirror reflection of
`l` about `n`; for unit `n`, unit `l` and `v = r` the color is `(ks, ks, ks)` whatever the
exponent (`1^exp = 1`); and for `ks ≥ 0` every channel is `≥ 0` (a power of a non-negative
base being non-negative). -/
theorem Phong_channels (powf : K → K → K) (ks exp : K) (l v n : Vector3 K) :
    Phong powf ks exp l v n
        = ⟨ks * powf (max 0 (Vector3.Dot ((2 * Vector3.Dot l n) * n - l) v)) exp,
           ks * powf (max 0 (Vector3.Dot ((2 * Vector3.Dot l n) * n - l) v)) exp,
           ks * powf (max 0 (Vector3.Dot ((2 * Vector3.Dot l n) * n - l) v)) exp⟩
    ∧ (Vector3.Dot n n = 1 → Vector3.Dot l l = 1 → v = (2 * Vector3.Dot l n) * n - l →
        powf 1 exp = 1 → Phong powf ks exp l v n = ⟨ks, ks, ks⟩)
    ∧ (0 ≤ ks → (∀ x : K, 0 ≤ x → 0 ≤ powf x exp) →
        0 ≤ (Phong powf ks exp l v n).r ∧ 0 ≤ (Phong powf ks exp l v n).g
          ∧ 0 ≤ (Phong powf ks exp l v n).b) := by
  have hform : Phong powf ks exp l v n
      = ⟨ks * powf (max 0 (Vector3.Dot ((2 * Vector3.Dot l n) * n - l) v)) exp,
         ks * powf (max 0 (Vector3.Dot ((2 * Vector3.Dot l n) * n - l) v)) exp,
         ks * powf (max 0 (Vector3.Dot ((2 * Vector3.Dot l n) * n - l) v)) exp⟩ := by
    unfold Phong
    simp only []
    rw [Phong_reflect_eq]
  refine ⟨hform, ?_, ?_⟩
  · intro hn hl hv hpow
    rw [hform, hv, reflect_unit l n hn hl, max_eq_right zero_le_one, hpow, mul_one]
  · intro hks hpow
    rw [hform]
    have h := mul_nonneg hks (hpow _ (le_max_left 0
      (Vector3.Dot ((2 * Vector3.Dot l n) * n - l) v)))
    exact ⟨h, h, h⟩

/-- Witness for C25: `n = (0, 0, 1)`, `l = (3/5, 0, 4/5)`, `v = (-3/5, 0, 4/5)` the mirror
reflection of `l`, `ks = 1/2`, exponent 60. -/
theorem Phong_channels_witness :
    Vector3.Dot (⟨0, 0, 1⟩ : Vector3 ℚ) ⟨0, 0, 1⟩ = 1
    ∧ Vector3.Dot (⟨3 / 5, 0, 4 / 5⟩ : Vector3 ℚ) ⟨3 / 5, 0, 4 / 5⟩ = 1
    ∧ (⟨-3 / 5, 0, 4 / 5⟩ : Vector3 ℚ)
        = (2 * Vector3.Dot (⟨3 / 5, 0, 4 / 5⟩ : Vector3 ℚ) ⟨0, 0, 1⟩) * (⟨0, 0, 1⟩ : Vector3 ℚ)
          - ⟨3 / 5, 0, 4 / 5⟩
    ∧ powNat 1 60 = 1
    ∧ Phong powNat (1 / 2) 60 (⟨3 / 5, 0, 4 / 5⟩ : Vector3 ℚ) ⟨-3 / 5, 0, 4 / 5⟩ ⟨0, 0, 1⟩
        = ⟨1 / 2, 1 / 2, 1 / 2⟩ := by
  have hn : Vector3.Dot (⟨0, 0, 1⟩ : Vector3 ℚ) ⟨0, 0, 1⟩ = 1 := by norm_num [Vector3.Dot]
  have hl : Vector3.Dot (⟨3 / 5, 0, 4 / 5⟩ : Vector3 ℚ) ⟨3 / 5, 0, 4 / 5⟩ = 1 := by
    norm_num [Vector3.Dot]
  have hv : (⟨-3 / 5, 0, 4 / 5⟩ : Vector3 ℚ)
      = (2 * Vector3.Dot (⟨3 / 5, 0, 4 / 5⟩ : Vector3 ℚ) ⟨0, 0, 1⟩) * (⟨0, 0, 1⟩ : Vector3 ℚ)
        - ⟨3 / 5, 0, 4 / 5⟩ := by
    norm_num [Vector3.Dot, Vector3.smul_def, Vector3.sub_def]
  have hp : powNat 1 60 = 1 := by simp [powNat]
  exact ⟨hn, hl, hv, hp, (Phong_channels powNat (1 / 2) 60 _ _ _).2.1 hn hl hv hp⟩

end GeometryTermClaims

section RendererClaims

open Renderer

/-- C23: for every width `> 0` and every pixel index `i` (a `uint32_t`), `RenderPixel`
computes `px = i mod width` and `py = i div width` and writes to the buffer offset
`px + py * width`, which equals `i`; so two pixel indices that write to the same offset
are equal. -/
theorem RenderPixel_offset_eq (m_Width : Nat) (_hw : 0 < m_Width) :
    (∀ i : Nat, i < 2 ^ 32 →
      RenderPixel_px m_Width i = i % m_Width
      ∧ RenderPixel_py m_Width i = i / m_Width
      ∧ RenderPixel_offset m_Width i = i)
    ∧ (∀ i j : Nat, i < 2 ^ 32 → j < 2 ^ 32 →
      RenderPixel_offset m_Width i = RenderPixel_offset m_Width j → i = j) := by
  have key : ∀ i : Nat, i < 2 ^ 32 →
      RenderPixel_px m_Width i = i % m_Width
      ∧ RenderPixel_py m_Width i = i / m_Width
      ∧ RenderPixel_offset m_Width i = i := by
    intro i hi
    have hpx : (i % m_Width) % 2 ^ 32 = i % m_Width :=
      Nat.mod_eq_of_lt (lt_of_le_of_lt (Nat.mod_le i m_Width) hi)
    have hpy : (i / m_Width) % 2 ^ 32 = i / m_Width :=
      Nat.mod_eq_of_lt (lt_of_le_of_lt (Nat.div_le_self i m_Width) hi)
    have hsum : i % m_Width + i / m_Width * m_Width = i := by
      rw [Nat.mul_comm]
      exact Nat.mod_add_div i m_Width
    have hmul : (i / m_Width * m_Width) % 2 ^ 32 = i / m_Width * m_Width :=
      Nat.mod_eq_of_lt (by omega)
    refine ⟨hpx, hpy, ?_⟩
    unfold RenderPixel_offset RenderPixel_px RenderPixel_py
    rw [hpx, hpy, hmul, hsum]
    exact Nat.mod_eq_of_lt hi
  refine ⟨key, ?_⟩
  intro i j hi hj h
  rw [(key i hi).2.2, (key j hj).2.2] at h
  exact h

/-- Witness for C23: width 640, pixel index 1000 is column 360 of row 1. -/
theorem RenderPixel_offset_eq_witness :
    0 < 640
    ∧ RenderPixel_px 640 1000 = 360
    ∧ RenderPixel_py 640 1000 = 1
    ∧ RenderPixel_offset 640 1000 = 1000 := by
  have h := (RenderPixel_offset_eq 640 (by decide)).1 1000 (by decide)
  exact ⟨by decide, h.1, h.2.1, h.2.2⟩

end RendererClaims

section QueryClaims

variable {K : Type} [LinearOrderedField K]

/-- A left fold over steps that can set `didHit` only on an element passing `test`: if
`didHit` is set at the end, it was set at the start or some element passes `test`. -/
theorem foldl_didHit {α : Type} (step : K × HitRecord K → α → K × HitRecord K)
    (test : α → Prop)
    (hstep : ∀ st x, (step st x).2.didHit = true → st.2.didHit = true ∨ test x)
    (l : List α) :
    ∀ st, (l.foldl step st).2.didHit = true → st.2.didHit = true ∨ ∃ x ∈ l, test x := by
  induction l with
  | nil => intro st h; exact Or.inl h
  | cons a l ih =>
    intro st h
    rw [List.foldl_cons] at h
    rcases ih _ h with h1 | ⟨x, hx, hxt⟩
    · rcases hstep st a h1 with h2 | h2
      · exact Or.inl h2
      · exact Or.inr ⟨a, List.mem_cons_self a l, h2⟩
    · exact Or.inr ⟨x, List.mem_cons_of_mem a hx, hxt⟩

/-- On a mesh with valid indices `HitTest_TriangleMesh` returns, and when it returns true
some sub-triangle is hit. -/
theorem HitTest_TriangleMesh_true_sub (sqrtf : K → K) (mesh : TriangleMesh K) (ray : Ray K)
    (hitRecord : HitRecord K) (ignoreHitRecord : Bool) (hinv : IndexInvariant mesh) :
    ∃ r, HitTest_TriangleMesh sqrtf mesh ray hitRecord ignoreHitRecord = some r
      ∧ (r.1 = true → ∃ k tri, subTriangleAt sqrtf mesh k = some tri
          ∧ (HitTest_Triangle tri ray {} false).1 = true) := by
  obtain ⟨d', c', h', hrun, hA, _, _, _⟩ :=
    meshLoop_spec sqrtf mesh ray mesh.indices hinv false FLT_MAX {}
  have hA' : d' = true → ∃ k tri, subTriangleAt sqrtf mesh k = some tri
      ∧ (HitTest_Triangle tri ray {} false).1 = true := by
    intro hd
    rcases hA.mp hd with hcon | hex
    · exact absurd hcon (by simp)
    · exact hex
  unfold HitTest_TriangleMesh
  by_cases hslab : SlabTest_TriangleMesh mesh ray = true
  · rw [hslab, hrun]
    simp only [Bool.not_true, Bool.false_eq_true, if_false]
    split_ifs with hc
    · exact ⟨_, rfl, fun hd => hA' hd⟩
    · exact ⟨_, rfl, fun hd => hA' hd⟩
  · have hfalse : SlabTest_TriangleMesh mesh ray = false := by simpa using hslab
    rw [hfalse]
    exact ⟨_, rfl, fun hd => absurd hd (by simp)⟩

/-- On meshes with valid indices the mesh loop of `GetClosestHit` returns, and if `didHit`
is set at the end it was set at the start or some sub-triangle of some mesh is hit. -/
theorem meshesLoop_didHit (sqrtf : K → K) (ray : Ray K) :
    ∀ (meshes : List (TriangleMesh K)), (∀ m ∈ meshes, IndexInvariant m) →
      ∀ st, ∃ st', meshesLoop sqrtf ray meshes st = some st'
        ∧ (st'.2.didHit = true → st.2.didHit = true
            ∨ ∃ m ∈ meshes, ∃ k tri, subTriangleAt sqrtf m k = some tri
                ∧ (HitTest_Triangle tri ray {} false).1 = true)
  | [], _ => fun st => ⟨st, rfl, fun h => Or.inl h⟩
  | mesh :: rest, hinv => by
    intro st
    have ih := meshesLoop_didHit sqrtf ray rest (fun m hm => hinv m (List.mem_cons_of_mem mesh hm))
    obtain ⟨r, hr, hsub⟩ := HitTest_TriangleMesh_true_sub sqrtf mesh ray {} false
      (hinv mesh (List.mem_cons_self mesh rest))
    have lift : ∀ st0 : K × HitRecord K,
        (st0.2.didHit = true → st.2.didHit = true
          ∨ ∃ m ∈ mesh :: rest, ∃ k tri, subTriangleAt sqrtf m k = some tri
              ∧ (HitTest_Triangle tri ray {} false).1 = true) →
        ∃ st', meshesLoop sqrtf ray rest st0 = some st'
          ∧ (st'.2.didHit = true → st.2.didHit = true
            ∨ ∃ m ∈ mesh :: rest, ∃ k tri, subTriangleAt sqrtf m k = some tri
                ∧ (HitTest_Triangle tri ray {} false).1 = true) := by
      intro st0 h0
      obtain ⟨st', hrun, himp⟩ := ih st0
      refine ⟨st', hrun, fun hd => ?_⟩
      rcases himp hd with h1 | ⟨m, hm, k, tri, hk, ht⟩
      · exact h0 h1
      · exact Or.inr ⟨m, List.mem_cons_of_mem mesh hm, k, tri, hk, ht⟩
    unfold meshesLoop
    rw [hr]
    simp only []
    by_cases h1 : r.1 = true
    · rw [if_pos h1]
      by_cases h2 : culled mesh.cullMode r.2.normal ray.direction = true
      · rw [if_pos h2]
        exact lift st (fun h => Or.inl h)
      · rw [if_neg h2]
        apply lift
        intro _
        obtain ⟨k, tri, hk, ht⟩ := hsub h1
        exact Or.inr ⟨mesh, List.mem_cons_self mesh rest, k, tri, hk, ht⟩
    · rw [if_neg h1]
      exact lift st (fun h => Or.inl h)

/-- On a scene whose meshes have valid indices, a primitive or mesh sub-triangle passing
its hit test makes `DoesHit` return true. -/
theorem DoesHit_of_hit (sqrtf : K → K) (scene : Scene K) (ray : Ray K)
    (hinv : ∀ m ∈ scene.m_TriangleMeshGeometries, IndexInvariant m)
    (h : (∃ s ∈ scene.m_SphereGeometries, HitTest_Sphere_Bool sqrtf s ray = true)
      ∨ (∃ p ∈ scene.m_PlaneGeometries, HitTest_Plane_Bool p ray = true)
      ∨ (∃ t ∈ scene.m_Triangles, HitTest_Triangle_Bool t ray = true)
      ∨ (∃ m ∈ scene.m_TriangleMeshGeometries, ∃ k tri,
          subTriangleAt sqrtf m k = some tri ∧ HitTest_Triangle_Bool tri ray = true)) :
    DoesHit sqrtf scene ray = some true := by
  obtain ⟨b, hb, hiff⟩ := doesHitMeshes_spec sqrtf ray scene.m_TriangleMeshGeometries hinv
  unfold DoesHit
  split_ifs with h1 h2 h3
  · rfl
  · rfl
  · rfl
  · rcases h with hs | hp | ht | hm
    · exact absurd (List.any_eq_true.mpr hs) h1
    · exact absurd (List.any_eq_true.mpr hp) h2
    · exact absurd (List.any_eq_true.mpr ht) h3
    · rw [hb, hiff.mpr hm]

/-- C28: on a scene whose meshes have valid indices, `GetClosestHit` returns, and if it
leaves `didHit = true` then `DoesHit` returns true for the same ray. -/
theorem DoesHit_of_GetClosestHit (sqrtf : K → K) (scene : Scene K) (ray : Ray K)
    (closestHit : HitRecord K)
    (hinv : ∀ m ∈ scene.m_TriangleMeshGeometries, IndexInvariant m) :
    ∃ r, GetClosestHit sqrtf scene ray closestHit = some r
      ∧ (r.didHit = true → DoesHit sqrtf scene ray = some true) := by
  unfold GetClosestHit
  simp only []
  obtain ⟨st', hrun, himp⟩ := meshesLoop_didHit sqrtf ray scene.m_TriangleMeshGeometries hinv
    (scene.m_Triangles.foldl (triangleStep ray)
      (scene.m_PlaneGeometries.foldl (planeStep ray)
        (scene.m_SphereGeometries.foldl (sphereStep sqrtf ray)
          (FLT_MAX, { closestHit with didHit := false }))))
  rw [hrun]
  refine ⟨st'.2, rfl, fun hd => ?_⟩
  apply DoesHit_of_hit sqrtf scene ray hinv
  rcases himp hd with h3 | ⟨m, hm, k, tri, hk, ht⟩
  · rcases foldl_didHit (triangleStep ray)
        (fun t => HitTest_Triangle_Bool t ray = true) (by
          intro st x hx
          unfold triangleStep at hx
          by_cases h1 : (HitTest_Triangle x ray {} false).1 = true
          · right
            show (HitTest_Triangle x ray {} true).1 = true
            rw [HitTest_Triangle_fst_indep x ray {} {} true false]
            exact h1
          · left
            simp only [h1, Bool.false_eq_true, if_false] at hx
            exact hx) scene.m_Triangles _ h3 with h2 | ht
    · rcases foldl_didHit (planeStep ray)
          (fun p => HitTest_Plane_Bool p ray = true) (by
            intro st x hx
            unfold planeStep at hx
            by_cases h1 : (HitTest_Plane x ray {} false).1 = true
            · right
              show (HitTest_Plane x ray {} true).1 = true
              rw [HitTest_Plane_fst_indep x ray {} {} true false]
              exact h1
            · left
              simp only [h1, Bool.false_eq_true, if_false] at hx
              exact hx) scene.m_PlaneGeometries _ h2 with h1 | hp
      · rcases foldl_didHit (sphereStep sqrtf ray)
            (fun s => HitTest_Sphere_Bool sqrtf s ray = true) (by
              intro st x hx
              unfold sphereStep at hx
              by_cases h1 : (HitTest_Sphere sqrtf x ray {} false).1 = true
              · right
                show (HitTest_Sphere sqrtf x ray {} true).1 = true
                rw [HitTest_Sphere_fst_indep sqrtf x ray {} {} true false]
                exact h1
              · left
                simp only [h1, Bool.false_eq_true, if_false] at hx
                exact hx) scene.m_SphereGeometries _ h1 with h0 | hs
        · exact absurd h0 (by simp)
        · exact Or.inl hs
      · exact Or.inr (Or.inl hp)
    · exact Or.inr (Or.inr (Or.inl ht))
  · refine Or.inr (Or.inr (Or.inr ⟨m, hm, k, tri, hk, ?_⟩))
    show (HitTest_Triangle tri ray {} true).1 = true
    rw [HitTest_Triangle_fst_indep tri ray {} {} true false]
    exact ht

/-- Witness for C28: `rayZ` through `sceneSphere`: `GetClosestHit` leaves `didHit = true`
and `DoesHit` returns true. -/
theorem DoesHit_of_GetClosestHit_witness :
    (∀ m ∈ sceneSphere.m_TriangleMeshGeometries, IndexInvariant m)
    ∧ GetClosestHit Rat.sqrt sceneSphere rayZ {} = some recordAfterHit
    ∧ recordAfterHit.didHit = true
    ∧ DoesHit Rat.sqrt sceneSphere rayZ = some true := by
  have hinv : ∀ m ∈ sceneSphere.m_TriangleMeshGeometries, IndexInvariant m := by
    intro m hm
    simp [sceneSphere] at hm
  have r1 : Rat.sqrt 1 = 1 := by simp
  have hg : GetClosestHit Rat.sqrt sceneSphere rayZ {} = some recordAfterHit := by
    norm_num [GetClosestHit, sceneSphere, meshesLoop, sphereStep, keepCloser, HitTest_Sphere,
      sphereAhead, rayZ, recordAfterHit, Vector3.Dot, Vector3.Normalized, Vector3.Magnitude,
      FLT_MAX, r1, Vector3.add_def, Vector3.sub_def, Vector3.smul_def]
  obtain ⟨r, hr, himp⟩ := DoesHit_of_GetClosestHit Rat.sqrt sceneSphere rayZ {} hinv
  rw [hg] at hr
  cases hr
  exact ⟨hinv, hg, rfl, himp rfl⟩

end QueryClaims

section FrameClaims

variable {K : Type} [LinearOrderedField K]

/-- A failed `HitTest_Plane` leaves the record exactly as passed in. -/
theorem HitTest_Plane_snd_of_false (plane : Plane K) (ray : Ray K)
    (hitRecord : HitRecord K) (ignoreHitRecord : Bool)
    (h : (HitTest_Plane plane ray hitRecord ignoreHitRecord).1 = false) :
    (HitTest_Plane plane ray hitRecord ignoreHitRecord).2 = hitRecord := by
  unfold HitTest_Plane at h ⊢
  simp only [] at h ⊢
  split_ifs at h ⊢ <;> rfl

/-- The frame of the four tests away from the sentinel: each of `HitTest_Sphere`,
`HitTest_Plane` and `HitTest_Triangle` leaves
the record exactly as passed in when it returns false, and hands back `didHit = true` when
it returns true with `ignoreHitRecord = false`.  On a mesh satisfying the index invariant
`HitTest_TriangleMesh` returns; when it returns false the record is exactly as passed in;
when it returns true with `ignoreHitRecord = false` and some sub-triangle hit has
`t < FLT_MAX`, the record has `didHit = true`. -/
theorem HitTest_frame (sqrtf : K → K) (sphere : Sphere K) (plane : Plane K)
    (triangle : Triangle K) (mesh : TriangleMesh K) (ray : Ray K) (hitRecord : HitRecord K)
    (ignoreHitRecord : Bool) (hinv : IndexInvariant mesh) :
    ((HitTest_Sphere sqrtf sphere ray hitRecord ignoreHitRecord).1 = false →
        (HitTest_Sphere sqrtf sphere ray hitRecord ignoreHitRecord).2 = hitRecord)
    ∧ ((HitTest_Sphere sqrtf sphere ray hitRecord false).1 = true →
        (HitTest_Sphere sqrtf sphere ray hitRecord false).2.didHit = true)
    ∧ ((HitTest_Plane plane ray hitRecord ignoreHitRecord).1 = false →
        (HitTest_Plane plane ray hitRecord ignoreHitRecord).2 = hitRecord)
    ∧ ((HitTest_Plane plane ray hitRecord false).1 = true →
        (HitTest_Plane plane ray hitRecord false).2.didHit = true)
    ∧ ((HitTest_Triangle triangle ray hitRecord ignoreHitRecord).1 = false →
        (HitTest_Triangle triangle ray hitRecord ignoreHitRecord).2 = hitRecord)
    ∧ ((HitTest_Triangle triangle ray hitRecord false).1 = true →
        (HitTest_Triangle triangle ray hitRecord false).2.didHit = true)
    ∧ (∃ r, HitTest_TriangleMesh sqrtf mesh ray hitRecord ignoreHitRecord = some r
        ∧ (r.1 = false → r.2 = hitRecord))
    ∧ (∃ r, HitTest_TriangleMesh sqrtf mesh ray hitRecord false = some r
        ∧ (r.1 = true →
            (∃ k tri, subTriangleAt sqrtf mesh k = some tri
              ∧ (HitTest_Triangle tri ray {} false).1 = true
              ∧ (HitTest_Triangle tri ray {} false).2.t < FLT_MAX) →
            r.2.didHit = true)) := by
  refine ⟨HitTest_Sphere_snd_of_false sqrtf sphere ray hitRecord ignoreHitRecord, ?_,
    HitTest_Plane_snd_of_false plane ray hitRecord ignoreHitRecord, ?_,
    HitTest_Triangle_snd_of_false triangle ray hitRecord ignoreHitRecord, ?_, ?_, ?_⟩
  · intro h
    rw [HitTest_Sphere_snd_of_true sqrtf sphere ray hitRecord h]
  · intro h
    exact (HitTest_Plane_t_le_max plane ray hitRecord h).2.1
  · intro h
    exact (HitTest_Triangle_of_true triangle ray hitRecord h).1
  · obtain ⟨d', c', h', hrun, _, _, _, _⟩ :=
      meshLoop_spec sqrtf mesh ray mesh.indices hinv false FLT_MAX {}
    unfold HitTest_TriangleMesh
    by_cases hslab : SlabTest_TriangleMesh mesh ray = true
    · rw [hslab, hrun]
      simp only [Bool.not_true, Bool.false_eq_true, if_false]
      split_ifs with hc
      · refine ⟨_, rfl, fun hd => ?_⟩
        have hd2 : d' = false := hd
        rw [hd2] at hc
        exact absurd hc.1 (by simp)
      · exact ⟨_, rfl, fun _ => rfl⟩
    · have hfalse : SlabTest_TriangleMesh mesh ray = false := by simpa using hslab
      rw [hfalse]
      exact ⟨_, rfl, fun _ => rfl⟩
  · obtain ⟨d', c', h', hrun, _, hB, _, hD⟩ :=
      meshLoop_spec sqrtf mesh ray mesh.indices hinv false FLT_MAX {}
    unfold HitTest_TriangleMesh
    by_cases hslab : SlabTest_TriangleMesh mesh ray = true
    · rw [hslab, hrun]
      simp only [Bool.not_true, Bool.false_eq_true, if_false, Bool.not_false, and_true]
      split_ifs with hc
      · refine ⟨_, rfl, fun _ hex => ?_⟩
        obtain ⟨k, tri, hk, ht, hlt⟩ := hex
        rcases hD with ⟨hceq, _⟩ | ⟨_, k0, tri0, _, ht0, hh0, _⟩
        · have hle := hB k tri hk ht
          rw [hceq] at hle
          exact absurd hlt (not_lt.mpr hle)
        · show h'.didHit = true
          rw [hh0]
          exact (HitTest_Triangle_of_true tri0 ray {} ht0).1
      · exact ⟨_, rfl, fun hd => absurd hd hc⟩
    · have hfalse : SlabTest_TriangleMesh mesh ray = false := by simpa using hslab
      rw [hfalse]
      exact ⟨_, rfl, fun hd => absurd hd (by simp)⟩

/-- An instance of `HitTest_frame`: `sphereAhead`, `planeZ7`, `triangleFar`, `meshTwoFaced`
and `rayDiag`, with a fresh record and `ignoreHitRecord = false`. -/
theorem HitTest_frame_witness :
    IndexInvariant meshTwoFaced
    ∧ ((HitTest_Sphere Rat.sqrt sphereAhead rayDiag {} false).1 = false →
        (HitTest_Sphere Rat.sqrt sphereAhead rayDiag {} false).2 = {})
    ∧ ((HitTest_Sphere Rat.sqrt sphereAhead rayDiag {} false).1 = true →
        (HitTest_Sphere Rat.sqrt sphereAhead rayDiag {} false).2.didHit = true)
    ∧ ((HitTest_Plane planeZ7 rayDiag {} false).1 = false →
        (HitTest_Plane planeZ7 rayDiag {} false).2 = {})
    ∧ ((HitTest_Plane planeZ7 rayDiag {} false).1 = true →
        (HitTest_Plane planeZ7 rayDiag {} false).2.didHit = true)
    ∧ ((HitTest_Triangle triangleFar rayDiag {} false).1 = false →
        (HitTest_Triangle triangleFar rayDiag {} false).2 = {})
    ∧ ((HitTest_Triangle triangleFar rayDiag {} false).1 = true →
        (HitTest_Triangle triangleFar rayDiag {} false).2.didHit = true)
    ∧ (∃ r, HitTest_TriangleMesh Rat.sqrt meshTwoFaced rayDiag {} false = some r
        ∧ (r.1 = false → r.2 = {}))
    ∧ (∃ r, HitTest_TriangleMesh Rat.sqrt meshTwoFaced rayDiag {} false = some r
        ∧ (r.1 = true →
            (∃ k tri, subTriangleAt Rat.sqrt meshTwoFaced k = some tri
              ∧ (HitTest_Triangle tri rayDiag {} false).1 = true
              ∧ (HitTest_Triangle tri rayDiag {} false).2.t < FLT_MAX) →
            r.2.didHit = true)) := by
  have hinv : IndexInvariant meshTwoFaced := by
    refine ⟨by simp [meshTwoFaced], ?_⟩
    intro i hi
    simp only [meshTwoFaced, List.mem_cons, List.mem_singleton, List.not_mem_nil, or_false] at hi
    rcases hi with rfl | rfl | rfl | rfl | rfl | rfl <;> simp [meshTwoFaced]
  exact ⟨hinv, HitTest_frame Rat.sqrt sphereAhead planeZ7 triangleFar meshTwoFaced rayDiag {}
    false hinv⟩

end FrameClaims

section MutatorClaims

open TriangleMesh

variable {K : Type} [LinearOrderedField K]

theorem Matrix.mul_rows (a b : Matrix K) :
    a * b = ⟨Matrix.rowMul a.xAxis b, Matrix.rowMul a.yAxis b, Matrix.rowMul a.zAxis b,
      Matrix.rowMul a.translation b⟩ := rfl

/-- The loop of `UpdateAABB`: the running box only grows, and it contains every position
the loop has visited. -/
theorem aabb_fold_spec (l : List (Vector3 K)) :
    ∀ (lo hi : Vector3 K),
      ((l.foldl (fun (box : Vector3 K × Vector3 K) pos =>
            (Vector3.Min box.1 pos, Vector3.Max box.2 pos)) (lo, hi)).1.x ≤ lo.x
        ∧ (l.foldl (fun (box : Vector3 K × Vector3 K) pos =>
            (Vector3.Min box.1 pos, Vector3.Max box.2 pos)) (lo, hi)).1.y ≤ lo.y
        ∧ (l.foldl (fun (box : Vector3 K × Vector3 K) pos =>
            (Vector3.Min box.1 pos, Vector3.Max box.2 pos)) (lo, hi)).1.z ≤ lo.z
        ∧ hi.x ≤ (l.foldl (fun (box : Vector3 K × Vector3 K) pos =>
            (Vector3.Min box.1 pos, Vector3.Max box.2 pos)) (lo, hi)).2.x
        ∧ hi.y ≤ (l.foldl (fun (box : Vector3 K × Vector3 K) pos =>
            (Vector3.Min box.1 pos, Vector3.Max box.2 pos)) (lo, hi)).2.y
        ∧ hi.z ≤ (l.foldl (fun (box : Vector3 K × Vector3 K) pos =>
            (Vector3.Min box.1 pos, Vector3.Max box.2 pos)) (lo, hi)).2.z)
      ∧ ∀ p ∈ l,
        (l.foldl (fun (box : Vector3 K × Vector3 K) pos =>
            (Vector3.Min box.1 pos, Vector3.Max box.2 pos)) (lo, hi)).1.x ≤ p.x
        ∧ (l.foldl (fun (box : Vector3 K × Vector3 K) pos =>
            (Vector3.Min box.1 pos, Vector3.Max box.2 pos)) (lo, hi)).1.y ≤ p.y
        ∧ (l.foldl (fun (box : Vector3 K × Vector3 K) pos =>
            (Vector3.Min box.1 pos, Vector3.Max box.2 pos)) (lo, hi)).1.z ≤ p.z
        ∧ p.x ≤ (l.foldl (fun (box : Vector3 K × Vector3 K) pos =>
            (Vector3.Min box.1 pos, Vector3.Max box.2 pos)) (lo, hi)).2.x
        ∧ p.y ≤ (l.foldl (fun (box : Vector3 K × Vector3 K) pos =>
            (Vector3.Min box.1 pos, Vector3.Max box.2 pos)) (lo, hi)).2.y
        ∧ p.z ≤ (l.foldl (fun (box : Vector3 K × Vector3 K) pos =>
            (Vector3.Min box.1 pos, Vector3.Max box.2 pos)) (lo, hi)).2.z := by
  induction l with
  | nil =>
    intro lo hi
    exact ⟨⟨le_refl _, le_refl _, le_refl _, le_refl _, le_refl _, le_refl _⟩,
      fun p hp => absurd hp (List.not_mem_nil p)⟩
  | cons a l ih =>
    intro lo hi
    rw [List.foldl_cons]
    obtain ⟨⟨h1, h2, h3, h4, h5, h6⟩, hall⟩ := ih (Vector3.Min lo a) (Vector3.Max hi a)
    have m1 : (Vector3.Min lo a).x = min lo.x a.x := rfl
    have m2 : (Vector3.Min lo a).y = min lo.y a.y := rfl
    have m3 : (Vector3.Min lo a).z = min lo.z a.z := rfl
    have m4 : (Vector3.Max hi a).x = max hi.x a.x := rfl
    have m5 : (Vector3.Max hi a).y = max hi.y a.y := rfl
    have m6 : (Vector3.Max hi a).z = max hi.z a.z := rfl
    rw [m1] at h1
    rw [m2] at h2
    rw [m3] at h3
    rw [m4] at h4
    rw [m5] at h5
    rw [m6] at h6
    refine ⟨⟨le_trans h1 (min_le_left _ _), le_trans h2 (min_le_left _ _),
      le_trans h3 (min_le_left _ _), le_trans (le_max_left _ _) h4,
      le_trans (le_max_left _ _) h5, le_trans (le_max_left _ _) h6⟩, ?_⟩
    intro p hp
    rcases List.mem_cons.mp hp with rfl | hp
    · exact ⟨le_trans h1 (min_le_right _ _), le_trans h2 (min_le_right _ _),
        le_trans h3 (min_le_right _ _), le_trans (le_max_right _ _) h4,
        le_trans (le_max_right _ _) h5, le_trans (le_max_right _ _) h6⟩
    · exact hall p hp

/-- After `UpdateAABB` every position lies component-wise within `[minAABB, maxAABB]`. -/
theorem UpdateAABB_contains (mesh : TriangleMesh K) :
    ∀ p ∈ mesh.positions,
      (UpdateAABB mesh).minAABB.x ≤ p.x ∧ (UpdateAABB mesh).minAABB.y ≤ p.y
      ∧ (UpdateAABB mesh).minAABB.z ≤ p.z ∧ p.x ≤ (UpdateAABB mesh).maxAABB.x
      ∧ p.y ≤ (UpdateAABB mesh).maxAABB.y ∧ p.z ≤ (UpdateAABB mesh).maxAABB.z := by
  intro p hp
  unfold UpdateAABB
  split
  · rename_i hnil
    rw [hnil] at hp
    exact absurd hp (List.not_mem_nil p)
  · rename_i p0 rest hcons
    exact (aabb_fold_spec mesh.positions p0 p0).2 p hp

/-- `UpdateAABB` writes the two box corners only. -/
theorem UpdateAABB_frame (mesh : TriangleMesh K) :
    (UpdateAABB mesh).positions = mesh.positions
    ∧ (UpdateAABB mesh).rotationTransform = mesh.rotationTransform
    ∧ (UpdateAABB mesh).translationTransform = mesh.translationTransform
    ∧ (UpdateAABB mesh).scaleTransform = mesh.scaleTransform := by
  unfold UpdateAABB
  split
  · exact ⟨rfl, rfl, rfl, rfl⟩
  · exact ⟨rfl, rfl, rfl, rfl⟩

/-- One axis, lower side: one of the two ends of `[lo, hi]` gives a product at most that of
any point of the interval. -/
theorem axis_low (a lo hi p : K) (h1 : lo ≤ p) (h2 : p ≤ hi) :
    ∃ c, (c = lo ∨ c = hi) ∧ a * c ≤ a * p := by
  rcases le_total 0 a with ha | ha
  · exact ⟨lo, Or.inl rfl, mul_le_mul_of_nonneg_left h1 ha⟩
  · exact ⟨hi, Or.inr rfl, mul_le_mul_of_nonpos_left h2 ha⟩

/-- One axis, upper side: one of the two ends of `[lo, hi]` gives a product at least that
of any point of the interval. -/
theorem axis_high (a lo hi p : K) (h1 : lo ≤ p) (h2 : p ≤ hi) :
    ∃ c, (c = lo ∨ c = hi) ∧ a * p ≤ a * c := by
  rcases le_total 0 a with ha | ha
  · exact ⟨hi, Or.inr rfl, mul_le_mul_of_nonneg_left h2 ha⟩
  · exact ⟨lo, Or.inl rfl, mul_le_mul_of_nonpos_left h1 ha⟩

/-- An affine function of a point of a box is at least the minimum of its values at the
eight corners, taken in the order of `UpdateTransformedAABB`. -/
theorem box_image_low (a b c d lox loy loz hix hiy hiz px py pz : K)
    (hx1 : lox ≤ px) (hx2 : px ≤ hix) (hy1 : loy ≤ py) (hy2 : py ≤ hiy)
    (hz1 : loz ≤ pz) (hz2 : pz ≤ hiz) :
    min (a * lox + b * hiy + c * hiz + d)
      (min (a * hix + b * hiy + c * hiz + d)
        (min (a * hix + b * hiy + c * loz + d)
          (min (a * lox + b * hiy + c * loz + d)
            (min (a * lox + b * loy + c * hiz + d)
              (min (a * hix + b * loy + c * hiz + d)
                (min (a * hix + b * loy + c * loz + d)
                  (a * lox + b * loy + c * loz + d)))))))
      ≤ a * px + b * py + c * pz + d := by
  obtain ⟨cx, hcx, hx⟩ := axis_low a lox hix px hx1 hx2
  obtain ⟨cy, hcy, hy⟩ := axis_low b loy hiy py hy1 hy2
  obtain ⟨cz, hcz, hz⟩ := axis_low c loz hiz pz hz1 hz2
  have key : a * cx + b * cy + c * cz + d ≤ a * px + b * py + c * pz + d := by linarith
  simp only [min_le_iff]
  rcases hcx with rfl | rfl <;> rcases hcy with rfl | rfl <;> rcases hcz with rfl | rfl <;> tauto

/-- An affine function of a point of a box is at most the maximum of its values at the
eight corners, taken in the order of `UpdateTransformedAABB`. -/
theorem box_image_high (a b c d lox loy loz hix hiy hiz px py pz : K)
    (hx1 : lox ≤ px) (hx2 : px ≤ hix) (hy1 : loy ≤ py) (hy2 : py ≤ hiy)
    (hz1 : loz ≤ pz) (hz2 : pz ≤ hiz) :
    a * px + b * py + c * pz + d ≤
      max (a * lox + b * hiy + c * hiz + d)
        (max (a * hix + b * hiy + c * hiz + d)
          (max (a * hix + b * hiy + c * loz + d)
            (max (a * lox + b * hiy + c * loz + d)
              (max (a * lox + b * loy + c * hiz + d)
                (max (a * hix + b * loy + c * hiz + d)
                  (max (a * hix + b * loy + c * loz + d)
                    (a * lox + b * loy + c * loz + d))))))) := by
  obtain ⟨cx, hcx, hx⟩ := axis_high a lox hix px hx1 hx2
  obtain ⟨cy, hcy, hy⟩ := axis_high b loy hiy py hy1 hy2
  obtain ⟨cz, hcz, hz⟩ := axis_high c loz hiz pz hz1 hz2
  have key : a * px + b * py + c * pz + d ≤ a * cx + b * cy + c * cz + d := by linarith
  simp only [le_max_iff]
  rcases hcx with rfl | rfl <;> rcases hcy with rfl | rfl <;> rcases hcz with rfl | rfl <;> tauto

/-- The box `UpdateTransformedAABB` computes contains the image of every point of
`[minAABB, maxAABB]`. -/
theorem UpdateTransformedAABB_contains (mesh : TriangleMesh K) (m : Matrix K) (p : Vector3 K)
    (hx1 : mesh.minAABB.x ≤ p.x) (hy1 : mesh.minAABB.y ≤ p.y) (hz1 : mesh.minAABB.z ≤ p.z)
    (hx2 : p.x ≤ mesh.maxAABB.x) (hy2 : p.y ≤ mesh.maxAABB.y) (hz2 : p.z ≤ mesh.maxAABB.z) :
    insideTransformedAABB (UpdateTransformedAABB mesh m) (m.TransformPoint p) :=
  ⟨⟨box_image_low m.xAxis.x m.yAxis.x m.zAxis.x m.translation.x _ _ _ _ _ _ _ _ _
        hx1 hx2 hy1 hy2 hz1 hz2,
      box_image_high m.xAxis.x m.yAxis.x m.zAxis.x m.translation.x _ _ _ _ _ _ _ _ _
        hx1 hx2 hy1 hy2 hz1 hz2⟩,
    ⟨box_image_low m.xAxis.y m.yAxis.y m.zAxis.y m.translation.y _ _ _ _ _ _ _ _ _
        hx1 hx2 hy1 hy2 hz1 hz2,
      box_image_high m.xAxis.y m.yAxis.y m.zAxis.y m.translation.y _ _ _ _ _ _ _ _ _
        hx1 hx2 hy1 hy2 hz1 hz2⟩,
    ⟨box_image_low m.xAxis.z m.yAxis.z m.zAxis.z m.translation.z _ _ _ _ _ _ _ _ _
        hx1 hx2 hy1 hy2 hz1 hz2,
      box_image_high m.xAxis.z m.yAxis.z m.zAxis.z m.translation.z _ _ _ _ _ _ _ _ _
        hx1 hx2 hy1 hy2 hz1 hz2⟩⟩

/-- C22: after `UpdateAABB()` followed by `UpdateTransforms()`, for every mesh and every
choice of the three transforms: the position buffer is the one before the calls,
`transformedPositions` has the length of `positions`, its entry `i` is the final
transform `rotation * translation * scale` applied to `positions[i]`, and every entry of
`transformedPositions` lies component-wise within
`[transformedMinAABB, transformedMaxAABB]`.  (On an empty position buffer the transformed
buffer is empty as well.) -/
theorem UpdateTransforms_consistent (sqrtf : K → K) (mesh : TriangleMesh K) :
    (UpdateTransforms sqrtf (UpdateAABB mesh)).positions = mesh.positions
    ∧ (UpdateTransforms sqrtf (UpdateAABB mesh)).transformedPositions.length
        = mesh.positions.length
    ∧ (∀ (i : Nat) (p : Vector3 K), mesh.positions[i]? = some p →
        (UpdateTransforms sqrtf (UpdateAABB mesh)).transformedPositions[i]?
          = some ((mesh.rotationTransform * mesh.translationTransform
              * mesh.scaleTransform).TransformPoint p))
    ∧ ∀ q ∈ (UpdateTransforms sqrtf (UpdateAABB mesh)).transformedPositions,
        insideTransformedAABB (UpdateTransforms sqrtf (UpdateAABB mesh)) q := by
  obtain ⟨hpos, hrot, htr, hsc⟩ := UpdateAABB_frame mesh
  have hbuf : (UpdateTransforms sqrtf (UpdateAABB mesh)).transformedPositions
      = mesh.positions.map (fun pos => (mesh.rotationTransform * mesh.translationTransform
          * mesh.scaleTransform).TransformPoint pos) := by
    show (UpdateAABB mesh).positions.map (fun pos => ((UpdateAABB mesh).rotationTransform
      * (UpdateAABB mesh).translationTransform
      * (UpdateAABB mesh).scaleTransform).TransformPoint pos) = _
    rw [hpos, hrot, htr, hsc]
  refine ⟨hpos, ?_, ?_, ?_⟩
  · rw [hbuf, List.length_map]
  · intro i p hp
    rw [hbuf, List.getElem?_map, hp]
    rfl
  · intro q hq
    rw [hbuf] at hq
    obtain ⟨p, hp, rfl⟩ := List.mem_map.mp hq
    obtain ⟨h1, h2, h3, h4, h5, h6⟩ := UpdateAABB_contains mesh p hp
    have hF : (UpdateAABB mesh).rotationTransform * (UpdateAABB mesh).translationTransform
        * (UpdateAABB mesh).scaleTransform
        = mesh.rotationTransform * mesh.translationTransform * mesh.scaleTransform := by
      rw [hrot, htr, hsc]
    have h := UpdateTransformedAABB_contains (UpdateAABB mesh)
      ((UpdateAABB mesh).rotationTransform * (UpdateAABB mesh).translationTransform
        * (UpdateAABB mesh).scaleTransform) p h1 h2 h3 h4 h5 h6
    rw [← hF]
    exact h

/-- Witness for C22: `meshQuarterTurn`, whose final transform sends `(x, y, z)` to
`(2 z + 2, 2 y + 4, 6 - 2 x)`; the transformed box is `(12, 2, 4)..(12, 6, 8)`. -/
theorem UpdateTransforms_consistent_witness :
    (UpdateTransforms Rat.sqrt (UpdateAABB meshQuarterTurn)).transformedPositions
      = [⟨12, 2, 8⟩, ⟨12, 2, 4⟩, ⟨12, 6, 6⟩]
    ∧ (UpdateTransforms Rat.sqrt (UpdateAABB meshQuarterTurn)).transformedMinAABB = ⟨12, 2, 4⟩
    ∧ (UpdateTransforms Rat.sqrt (UpdateAABB meshQuarterTurn)).transformedMaxAABB = ⟨12, 6, 8⟩
    ∧ (UpdateTransforms Rat.sqrt (UpdateAABB meshQuarterTurn)).transformedPositions.length
        = meshQuarterTurn.positions.length
    ∧ ∀ q ∈ (UpdateTransforms Rat.sqrt (UpdateAABB meshQuarterTurn)).transformedPositions,
        insideTransformedAABB (UpdateTransforms Rat.sqrt (UpdateAABB meshQuarterTurn)) q := by
  have hF : meshQuarterTurn.rotationTransform * meshQuarterTurn.translationTransform
      * meshQuarterTurn.scaleTransform
      = ⟨⟨0, 0, -2, 0⟩, ⟨0, 2, 0, 0⟩, ⟨2, 0, 0, 0⟩, ⟨2, 4, 6, 1⟩⟩ := by
    norm_num [Matrix.mul_rows, Matrix.rowMul, meshQuarterTurn]
  have hA : UpdateAABB meshQuarterTurn
      = { meshQuarterTurn with minAABB := ⟨-1, -1, 5⟩, maxAABB := ⟨1, 1, 5⟩ } := by
    norm_num [UpdateAABB, meshQuarterTurn, Vector3.Min, Vector3.Max]
  refine ⟨?_, ?_, ?_, (UpdateTransforms_consistent Rat.sqrt meshQuarterTurn).2.1,
    (UpdateTransforms_consistent Rat.sqrt meshQuarterTurn).2.2.2⟩
  · rw [hA]
    show List.map (fun pos => (meshQuarterTurn.rotationTransform
      * meshQuarterTurn.translationTransform
      * meshQuarterTurn.scaleTransform).TransformPoint pos) meshQuarterTurn.positions = _
    rw [hF]
    norm_num [Matrix.TransformPoint, meshQuarterTurn]
  · rw [hA]
    show (UpdateTransformedAABB _ (meshQuarterTurn.rotationTransform
      * meshQuarterTurn.translationTransform * meshQuarterTurn.scaleTransform)).transformedMinAABB
      = _
    rw [hF]
    norm_num [UpdateTransformedAABB, Matrix.TransformPoint, Vector3.Min]
  · rw [hA]
    show (UpdateTransformedAABB _ (meshQuarterTurn.rotationTransform
      * meshQuarterTurn.translationTransform * meshQuarterTurn.scaleTransform)).transformedMaxAABB
      = _
    rw [hF]
    norm_num [UpdateTransformedAABB, Matrix.TransformPoint, Vector3.Max]

theorem Matrix.default_rows :
    (default : Matrix K) = ⟨⟨1, 0, 0, 0⟩, ⟨0, 1, 0, 0⟩, ⟨0, 0, 1, 0⟩, ⟨0, 0, 0, 1⟩⟩ := rfl

/-- The product of three value-initialised matrices is the identity. -/
theorem Matrix.default_product :
    (default : Matrix K) * default * default
      = ⟨⟨1, 0, 0, 0⟩, ⟨0, 1, 0, 0⟩, ⟨0, 0, 1, 0⟩, ⟨0, 0, 0, 1⟩⟩ := by
  simp [Matrix.mul_rows, Matrix.rowMul, Matrix.default_rows]

/-- The buffers and boxes of `meshAppended`: the three vertices are appended and
transformed by the identity, and both transformed box corners are still `(0, 0, 0)`. -/
theorem meshAppended_eval :
    meshAppended.indices = [0, 1, 2]
    ∧ meshAppended.positions = [⟨0, 0, 3⟩, ⟨4, 0, 3⟩, ⟨0, 8, 3⟩]
    ∧ meshAppended.transformedPositions = [⟨0, 0, 3⟩, ⟨4, 0, 3⟩, ⟨0, 8, 3⟩]
    ∧ meshAppended.transformedMinAABB = ⟨0, 0, 0⟩
    ∧ meshAppended.transformedMaxAABB = ⟨0, 0, 0⟩
    ∧ meshAppended.materialIndex = 0
    ∧ meshAppended.cullMode = TriangleCullMode.BackFaceCulling := by
  refine ⟨rfl, rfl, ?_, ?_, ?_, rfl, rfl⟩
  · show List.map (fun pos => ((default : Matrix ℚ) * default * default).TransformPoint pos)
      [(⟨0, 0, 3⟩ : Vector3 ℚ), ⟨4, 0, 3⟩, ⟨0, 8, 3⟩] = _
    rw [Matrix.default_product]
    norm_num [Matrix.TransformPoint]
  · show (UpdateTransformedAABB _ ((default : Matrix ℚ) * default * default)).transformedMinAABB
      = _
    rw [Matrix.default_product]
    norm_num [UpdateTransformedAABB, Matrix.TransformPoint, Vector3.Min, Vector3.default_def]
  · show (UpdateTransformedAABB _ ((default : Matrix ℚ) * default * default)).transformedMaxAABB
      = _
    rw [Matrix.default_product]
    norm_num [UpdateTransformedAABB, Matrix.TransformPoint, Vector3.Max, Vector3.default_def]

/-- The buffers and boxes of `meshAppendedRefreshed`: the same buffers as `meshAppended`,
with the transformed box `(0, 0, 3)..(4, 8, 3)` of the three vertices. -/
theorem meshAppendedRefreshed_eval :
    meshAppendedRefreshed.indices = [0, 1, 2]
    ∧ meshAppendedRefreshed.transformedPositions = [⟨0, 0, 3⟩, ⟨4, 0, 3⟩, ⟨0, 8, 3⟩]
    ∧ meshAppendedRefreshed.transformedMinAABB = ⟨0, 0, 3⟩
    ∧ meshAppendedRefreshed.transformedMaxAABB = ⟨4, 8, 3⟩
    ∧ meshAppendedRefreshed.materialIndex = 0
    ∧ meshAppendedRefreshed.cullMode = TriangleCullMode.BackFaceCulling := by
  have hA : UpdateAABB (AppendTriangle Rat.sqrt ({} : TriangleMesh ℚ) triangleAppended true)
      = { AppendTriangle Rat.sqrt ({} : TriangleMesh ℚ) triangleAppended true with
          minAABB := ⟨0, 0, 3⟩, maxAABB := ⟨4, 8, 3⟩ } := by
    norm_num [UpdateAABB, AppendTriangle, triangleAppended, Vector3.Min, Vector3.Max]
  unfold meshAppendedRefreshed
  rw [hA]
  refine ⟨rfl, ?_, ?_, ?_, rfl, rfl⟩
  · show List.map (fun pos => ((default : Matrix ℚ) * default * default).TransformPoint pos)
      [(⟨0, 0, 3⟩ : Vector3 ℚ), ⟨4, 0, 3⟩, ⟨0, 8, 3⟩] = _
    rw [Matrix.default_product]
    norm_num [Matrix.TransformPoint]
  · show (UpdateTransformedAABB _ ((default : Matrix ℚ) * default * default)).transformedMinAABB
      = _
    rw [Matrix.default_product]
    norm_num [UpdateTransformedAABB, Matrix.TransformPoint, Vector3.Min]
  · show (UpdateTransformedAABB _ ((default : Matrix ℚ) * default * default)).transformedMaxAABB
      = _
    rw [Matrix.default_product]
    norm_num [UpdateTransformedAABB, Matrix.TransformPoint, Vector3.Max]

/-- C29 (failing input): the default-constructed mesh satisfies the premise, and
`AppendTriangle(triangleAppended)` with the default `ignoreTransformUpdate = false` gives
`meshAppended`.  The index part of the claim holds: three indices, each a valid offset.
The box part fails: `UpdateTransforms` rebuilds the transformed box from the stale
`[minAABB, maxAABB] = [(0,0,0), (0,0,0)]`, since `UpdateAABB` is never called, so none of
the three transformed positions lies in the transformed box.  The mesh is not queryable:
`rayAside` hits the appended triangle at `t = 9/2` (the loop over the sub-triangles finds
it), while `HitTest_TriangleMesh` rejects the ray at the slab test.  The same mesh built
with `AppendTriangle(triangle, true)`, `UpdateAABB()`, `UpdateTransforms()`, as every
caller in `Scene.cpp` does, has the box `(0,0,3)..(4,8,3)` and reports the hit. -/
theorem AppendTriangle_stale_AABB :
    (∀ p ∈ ({} : TriangleMesh ℚ).transformedPositions,
        insideTransformedAABB ({} : TriangleMesh ℚ) p)
    ∧ meshAppended = TriangleMesh.AppendTriangle Rat.sqrt {} triangleAppended false
    ∧ meshAppended.indices = [0, 1, 2]
    ∧ meshAppended.positions = [⟨0, 0, 3⟩, ⟨4, 0, 3⟩, ⟨0, 8, 3⟩]
    ∧ IndexInvariant meshAppended
    ∧ meshAppended.transformedPositions = [⟨0, 0, 3⟩, ⟨4, 0, 3⟩, ⟨0, 8, 3⟩]
    ∧ meshAppended.transformedMinAABB = ⟨0, 0, 0⟩
    ∧ meshAppended.transformedMaxAABB = ⟨0, 0, 0⟩
    ∧ (∀ p ∈ meshAppended.transformedPositions, ¬ insideTransformedAABB meshAppended p)
    ∧ HitTest_TriangleMesh_LinearScan Rat.sqrt meshAppended rayAside {} false
        = some (true, { origin := ⟨2, 7 / 2, 3⟩, normal := ⟨0, 0, 1⟩, t := 9 / 2,
                        didHit := true, materialIndex := 0 })
    ∧ HitTest_TriangleMesh Rat.sqrt meshAppended rayAside {} false = some (false, {})
    ∧ meshAppendedRefreshed.transformedMinAABB = ⟨0, 0, 3⟩
    ∧ meshAppendedRefreshed.transformedMaxAABB = ⟨4, 8, 3⟩
    ∧ HitTest_TriangleMesh Rat.sqrt meshAppendedRefreshed rayAside {} false
        = some (true, { origin := ⟨2, 7 / 2, 3⟩, normal := ⟨0, 0, 1⟩, t := 9 / 2,
                        didHit := true, materialIndex := 0 }) := by
  obtain ⟨hidx, hpos, htp, hmin, hmax, hmat, hcull⟩ := meshAppended_eval
  obtain ⟨hidx2, htp2, hmin2, hmax2, hmat2, hcull2⟩ := meshAppendedRefreshed_eval
  have r1024 : Rat.sqrt 1024 = 32 := by
    have e : (1024 : ℚ) = 32 * 32 := by norm_num
    rw [e, rat_sqrt_sq 32 (by norm_num)]
  have p0 : positionAt meshAppended.transformedPositions 0 = some ⟨0, 0, 3⟩ := by
    rw [htp]; rfl
  have p1 : positionAt meshAppended.transformedPositions 1 = some ⟨4, 0, 3⟩ := by
    rw [htp]; rfl
  have p2 : positionAt meshAppended.transformedPositions 2 = some ⟨0, 8, 3⟩ := by
    rw [htp]; rfl
  have q0 : positionAt meshAppendedRefreshed.transformedPositions 0 = some ⟨0, 0, 3⟩ := by
    rw [htp2]; rfl
  have q1 : positionAt meshAppendedRefreshed.transformedPositions 1 = some ⟨4, 0, 3⟩ := by
    rw [htp2]; rfl
  have q2 : positionAt meshAppendedRefreshed.transformedPositions 2 = some ⟨0, 8, 3⟩ := by
    rw [htp2]; rfl
  have htri : meshTriangle Rat.sqrt meshAppended ⟨0, 0, 3⟩ ⟨4, 0, 3⟩ ⟨0, 8, 3⟩
      = triangleAppended := by
    norm_num [meshTriangle, Triangle.ofVertices, hmat, hcull, triangleAppended,
      Vector3.Cross, Vector3.Normalized, Vector3.Magnitude, r1024, Vector3.sub_def]
  have htri2 : meshTriangle Rat.sqrt meshAppendedRefreshed ⟨0, 0, 3⟩ ⟨4, 0, 3⟩ ⟨0, 8, 3⟩
      = triangleAppended := by
    norm_num [meshTriangle, Triangle.ofVertices, hmat2, hcull2, triangleAppended,
      Vector3.Cross, Vector3.Normalized, Vector3.Magnitude, r1024, Vector3.sub_def]
  have hhit : HitTest_Triangle triangleAppended rayAside {} false
      = (true, { origin := ⟨2, 7 / 2, 3⟩, normal := ⟨0, 0, 1⟩, t := 9 / 2, didHit := true,
                 materialIndex := 0 }) := by
    norm_num [HitTest_Triangle, triangleAppended, rayAside, Vector3.Dot, Vector3.Cross, FLT_MAX,
      Vector3.add_def, Vector3.sub_def, Vector3.smul_def]
  have hslab : SlabTest_TriangleMesh meshAppended rayAside = false := by
    norm_num [SlabTest_TriangleMesh, hmin, hmax, rayAside]
  have hslab2 : SlabTest_TriangleMesh meshAppendedRefreshed rayAside = true := by
    norm_num [SlabTest_TriangleMesh, hmin2, hmax2, rayAside]
  refine ⟨fun p hp => absurd hp (List.not_mem_nil p), rfl, hidx, hpos, ?_, htp, hmin, hmax, ?_,
    ?_, ?_, hmin2, hmax2, ?_⟩
  · refine ⟨by rw [hidx]; rfl, ?_⟩
    intro i hi
    rw [hidx] at hi
    rw [htp]
    simp only [List.mem_cons, List.mem_singleton, List.not_mem_nil, or_false] at hi
    rcases hi with rfl | rfl | rfl <;> simp
  · intro p hp
    rw [htp] at hp
    simp only [List.mem_cons, List.mem_singleton, List.not_mem_nil, or_false] at hp
    rcases hp with rfl | rfl | rfl <;> norm_num [insideTransformedAABB, hmin, hmax]
  · unfold HitTest_TriangleMesh_LinearScan
    rw [hidx]
    simp only [meshLoop, p0, p1, p2, htri, hhit]
    norm_num [FLT_MAX]
  · unfold HitTest_TriangleMesh
    rw [hslab]
    rfl
  · unfold HitTest_TriangleMesh
    rw [hslab2, hidx2]
    simp only [meshLoop, q0, q1, q2, htri2, hhit]
    norm_num [FLT_MAX]

end MutatorClaims

section Binary32Lemmas

/-- A rational within a half of the integer `n` is rounded to `n`. -/
theorem roundHalfEven_of_near (x : ℚ) (n : ℤ) (h : |x - n| < 1 / 2) : roundHalfEven x = n := by
  rw [abs_lt] at h
  unfold roundHalfEven
  rcases le_or_lt (n : ℚ) x with hx | hx
  · have hf : ⌊x⌋ = n := by
      rw [Int.floor_eq_iff]
      constructor
      · exact hx
      · linarith
    rw [hf, if_pos (by linarith)]
  · have hf : ⌊x⌋ = n - 1 := by
      rw [Int.floor_eq_iff]
      push_cast
      constructor
      · linarith
      · linarith
    rw [hf]
    push_cast
    rw [if_neg (by linarith), if_pos (by linarith)]
    ring

/-- An integer is rounded to itself. -/
theorem roundHalfEven_intCast (n : ℤ) : roundHalfEven (n : ℚ) = n :=
  roundHalfEven_of_near n n (by simp)

/-- The unit in the last place in the binade `[2^e, 2^(e+1))` of the normal range. -/
theorem ulpExp_of_binade (q : ℚ) (e : ℤ) (he : -126 ≤ e) (h1 : (2 : ℚ) ^ e ≤ |q|)
    (h2 : |q| < (2 : ℚ) ^ (e + 1)) : ulpExp q = e - 23 := by
  have hpos : 0 < |q| := lt_of_lt_of_le (by positivity) h1
  have hlog : Int.log 2 |q| = e := by
    apply le_antisymm
    · have := (Int.lt_zpow_iff_log_lt (b := 2) (by norm_num) hpos).mp (by exact_mod_cast h2)
      omega
    · exact (Int.zpow_le_iff_le_log (b := 2) (by norm_num) hpos).mp (by exact_mod_cast h1)
  unfold ulpExp
  rw [hlog, max_eq_left he]

/-- Evaluation of `round32` away from ties: in the binade `[2^e, 2^(e+1))` a number
within half a unit in the last place of `n * 2^(e-23)` is rounded to it. -/
theorem round32_eval (q : ℚ) (e n : ℤ) (he : -126 ≤ e) (h1 : (2 : ℚ) ^ e ≤ |q|)
    (h2 : |q| < (2 : ℚ) ^ (e + 1)) (hn : |q / 2 ^ (e - 23) - n| < 1 / 2) :
    round32 q = n * 2 ^ (e - 23) := by
  unfold round32
  rw [ulpExp_of_binade q e he h1 h2, roundHalfEven_of_near _ n hn]

/-- The unit in the last place below the normal range. -/
theorem ulpExp_subnormal (q : ℚ) (hq : q ≠ 0) (h : |q| < (2 : ℚ) ^ (-126 : ℤ)) :
    ulpExp q = -149 := by
  have hpos : 0 < |q| := abs_pos.mpr hq
  have hlog : Int.log 2 |q| < -126 :=
    (Int.lt_zpow_iff_log_lt (b := 2) (by norm_num) hpos).mp (by exact_mod_cast h)
  unfold ulpExp
  rw [max_eq_right (le_of_lt hlog)]
  norm_num

/-- Evaluation of `round32` away from ties below the normal range: a number within half
of `2^-149` of `n * 2^-149` is rounded to it. -/
theorem round32_eval_subnormal (q : ℚ) (n : ℤ) (hq : q ≠ 0)
    (h : |q| < (2 : ℚ) ^ (-126 : ℤ)) (hn : |q / 2 ^ (-149 : ℤ) - n| < 1 / 2) :
    round32 q = n * 2 ^ (-149 : ℤ) := by
  unfold round32
  rw [ulpExp_subnormal q hq h, roundHalfEven_of_near _ n hn]

theorem round32_zero : round32 0 = 0 := by
  unfold round32
  rw [zero_div, roundHalfEven_of_near 0 0 (by norm_num)]
  simp

/-- A multiple of a power of two is kept by the rounding at any finer power of two. -/
theorem roundHalfEven_dyadic (m e u : ℤ) (hu : u ≤ e) :
    (roundHalfEven ((m : ℚ) * 2 ^ e / 2 ^ u) : ℚ) * 2 ^ u = (m : ℚ) * 2 ^ e := by
  obtain ⟨k, hk⟩ : ∃ k : ℕ, e = u + k := ⟨(e - u).toNat, by omega⟩
  have h2 : (2 : ℚ) ^ e = 2 ^ u * 2 ^ k := by
    rw [hk, zpow_add₀ (by norm_num : (2 : ℚ) ≠ 0), zpow_natCast]
  have hint : (m : ℚ) * 2 ^ e / 2 ^ u = ((m * 2 ^ k : ℤ) : ℚ) := by
    push_cast
    rw [h2]
    field_simp
    ring
  rw [hint, roundHalfEven_intCast, h2]
  push_cast
  ring

/-- A binary32 number, `m * 2^e` with `|m| < 2^24` and `e ≥ -149`, is not changed by
`round32`. -/
theorem round32_dyadic (m e : ℤ) (hm : |m| < 2 ^ 24) (he : -149 ≤ e) :
    round32 ((m : ℚ) * 2 ^ e) = (m : ℚ) * 2 ^ e := by
  by_cases hm0 : m = 0
  · subst hm0
    simp [round32_zero]
  have hq : (0 : ℚ) < |(m : ℚ) * 2 ^ e| := by
    rw [abs_pos]
    exact mul_ne_zero (by exact_mod_cast hm0) (by positivity)
  have hlt : |(m : ℚ) * 2 ^ e| < (2 : ℚ) ^ (e + 24) := by
    rw [abs_mul, abs_of_pos (show (0 : ℚ) < 2 ^ e by positivity),
      zpow_add₀ (by norm_num : (2 : ℚ) ≠ 0), mul_comm]
    apply mul_lt_mul_of_pos_left _ (by positivity)
    have : ((|m| : ℤ) : ℚ) < ((2 ^ 24 : ℤ) : ℚ) := by exact_mod_cast hm
    rw [zpow_ofNat]
    simpa using this
  have hlog : Int.log 2 |(m : ℚ) * 2 ^ e| < e + 24 :=
    (Int.lt_zpow_iff_log_lt (b := 2) (by norm_num) hq).mp (by exact_mod_cast hlt)
  have hu : ulpExp ((m : ℚ) * 2 ^ e) ≤ e := by
    unfold ulpExp
    have : max (Int.log 2 |(m : ℚ) * 2 ^ e|) (-126) ≤ e + 23 := max_le (by omega) (by omega)
    omega
  unfold round32
  exact roundHalfEven_dyadic m e _ hu

end Binary32Lemmas

section SphereRounding

variable {K : Type} [LinearOrderedField K]

/-- The boolean of the rounded `HitTest_Sphere`, in terms of the three values it computes:
`d2 ≤ radius2` and `0 ≤ t0 ≤ ray.max`. -/
theorem HitTest_Sphere_fst_iff_fl (fl sqrtf : K → K) (sphere : Sphere K) (ray : Ray K)
    (hitRecord : HitRecord K) (ignoreHitRecord : Bool) :
    (Float32.HitTest_Sphere fl sqrtf sphere ray hitRecord ignoreHitRecord).1 = true ↔
      Float32.sphereD2 fl sphere ray ≤ Float32.sphereRadius2 fl sphere
        ∧ 0 ≤ Float32.sphereT0 fl sqrtf sphere ray
        ∧ Float32.sphereT0 fl sqrtf sphere ray ≤ ray.max := by
  unfold Float32.HitTest_Sphere Float32.sphereT0 Float32.sphereD2 Float32.sphereRadius2
  simp only []
  split_ifs with h1 h2 h3
  · simp only [Bool.false_eq_true, false_iff, not_and, not_le]
    intro h; exact absurd h (not_le.mpr h1)
  · simp only [Bool.false_eq_true, false_iff, not_and, not_le]
    intro _ h0
    rcases h2 with h2 | h2
    · exact absurd h0 (not_le.mpr h2)
    · exact h2
  · push_neg at h1 h2
    simp only [true_iff]
    exact ⟨h1, h2.1, h2.2⟩
  · push_neg at h1 h2
    simp only [true_iff]
    exact ⟨h1, h2.1, h2.2⟩

end SphereRounding

section SphereRoundingEval

/-- A second way in which C7 fails, by rounding: the line of `rayZ32` passes
`sphereOffAxis` at distance `1`, twice its radius.  The sum `1 + 8192^2` of `Dot(L, L)`
is rounded to `8192^2`, which gives `d2 = 0`, and `HitTest_Sphere` reports an
intersection (at `t0 = 8191.5`). -/
theorem HitTest_Sphere_cancellation :
    Vector3.Dot rayZ32.direction rayZ32.direction = 1
    ∧ sphereOffAxis.radius * sphereOffAxis.radius
        < Vector3.SqrMagnitude (rayZ32.origin - sphereOffAxis.origin)
    ∧ sphereOffAxis.radius * sphereOffAxis.radius < perpDistSq sphereOffAxis.origin rayZ32
    ∧ Float32.sphereD2 round32 sphereOffAxis rayZ32 = 0
    ∧ Float32.sphereT0 round32 Rat.sqrt sphereOffAxis rayZ32 = 16383 / 2
    ∧ (Float32.HitTest_Sphere round32 Rat.sqrt sphereOffAxis rayZ32 {} false).1 = true := by
  have rq : Rat.sqrt (1 / 4) = 1 / 2 := by
    have e : (1 / 4 : ℚ) = 1 / 2 * (1 / 2) := by norm_num
    rw [e, rat_sqrt_sq (1 / 2) (by norm_num)]
  have f0 : round32 0 = 0 := round32_zero
  have f1 : round32 1 = 1 := by
    have h := round32_dyadic 1 0 (by norm_num) (by norm_num)
    norm_num at h
    exact h
  have f2 : round32 8192 = 8192 := by
    have h := round32_dyadic 1 13 (by norm_num) (by norm_num)
    norm_num at h
    exact h
  have f3 : round32 67108864 = 67108864 := by
    have h := round32_dyadic 1 26 (by norm_num) (by norm_num)
    norm_num at h
    exact h
  have f4 : round32 67108865 = 67108864 := by
    have h := round32_eval 67108865 26 8388608 (by norm_num)
      (by rw [abs_of_pos (by norm_num)]; norm_num) (by rw [abs_of_pos (by norm_num)]; norm_num)
      (by rw [abs_lt]; constructor <;> norm_num)
    norm_num at h
    exact h
  have f5 : round32 (1 / 4) = 1 / 4 := by
    have h := round32_dyadic 1 (-2) (by norm_num) (by norm_num)
    norm_num at h
    exact h
  have f6 : round32 (16383 / 2) = 16383 / 2 := by
    have h := round32_dyadic 16383 (-1) (by norm_num) (by norm_num)
    norm_num at h
    exact h
  have h1 : Float32.sub round32 sphereOffAxis.origin rayZ32.origin = ⟨0, 1, 8192⟩ := by
    show Float32.sub round32 (⟨0, 1, 8192⟩ : Vector3 ℚ) (⟨0, 0, 0⟩ : Vector3 ℚ) = _
    norm_num [Float32.sub, f0, f1, f2, f3, f4, f5, f6]
  have h2 : Float32.Dot round32 (⟨0, 1, 8192⟩ : Vector3 ℚ) rayZ32.direction = 8192 := by
    show Float32.Dot round32 (⟨0, 1, 8192⟩ : Vector3 ℚ) (⟨0, 0, 1⟩ : Vector3 ℚ) = _
    norm_num [Float32.Dot, f0, f1, f2, f3, f4, f5, f6]
  have h3 : Float32.Dot round32 (⟨0, 1, 8192⟩ : Vector3 ℚ) (⟨0, 1, 8192⟩ : Vector3 ℚ) = 67108864 := by
    norm_num [Float32.Dot, f0, f1, f2, f3, f4, f5, f6]
  have hd2 : Float32.sphereD2 round32 sphereOffAxis rayZ32 = 0 := by
    unfold Float32.sphereD2
    simp only []
    rw [h1, h2, h3]
    norm_num [f0, f1, f2, f3, f4, f5, f6]
  have hr2 : Float32.sphereRadius2 round32 sphereOffAxis = 1 / 4 := by
    show round32 ((1 / 2 : ℚ) * (1 / 2)) = _
    norm_num [f0, f1, f2, f3, f4, f5, f6]
  have ht0 : Float32.sphereT0 round32 Rat.sqrt sphereOffAxis rayZ32 = 16383 / 2 := by
    unfold Float32.sphereT0
    simp only []
    rw [h1, h2, hr2, hd2]
    norm_num [rq, f0, f1, f2, f3, f4, f5, f6]
  refine ⟨?_, ?_, ?_, hd2, ht0, ?_⟩
  · norm_num [rayZ32, Vector3.Dot]
  · norm_num [sphereOffAxis, rayZ32, Vector3.SqrMagnitude, Vector3.sub_def]
  · norm_num [perpDistSq, sphereOffAxis, rayZ32, Vector3.SqrMagnitude, Vector3.Dot,
      Vector3.sub_def, Vector3.smul_def]
  · rw [HitTest_Sphere_fst_iff_fl, hd2, hr2, ht0]
    norm_num [rayZ32, FLT_MAX]

end SphereRoundingEval

section PlaneRounding

variable {K : Type} [LinearOrderedField K]

/-- C11 (amended): the rounded `HitTest_Plane` returns true if and only if
`|denom| > 0.0001f` and `ray.min ≤ t ≤ ray.max`, for the values `denom` and `t` that it
computes (each operation rounded); so it returns false whenever `|denom| ≤ 0.0001f`; on a
hit the record holds that `t` and the point computed from it; and that point lies on the
plane when `denom` and the point are computed without rounding error. -/
theorem HitTest_Plane_iff_computed (fl : K → K) (plane : Plane K) (ray : Ray K)
    (hitRecord : HitRecord K) (ignoreHitRecord : Bool) :
    ((Float32.HitTest_Plane fl plane ray hitRecord ignoreHitRecord).1 = true ↔
      |Float32.planeDenom fl plane ray| > epsilon32
        ∧ ray.min ≤ Float32.planeT fl plane ray ∧ Float32.planeT fl plane ray ≤ ray.max)
    ∧ (|Float32.planeDenom fl plane ray| ≤ epsilon32 →
        (Float32.HitTest_Plane fl plane ray hitRecord ignoreHitRecord).1 = false)
    ∧ ((Float32.HitTest_Plane fl plane ray hitRecord false).1 = true →
        (Float32.HitTest_Plane fl plane ray hitRecord false).2.t = Float32.planeT fl plane ray
        ∧ (Float32.HitTest_Plane fl plane ray hitRecord false).2.origin
            = Float32.planePoint fl plane ray)
    ∧ ((Float32.HitTest_Plane fl plane ray hitRecord false).1 = true →
        Float32.PlanePointExact fl plane ray →
        Vector3.Dot ((Float32.HitTest_Plane fl plane ray hitRecord false).2.origin
          - plane.origin) plane.normal = 0) := by
  have hiff : ∀ (r : HitRecord K) (i : Bool),
      (Float32.HitTest_Plane fl plane ray r i).1 = true ↔
      |Float32.planeDenom fl plane ray| > epsilon32
        ∧ ray.min ≤ Float32.planeT fl plane ray ∧ Float32.planeT fl plane ray ≤ ray.max := by
    intro r i
    unfold Float32.HitTest_Plane Float32.planeT Float32.planeDenom
    simp only []
    split_ifs with h1 h2 h3 <;>
      first
      | exact ⟨fun _ => ⟨h1, h2.1, h2.2⟩, fun _ => rfl⟩
      | exact ⟨fun h => absurd h (by simp), fun h => absurd ⟨h.2.1, h.2.2⟩ h2⟩
      | exact ⟨fun h => absurd h (by simp), fun h => absurd h.1 h1⟩
  have hrec : (Float32.HitTest_Plane fl plane ray hitRecord false).1 = true →
      (Float32.HitTest_Plane fl plane ray hitRecord false).2.t = Float32.planeT fl plane ray
      ∧ (Float32.HitTest_Plane fl plane ray hitRecord false).2.origin
          = Float32.planePoint fl plane ray := by
    intro hhit
    unfold Float32.HitTest_Plane at hhit ⊢
    unfold Float32.planePoint Float32.planeT Float32.planeDenom
    simp only [Bool.not_false, if_true] at hhit ⊢
    split_ifs at hhit ⊢ <;> exact ⟨rfl, rfl⟩
  refine ⟨hiff hitRecord ignoreHitRecord, ?_, hrec, ?_⟩
  · intro hle
    by_contra hne
    have ht : (Float32.HitTest_Plane fl plane ray hitRecord ignoreHitRecord).1 = true := by
      simpa using hne
    exact absurd ((hiff hitRecord ignoreHitRecord).mp ht).1 (not_lt.mpr hle)
  · intro hhit hex
    obtain ⟨hden, hpt⟩ := hex
    have hpos : (0 : K) < epsilon32 := by
      unfold epsilon32
      positivity
    have hne : Vector3.Dot plane.normal ray.direction ≠ 0 := by
      intro h0
      have h1 := ((hiff hitRecord false).mp hhit).1
      rw [hden, h0, abs_zero] at h1
      exact absurd h1 (not_lt.mpr (le_of_lt hpos))
    rw [(hrec hhit).2, hpt]
    simp only [Vector3.Dot, planeT, Vector3.sub_x, Vector3.sub_y, Vector3.sub_z, Vector3.add_x,
      Vector3.add_y, Vector3.add_z, Vector3.smul_x, Vector3.smul_y, Vector3.smul_z] at hne ⊢
    field_simp
    ring

end PlaneRounding

section PlaneRoundingEval

/-- Counterexample to C11 as stated: `rayTilt` hits `planeZ3`; all inputs are binary32
numbers.  The quotient `t = 3 / denom` is rounded to `10.5` and the product
`t * direction.z` to `3 + 2^-22`: the reported point is `2^-22` off the plane, its
`dot(point - plane.origin, plane.normal)` is `2^-22`, not `0`. -/
theorem HitTest_Plane_off_plane_counterexample :
    Float32.HitTest_Plane round32 planeZ3 rayTilt {} false
        = (true, { origin := ⟨9 / 2, 9, 12582913 / 2 ^ 22⟩
                   normal := ⟨0, 0, -1⟩
                   t := 21 / 2
                   didHit := true
                   materialIndex := 2 })
    ∧ Vector3.Dot ((⟨9 / 2, 9, 12582913 / 2 ^ 22⟩ : Vector3 ℚ) - planeZ3.origin) planeZ3.normal
        = 1 / 2 ^ 22 := by
  have f0 : round32 0 = 0 := round32_zero
  have f1 : round32 (9586981 / 33554432) = 9586981 / 33554432 := by
    have h := round32_dyadic 9586981 (-25) (by norm_num) (by norm_num)
    norm_num at h
    exact h
  have f2 : round32 3 = 3 := by
    have h := round32_dyadic 3 0 (by norm_num) (by norm_num)
    norm_num at h
    exact h
  have f3 : round32 (100663296 / 9586981) = 21 / 2 := by
    have h := round32_eval (100663296 / 9586981) 3 11010048 (by norm_num)
      (by rw [abs_of_pos (by norm_num)]; norm_num) (by rw [abs_of_pos (by norm_num)]; norm_num)
      (by rw [abs_lt]; constructor <;> norm_num)
    norm_num at h
    exact h
  have f4 : round32 (301989891 / 67108864) = 9 / 2 := by
    have h := round32_eval (301989891 / 67108864) 2 9437184 (by norm_num)
      (by rw [abs_of_pos (by norm_num)]; norm_num) (by rw [abs_of_pos (by norm_num)]; norm_num)
      (by rw [abs_lt]; constructor <;> norm_num)
    norm_num at h
    exact h
  have f5 : round32 (301989891 / 33554432) = 9 := by
    have h := round32_eval (301989891 / 33554432) 3 9437184 (by norm_num)
      (by rw [abs_of_pos (by norm_num)]; norm_num) (by rw [abs_of_pos (by norm_num)]; norm_num)
      (by rw [abs_lt]; constructor <;> norm_num)
    norm_num at h
    exact h
  have f6 : round32 (201326601 / 67108864) = 12582913 / 4194304 := by
    have h := round32_eval (201326601 / 67108864) 1 12582913 (by norm_num)
      (by rw [abs_of_pos (by norm_num)]; norm_num) (by rw [abs_of_pos (by norm_num)]; norm_num)
      (by rw [abs_lt]; constructor <;> norm_num)
    norm_num at h
    exact h
  have f7 : round32 (9 / 2) = 9 / 2 := by
    have h := round32_dyadic 9 (-1) (by norm_num) (by norm_num)
    norm_num at h
    exact h
  have f8 : round32 9 = 9 := by
    have h := round32_dyadic 9 0 (by norm_num) (by norm_num)
    norm_num at h
    exact h
  have f9 : round32 (12582913 / 4194304) = 12582913 / 4194304 := by
    have h := round32_dyadic 12582913 (-22) (by norm_num) (by norm_num)
    norm_num at h
    exact h
  have habs : |(9586981 / 33554432 : ℚ)| = 9586981 / 33554432 := abs_of_pos (by norm_num)
  constructor
  · norm_num [Float32.HitTest_Plane, Float32.sub, Float32.add, Float32.scale, Float32.Dot,
      planeZ3, rayTilt, epsilon32, FLT_MAX, Vector3.neg_def, habs, f0, f1, f2, f3, f4, f5, f6, f7, f8, f9]
  · norm_num [planeZ3, Vector3.Dot, Vector3.sub_def]

/-- Witness for the amended C11: `rayZ32` hits `planeZ7` at `t = 7`, with binary32
rounding; every value of the run is a small integer, and the reported point `(0, 0, 7)`
lies on the plane. -/
theorem HitTest_Plane_iff_computed_witness :
    (Float32.HitTest_Plane round32 planeZ7 rayZ32 {} false).1 = true
    ∧ Float32.PlanePointExact round32 planeZ7 rayZ32
    ∧ (Float32.HitTest_Plane round32 planeZ7 rayZ32 {} false).2.t = 7
    ∧ Vector3.Dot ((Float32.HitTest_Plane round32 planeZ7 rayZ32 {} false).2.origin
        - planeZ7.origin) planeZ7.normal = 0 := by
  have f0 : round32 0 = 0 := round32_zero
  have f1 : round32 1 = 1 := by
    have h := round32_dyadic 1 0 (by norm_num) (by norm_num)
    norm_num at h
    exact h
  have f2 : round32 7 = 7 := by
    have h := round32_dyadic 7 0 (by norm_num) (by norm_num)
    norm_num at h
    exact h
  have hhit : (Float32.HitTest_Plane round32 planeZ7 rayZ32 {} false).1 = true := by
    norm_num [Float32.HitTest_Plane, Float32.sub, Float32.Dot, planeZ7, rayZ32, epsilon32,
      FLT_MAX, f0, f1, f2]
  have hex : Float32.PlanePointExact round32 planeZ7 rayZ32 := by
    norm_num [Float32.PlanePointExact, Float32.planeDenom, Float32.planePoint, Float32.planeT,
      planeT, Float32.sub, Float32.add, Float32.scale, Float32.Dot, planeZ7, rayZ32,
      Vector3.Dot, Vector3.sub_def, Vector3.add_def, Vector3.smul_def, f0, f1, f2]
  have ht : (Float32.HitTest_Plane round32 planeZ7 rayZ32 {} false).2.t = 7 := by
    rw [((HitTest_Plane_iff_computed round32 planeZ7 rayZ32 {} false).2.2.1 hhit).1]
    norm_num [Float32.planeDenom, Float32.planeT, Float32.sub, Float32.Dot, planeZ7, rayZ32,
      f0, f1, f2]
  exact ⟨hhit, hex, ht,
    (HitTest_Plane_iff_computed round32 planeZ7 rayZ32 {} false).2.2.2 hhit hex⟩

end PlaneRoundingEval

section TriangleRounding

variable {K : Type} [LinearOrderedField K]

/-- The boolean of the rounded `HitTest_Triangle`, in terms of the values it computes:
`Dot(n, ray.direction)` is not zero, `t` lies in the ray interval and the three edge
tests are non-negative. -/
theorem HitTest_Triangle_fst_iff_fl (fl : K → K) (triangle : Triangle K) (ray : Ray K)
    (hitRecord : HitRecord K) (ignoreHitRecord : Bool) :
    (Float32.HitTest_Triangle fl triangle ray hitRecord ignoreHitRecord).1 = true ↔
      Float32.triangleDenom fl triangle ray ≠ 0
      ∧ ray.min ≤ Float32.triangleT fl triangle ray
      ∧ Float32.triangleT fl triangle ray ≤ ray.max
      ∧ 0 ≤ Float32.triangleEdge fl triangle ray triangle.v0 triangle.v1
      ∧ 0 ≤ Float32.triangleEdge fl triangle ray triangle.v1 triangle.v2
      ∧ 0 ≤ Float32.triangleEdge fl triangle ray triangle.v2 triangle.v0 := by
  unfold Float32.HitTest_Triangle Float32.triangleEdge Float32.trianglePoint Float32.triangleT
    Float32.triangleDenom Float32.triangleCross
  simp only []
  split_ifs with h1 h2 h3 h4 h5 h6
  · exact ⟨fun h => absurd h (by simp), fun h => absurd h1 h.1⟩
  · refine ⟨fun h => absurd h (by simp), fun h => ?_⟩
    rcases h2 with h2 | h2
    · exact absurd h.2.1 (not_le.mpr h2)
    · exact absurd h.2.2.1 (not_le.mpr h2)
  · exact ⟨fun h => absurd h (by simp), fun h => absurd h.2.2.2.1 (not_le.mpr h3)⟩
  · exact ⟨fun h => absurd h (by simp), fun h => absurd h.2.2.2.2.1 (not_le.mpr h4)⟩
  · exact ⟨fun h => absurd h (by simp), fun h => absurd h.2.2.2.2.2 (not_le.mpr h5)⟩
  · push_neg at h2 h3 h4 h5
    exact ⟨fun _ => ⟨h1, h2.1, h2.2, h3, h4, h5⟩, fun _ => rfl⟩
  · push_neg at h2 h3 h4 h5
    exact ⟨fun _ => ⟨h1, h2.1, h2.2, h3, h4, h5⟩, fun _ => rfl⟩

/-- The record written by a successful rounded `HitTest_Triangle`. -/
theorem HitTest_Triangle_snd_of_true_fl (fl : K → K) (triangle : Triangle K) (ray : Ray K)
    (hitRecord : HitRecord K)
    (h : (Float32.HitTest_Triangle fl triangle ray hitRecord false).1 = true) :
    (Float32.HitTest_Triangle fl triangle ray hitRecord false).2 =
      { origin := Float32.trianglePoint fl triangle ray
        normal := triangle.normal
        t := Float32.triangleT fl triangle ray
        didHit := true
        materialIndex := triangle.materialIndex } := by
  unfold Float32.HitTest_Triangle at h ⊢
  unfold Float32.trianglePoint Float32.triangleT Float32.triangleDenom Float32.triangleCross
  simp only [Bool.not_false, if_true] at h ⊢
  split_ifs at h ⊢
  rfl

/-- A failed rounded `HitTest_Triangle` leaves the record exactly as passed in. -/
theorem HitTest_Triangle_snd_of_false_fl (fl : K → K) (triangle : Triangle K) (ray : Ray K)
    (hitRecord : HitRecord K) (ignoreHitRecord : Bool)
    (h : (Float32.HitTest_Triangle fl triangle ray hitRecord ignoreHitRecord).1 = false) :
    (Float32.HitTest_Triangle fl triangle ray hitRecord ignoreHitRecord).2 = hitRecord := by
  unfold Float32.HitTest_Triangle at h ⊢
  simp only [] at h ⊢
  split_ifs at h ⊢ <;> rfl

end TriangleRounding

section TriangleRoundingEval

end TriangleRoundingEval

section Binary32Lemmas

/-- Rounding to an integer does not leave an interval with integer ends. -/
theorem roundHalfEven_abs_le (x : ℚ) (N : ℤ) (h : |x| ≤ N) : |roundHalfEven x| ≤ N := by
  rw [abs_le] at h ⊢
  have hlo : -N ≤ ⌊x⌋ := Int.le_floor.mpr (by push_cast; exact h.1)
  have hhi : ⌊x⌋ ≤ N := Int.floor_le_iff.mpr (by linarith [h.2])
  unfold roundHalfEven
  by_cases hN : ⌊x⌋ = N
  · have hx : x = N := le_antisymm h.2 (by rw [← hN]; exact Int.floor_le x)
    have hfr : x - (⌊x⌋ : ℚ) < 1 / 2 := by rw [hN, hx]; norm_num
    rw [if_pos hfr]
    omega
  · split_ifs <;> omega

/-- Rounding to binary32 keeps the numbers it produces. -/
theorem round32_idem (q : ℚ) : round32 (round32 q) = round32 q := by
  by_cases hq0 : q = 0
  · subst hq0
    rw [round32_zero, round32_zero]
  have hpos : 0 < |q| := abs_pos.mpr hq0
  have hu : -149 ≤ ulpExp q := by
    unfold ulpExp
    have := le_max_right (Int.log 2 |q|) (-126)
    omega
  have hlog : Int.log 2 |q| + 1 ≤ ulpExp q + 24 := by
    unfold ulpExp
    have := le_max_left (Int.log 2 |q|) (-126)
    omega
  have hlt : |q| < (2 : ℚ) ^ (ulpExp q + 24) := by
    have h1 : |q| < (2 : ℚ) ^ (Int.log 2 |q| + 1) := by
      have := Int.lt_zpow_succ_log_self (b := 2) (by norm_num) |q|
      exact_mod_cast this
    exact lt_of_lt_of_le h1 (zpow_le_zpow_right₀ (by norm_num) hlog)
  have hx : |q / 2 ^ ulpExp q| ≤ ((2 ^ 24 : ℤ) : ℚ) := by
    rw [abs_div, abs_of_pos (show (0 : ℚ) < 2 ^ ulpExp q by positivity),
      div_le_iff₀ (by positivity)]
    rw [zpow_add₀ (by norm_num : (2 : ℚ) ≠ 0), mul_comm] at hlt
    push_cast
    rw [zpow_ofNat] at hlt
    exact le_of_lt hlt
  have hn := roundHalfEven_abs_le _ _ hx
  unfold round32
  generalize roundHalfEven (q / 2 ^ ulpExp q) = n at hn
  generalize ulpExp q = u at hu
  have key : round32 ((n : ℚ) * 2 ^ u) = (n : ℚ) * 2 ^ u := by
    rcases lt_or_eq_of_le hn with h | h
    · exact round32_dyadic n u h hu
    · have hcases : n = 2 ^ 24 ∨ n = -2 ^ 24 := by
        rcases abs_cases n with ⟨h1, _⟩ | ⟨h1, _⟩
        · left; omega
        · right; omega
      rcases hcases with h1 | h1
      · have e : (n : ℚ) * 2 ^ u = ((2 ^ 23 : ℤ) : ℚ) * 2 ^ (u + 1) := by
          rw [h1, zpow_add₀ (by norm_num : (2 : ℚ) ≠ 0)]
          push_cast
          ring
        rw [e]
        exact round32_dyadic (2 ^ 23) (u + 1) (by norm_num) (by omega)
      · have e : (n : ℚ) * 2 ^ u = ((-2 ^ 23 : ℤ) : ℚ) * 2 ^ (u + 1) := by
          rw [h1, zpow_add₀ (by norm_num : (2 : ℚ) ≠ 0)]
          push_cast
          ring
        rw [e]
        exact round32_dyadic (-2 ^ 23) (u + 1) (by norm_num) (by omega)
  unfold round32 at key
  exact key

/-- Evaluation of `sqrt32`: for `q` in the binade `[2^e, 2^(e+1))` and `u = e / 2 - 23`,
the integer part of the root of `q / 4^u` is `f`, and the root is rounded to `f` or to
`f + 1` by comparing `q / 4^u` with `(f + 1/2)^2`. -/
theorem sqrt32_eval (q : ℚ) (e u : ℤ) (f n : ℕ) (h1 : (2 : ℚ) ^ e ≤ q)
    (h2 : q < (2 : ℚ) ^ (e + 1)) (hu : e / 2 - 23 = u)
    (hf1 : (f : ℚ) * f ≤ q / 2 ^ (2 * u)) (hf2 : q / 2 ^ (2 * u) < ((f : ℚ) + 1) * (f + 1))
    (hn : (if q / 2 ^ (2 * u) ≤ (f : ℚ) * f + f + 1 / 4 then f else f + 1) = n) :
    sqrt32 q = n * 2 ^ u := by
  have hpos : 0 < q := lt_of_lt_of_le (by positivity) h1
  have hlog : Int.log 2 q = e := by
    apply le_antisymm
    · have := (Int.lt_zpow_iff_log_lt (b := 2) (by norm_num) hpos).mp (by exact_mod_cast h2)
      omega
    · exact (Int.zpow_le_iff_le_log (b := 2) (by norm_num) hpos).mp (by exact_mod_cast h1)
  have hx0 : (0 : ℚ) ≤ q / 2 ^ (2 * u) := by positivity
  have hfl0 : 0 ≤ ⌊q / 2 ^ (2 * u)⌋ := Int.floor_nonneg.mpr hx0
  have hsq : Nat.sqrt ⌊q / 2 ^ (2 * u)⌋.toNat = f := by
    symm
    rw [Nat.eq_sqrt]
    constructor
    · have : ((f * f : ℕ) : ℤ) ≤ ⌊q / 2 ^ (2 * u)⌋ := by
        rw [Int.le_floor]
        push_cast
        exact hf1
      omega
    · have : ⌊q / 2 ^ (2 * u)⌋ < (((f + 1) * (f + 1) : ℕ) : ℤ) := by
        rw [Int.floor_lt]
        push_cast
        exact hf2
      omega
  unfold sqrt32
  rw [if_neg (not_le.mpr hpos)]
  simp only []
  rw [hlog, hu, hsq, hn]

end Binary32Lemmas

section TriangleConstructorClaims

variable {K : Type} [LinearOrderedField K]

/-- C13 (amended): with rounded arithmetic, the three-vertex constructor and the
four-argument constructor passed `Cross(v1 - v0, v2 - v0).Normalized()` give the same
normal whenever the computed length of that normal is exactly 1 (dividing a binary32
number by 1 returns it); and the normal has unit length whenever it is computed without
rounding error, `sqrtf` being exact at the squared length of a non-zero cross product. -/
theorem Triangle_constructors_agree_rounded (fl sqrtf : K → K) (v0 v1 v2 : Vector3 K) :
    ((∀ x, fl (fl x) = fl x) →
      Float32.Magnitude fl sqrtf (Float32.ofVertices fl sqrtf v0 v1 v2).normal = 1 →
      (Float32.ofVertices fl sqrtf v0 v1 v2).normal
        = (Float32.ofVerticesNormal fl sqrtf v0 v1 v2
            (Float32.Normalized fl sqrtf
              (Float32.Cross fl (Float32.sub fl v1 v0) (Float32.sub fl v2 v0)))).normal)
    ∧ (Vector3.Cross (v1 - v0) (v2 - v0) ≠ ⟨0, 0, 0⟩ →
        SqrtExactAt sqrtf (Vector3.SqrMagnitude (Vector3.Cross (v1 - v0) (v2 - v0))) →
        (Float32.ofVertices fl sqrtf v0 v1 v2).normal
          = Vector3.Normalized sqrtf (Vector3.Cross (v1 - v0) (v2 - v0)) →
        Vector3.SqrMagnitude (Float32.ofVertices fl sqrtf v0 v1 v2).normal = 1) := by
  constructor
  · intro hidem hmag
    show Float32.Normalized fl sqrtf
        (Float32.Cross fl (Float32.sub fl v1 v0) (Float32.sub fl v2 v0))
      = Float32.Normalized fl sqrtf (Float32.Normalized fl sqrtf
          (Float32.Cross fl (Float32.sub fl v1 v0) (Float32.sub fl v2 v0)))
    have hmag2 : Float32.Magnitude fl sqrtf (Float32.Normalized fl sqrtf
        (Float32.Cross fl (Float32.sub fl v1 v0) (Float32.sub fl v2 v0))) = 1 := hmag
    generalize Float32.Cross fl (Float32.sub fl v1 v0) (Float32.sub fl v2 v0) = c at hmag2 ⊢
    have hx : (Float32.Normalized fl sqrtf c).x = fl (c.x / Float32.Magnitude fl sqrtf c) := rfl
    have hy : (Float32.Normalized fl sqrtf c).y = fl (c.y / Float32.Magnitude fl sqrtf c) := rfl
    have hz : (Float32.Normalized fl sqrtf c).z = fl (c.z / Float32.Magnitude fl sqrtf c) := rfl
    apply Vector3.eq_of_components
    · show _ = fl ((Float32.Normalized fl sqrtf c).x
        / Float32.Magnitude fl sqrtf (Float32.Normalized fl sqrtf c))
      rw [hmag2, div_one, hx, hidem]
    · show _ = fl ((Float32.Normalized fl sqrtf c).y
        / Float32.Magnitude fl sqrtf (Float32.Normalized fl sqrtf c))
      rw [hmag2, div_one, hy, hidem]
    · show _ = fl ((Float32.Normalized fl sqrtf c).z
        / Float32.Magnitude fl sqrtf (Float32.Normalized fl sqrtf c))
      rw [hmag2, div_one, hz, hidem]
  · intro hnd hs hN
    rw [hN]
    exact Vector3.SqrMagnitude_Normalized sqrtf _ hnd hs

end TriangleConstructorClaims

section TriangleConstructorEval

/-- Counterexample to C13 as stated, with binary32 rounding and the correctly rounded
`sqrtf`: for `v0 = (0,0,0)`, `v1 = (1,0,1)`, `v2 = (0,1,1)` the cross product is
`(-1,-1,1)`, not zero; the three-vertex constructor stores the normal with components
`4843165 * 2^-23` (0.577350259), whose computed length is `1 - 2^-24`; the four-argument
constructor, passed that normal, divides by this length and stores components
`9686331 * 2^-24` (0.577350318).  The two normals differ, and the first does not have
unit length. -/
theorem Triangle_constructors_differ_counterexample :
    Vector3.Cross ((⟨1, 0, 1⟩ : Vector3 ℚ) - ⟨0, 0, 0⟩) ((⟨0, 1, 1⟩ : Vector3 ℚ) - ⟨0, 0, 0⟩)
        ≠ ⟨0, 0, 0⟩
    ∧ (Float32.ofVertices round32 sqrt32 (⟨0, 0, 0⟩ : Vector3 ℚ) ⟨1, 0, 1⟩ ⟨0, 1, 1⟩).normal
        = ⟨-(4843165 / 2 ^ 23), -(4843165 / 2 ^ 23), 4843165 / 2 ^ 23⟩
    ∧ (Float32.ofVerticesNormal round32 sqrt32 (⟨0, 0, 0⟩ : Vector3 ℚ) ⟨1, 0, 1⟩ ⟨0, 1, 1⟩
        (Float32.Normalized round32 sqrt32
          (Float32.Cross round32 (Float32.sub round32 (⟨1, 0, 1⟩ : Vector3 ℚ) ⟨0, 0, 0⟩)
            (Float32.sub round32 (⟨0, 1, 1⟩ : Vector3 ℚ) ⟨0, 0, 0⟩)))).normal
        = ⟨-(9686331 / 2 ^ 24), -(9686331 / 2 ^ 24), 9686331 / 2 ^ 24⟩
    ∧ (Float32.ofVertices round32 sqrt32 (⟨0, 0, 0⟩ : Vector3 ℚ) ⟨1, 0, 1⟩ ⟨0, 1, 1⟩).normal
        ≠ (Float32.ofVerticesNormal round32 sqrt32 (⟨0, 0, 0⟩ : Vector3 ℚ) ⟨1, 0, 1⟩ ⟨0, 1, 1⟩
            (Float32.Normalized round32 sqrt32
              (Float32.Cross round32 (Float32.sub round32 (⟨1, 0, 1⟩ : Vector3 ℚ) ⟨0, 0, 0⟩)
                (Float32.sub round32 (⟨0, 1, 1⟩ : Vector3 ℚ) ⟨0, 0, 0⟩)))).normal
    ∧ Float32.Magnitude round32 sqrt32
        (Float32.ofVertices round32 sqrt32 (⟨0, 0, 0⟩ : Vector3 ℚ) ⟨1, 0, 1⟩ ⟨0, 1, 1⟩).normal
        = 1 - 1 / 2 ^ 24
    ∧ Vector3.SqrMagnitude
        (Float32.ofVertices round32 sqrt32 (⟨0, 0, 0⟩ : Vector3 ℚ) ⟨1, 0, 1⟩ ⟨0, 1, 1⟩).normal
        ≠ 1 := by
  have f0 : round32 1 = 1 := by
    have h := round32_dyadic 1 0 (by norm_num) (by norm_num)
    norm_num at h
    exact h
  have f1 : round32 0 = 0 := round32_zero
  have f2 : round32 (-1) = -1 := by
    have h := round32_dyadic (-1) 0 (by norm_num) (by norm_num)
    norm_num at h
    exact h
  have f3 : round32 2 = 2 := by
    have h := round32_dyadic 1 1 (by norm_num) (by norm_num)
    norm_num at h
    exact h
  have f4 : round32 3 = 3 := by
    have h := round32_dyadic 3 0 (by norm_num) (by norm_num)
    norm_num at h
    exact h
  have f5 : round32 (-(8388608 / 14529495)) = -(4843165 / 8388608) := by
    have h := round32_eval (-(8388608 / 14529495)) (-1) (-9686330) (by norm_num)
      (by rw [abs_of_neg (by norm_num)]; norm_num) (by rw [abs_of_neg (by norm_num)]; norm_num)
      (by rw [abs_lt]; constructor <;> norm_num)
    norm_num at h
    exact h
  have f6 : round32 (8388608 / 14529495) = 4843165 / 8388608 := by
    have h := round32_eval (8388608 / 14529495) (-1) 9686330 (by norm_num)
      (by rw [abs_of_pos (by norm_num)]; norm_num) (by rw [abs_of_pos (by norm_num)]; norm_num)
      (by rw [abs_lt]; constructor <;> norm_num)
    norm_num at h
    exact h
  have f7 : round32 (23456247217225 / 70368744177664) = 5592405 / 16777216 := by
    have h := round32_eval (23456247217225 / 70368744177664) (-2) 11184810 (by norm_num)
      (by rw [abs_of_pos (by norm_num)]; norm_num) (by rw [abs_of_pos (by norm_num)]; norm_num)
      (by rw [abs_lt]; constructor <;> norm_num)
    norm_num at h
    exact h
  have f8 : round32 (5592405 / 8388608) = 5592405 / 8388608 := by
    have h := round32_dyadic 5592405 (-23) (by norm_num) (by norm_num)
    norm_num at h
    exact h
  have f9 : round32 (16777215 / 16777216) = 16777215 / 16777216 := by
    have h := round32_dyadic 16777215 (-24) (by norm_num) (by norm_num)
    norm_num at h
    exact h
  have f10 : round32 (-(1937266 / 3355443)) = -(9686331 / 16777216) := by
    have h := round32_eval (-(1937266 / 3355443)) (-1) (-9686331) (by norm_num)
      (by rw [abs_of_neg (by norm_num)]; norm_num) (by rw [abs_of_neg (by norm_num)]; norm_num)
      (by rw [abs_lt]; constructor <;> norm_num)
    norm_num at h
    exact h
  have f11 : round32 (1937266 / 3355443) = 9686331 / 16777216 := by
    have h := round32_eval (1937266 / 3355443) (-1) 9686331 (by norm_num)
      (by rw [abs_of_pos (by norm_num)]; norm_num) (by rw [abs_of_pos (by norm_num)]; norm_num)
      (by rw [abs_lt]; constructor <;> norm_num)
    norm_num at h
    exact h
  have s0 : sqrt32 3 = 14529495 / 8388608 := by
    have h := sqrt32_eval 3 1 (-23) 14529495 14529495 (by norm_num) (by norm_num)
      (by norm_num) (by norm_num) (by norm_num) (by norm_num)
    norm_num at h
    exact h
  have s1 : sqrt32 (16777215 / 16777216) = 16777215 / 16777216 := by
    have h := sqrt32_eval (16777215 / 16777216) (-1) (-24) 16777215 16777215 (by norm_num) (by norm_num)
      (by norm_num) (by norm_num) (by norm_num) (by norm_num)
    norm_num at h
    exact h
  have h1 : Float32.sub round32 (⟨1, 0, 1⟩ : Vector3 ℚ) (⟨0, 0, 0⟩ : Vector3 ℚ) = ⟨1, 0, 1⟩ := by
    norm_num [Float32.sub, f0, f1, f2, f3, f4, f5, f6, f7, f8, f9, f10, f11, s0, s1]
  have h2 : Float32.sub round32 (⟨0, 1, 1⟩ : Vector3 ℚ) (⟨0, 0, 0⟩ : Vector3 ℚ) = ⟨0, 1, 1⟩ := by
    norm_num [Float32.sub, f0, f1, f2, f3, f4, f5, f6, f7, f8, f9, f10, f11, s0, s1]
  have h3 : Float32.Cross round32 (⟨1, 0, 1⟩ : Vector3 ℚ) (⟨0, 1, 1⟩ : Vector3 ℚ) = ⟨-1, -1, 1⟩ := by
    norm_num [Float32.Cross, f0, f1, f2, f3, f4, f5, f6, f7, f8, f9, f10, f11, s0, s1]
  have h4 : Float32.Magnitude round32 sqrt32 (⟨-1, -1, 1⟩ : Vector3 ℚ) = 14529495 / 2 ^ 23 := by
    norm_num [Float32.Magnitude, f0, f1, f2, f3, f4, f5, f6, f7, f8, f9, f10, f11, s0, s1]
  have h5 : Float32.Normalized round32 sqrt32 (⟨-1, -1, 1⟩ : Vector3 ℚ) = ⟨-(4843165 / 2 ^ 23), -(4843165 / 2 ^ 23), 4843165 / 2 ^ 23⟩ := by
    unfold Float32.Normalized
    rw [h4]
    norm_num [f0, f1, f2, f3, f4, f5, f6, f7, f8, f9, f10, f11, s0, s1]
  have h6 : Float32.Magnitude round32 sqrt32 (⟨-(4843165 / 2 ^ 23), -(4843165 / 2 ^ 23), 4843165 / 2 ^ 23⟩ : Vector3 ℚ) = 16777215 / 2 ^ 24 := by
    norm_num [Float32.Magnitude, f0, f1, f2, f3, f4, f5, f6, f7, f8, f9, f10, f11, s0, s1]
  have h7 : Float32.Normalized round32 sqrt32 (⟨-(4843165 / 2 ^ 23), -(4843165 / 2 ^ 23), 4843165 / 2 ^ 23⟩ : Vector3 ℚ) = ⟨-(9686331 / 2 ^ 24), -(9686331 / 2 ^ 24), 9686331 / 2 ^ 24⟩ := by
    unfold Float32.Normalized
    rw [h6]
    norm_num [f0, f1, f2, f3, f4, f5, f6, f7, f8, f9, f10, f11, s0, s1]
  have hN : (Float32.ofVertices round32 sqrt32 (⟨0, 0, 0⟩ : Vector3 ℚ) ⟨1, 0, 1⟩ ⟨0, 1, 1⟩).normal
      = ⟨-(4843165 / 2 ^ 23), -(4843165 / 2 ^ 23), 4843165 / 2 ^ 23⟩ := by
    show Float32.Normalized round32 sqrt32
      (Float32.Cross round32 (Float32.sub round32 (⟨1, 0, 1⟩ : Vector3 ℚ) ⟨0, 0, 0⟩)
        (Float32.sub round32 (⟨0, 1, 1⟩ : Vector3 ℚ) ⟨0, 0, 0⟩)) = _
    rw [h1, h2, h3, h5]
  have hN4 : (Float32.ofVerticesNormal round32 sqrt32 (⟨0, 0, 0⟩ : Vector3 ℚ) ⟨1, 0, 1⟩ ⟨0, 1, 1⟩
      (Float32.Normalized round32 sqrt32
        (Float32.Cross round32 (Float32.sub round32 (⟨1, 0, 1⟩ : Vector3 ℚ) ⟨0, 0, 0⟩)
          (Float32.sub round32 (⟨0, 1, 1⟩ : Vector3 ℚ) ⟨0, 0, 0⟩)))).normal
      = ⟨-(9686331 / 2 ^ 24), -(9686331 / 2 ^ 24), 9686331 / 2 ^ 24⟩ := by
    show Float32.Normalized round32 sqrt32 (Float32.Normalized round32 sqrt32
      (Float32.Cross round32 (Float32.sub round32 (⟨1, 0, 1⟩ : Vector3 ℚ) ⟨0, 0, 0⟩)
        (Float32.sub round32 (⟨0, 1, 1⟩ : Vector3 ℚ) ⟨0, 0, 0⟩))) = _
    rw [h1, h2, h3, h5, h7]
  refine ⟨?_, hN, hN4, ?_, ?_, ?_⟩
  · intro h
    have hz := congrArg Vector3.z h
    norm_num [Vector3.Cross, Vector3.sub_def] at hz
  · rw [hN, hN4]
    intro h
    have hz := congrArg Vector3.z h
    norm_num at hz
  · rw [hN, h6]
    norm_num
  · rw [hN]
    norm_num [Vector3.SqrMagnitude]

/-- Witness for the amended C13: the vertices `(0,0,0)`, `(3,0,0)`, `(0,3,0)` with binary32
rounding and the correctly rounded `sqrtf`; both constructors give the normal
`(0, 0, 1)`. -/
theorem Triangle_constructors_agree_rounded_witness :
    (∀ x, round32 (round32 x) = round32 x)
    ∧ Float32.Magnitude round32 sqrt32
        (Float32.ofVertices round32 sqrt32 (⟨0, 0, 0⟩ : Vector3 ℚ) ⟨3, 0, 0⟩ ⟨0, 3, 0⟩).normal = 1
    ∧ (Float32.ofVertices round32 sqrt32 (⟨0, 0, 0⟩ : Vector3 ℚ) ⟨3, 0, 0⟩ ⟨0, 3, 0⟩).normal
        = (Float32.ofVerticesNormal round32 sqrt32 (⟨0, 0, 0⟩ : Vector3 ℚ) ⟨3, 0, 0⟩ ⟨0, 3, 0⟩
            (Float32.Normalized round32 sqrt32
              (Float32.Cross round32 (Float32.sub round32 (⟨3, 0, 0⟩ : Vector3 ℚ) ⟨0, 0, 0⟩)
                (Float32.sub round32 (⟨0, 3, 0⟩ : Vector3 ℚ) ⟨0, 0, 0⟩)))).normal
    ∧ (Float32.ofVertices round32 sqrt32 (⟨0, 0, 0⟩ : Vector3 ℚ) ⟨3, 0, 0⟩ ⟨0, 3, 0⟩).normal
        = ⟨0, 0, 1⟩
    ∧ Vector3.SqrMagnitude
        (Float32.ofVertices round32 sqrt32 (⟨0, 0, 0⟩ : Vector3 ℚ) ⟨3, 0, 0⟩ ⟨0, 3, 0⟩).normal
        = 1 := by
  have f0 : round32 3 = 3 := by
    have h := round32_dyadic 3 0 (by norm_num) (by norm_num)
    norm_num at h
    exact h
  have f1 : round32 0 = 0 := round32_zero
  have f2 : round32 9 = 9 := by
    have h := round32_dyadic 9 0 (by norm_num) (by norm_num)
    norm_num at h
    exact h
  have f3 : round32 81 = 81 := by
    have h := round32_dyadic 81 0 (by norm_num) (by norm_num)
    norm_num at h
    exact h
  have f4 : round32 1 = 1 := by
    have h := round32_dyadic 1 0 (by norm_num) (by norm_num)
    norm_num at h
    exact h
  have s0 : sqrt32 81 = 9 := by
    have h := sqrt32_eval 81 6 (-20) 9437184 9437184 (by norm_num) (by norm_num)
      (by norm_num) (by norm_num) (by norm_num) (by norm_num)
    norm_num at h
    exact h
  have s1 : sqrt32 1 = 1 := by
    have h := sqrt32_eval 1 0 (-23) 8388608 8388608 (by norm_num) (by norm_num)
      (by norm_num) (by norm_num) (by norm_num) (by norm_num)
    norm_num at h
    exact h
  have h1 : Float32.sub round32 (⟨3, 0, 0⟩ : Vector3 ℚ) (⟨0, 0, 0⟩ : Vector3 ℚ) = ⟨3, 0, 0⟩ := by
    norm_num [Float32.sub, f0, f1, f2, f3, f4, s0, s1]
  have h2 : Float32.sub round32 (⟨0, 3, 0⟩ : Vector3 ℚ) (⟨0, 0, 0⟩ : Vector3 ℚ) = ⟨0, 3, 0⟩ := by
    norm_num [Float32.sub, f0, f1, f2, f3, f4, s0, s1]
  have h3 : Float32.Cross round32 (⟨3, 0, 0⟩ : Vector3 ℚ) (⟨0, 3, 0⟩ : Vector3 ℚ) = ⟨0, 0, 9⟩ := by
    norm_num [Float32.Cross, f0, f1, f2, f3, f4, s0, s1]
  have h4 : Float32.Magnitude round32 sqrt32 (⟨0, 0, 9⟩ : Vector3 ℚ) = 9 := by
    norm_num [Float32.Magnitude, f0, f1, f2, f3, f4, s0, s1]
  have h5 : Float32.Normalized round32 sqrt32 (⟨0, 0, 9⟩ : Vector3 ℚ) = ⟨0, 0, 1⟩ := by
    unfold Float32.Normalized
    rw [h4]
    norm_num [f0, f1, f2, f3, f4, s0, s1]
  have h6 : Float32.Magnitude round32 sqrt32 (⟨0, 0, 1⟩ : Vector3 ℚ) = 1 := by
    norm_num [Float32.Magnitude, f0, f1, f2, f3, f4, s0, s1]
  have hN : (Float32.ofVertices round32 sqrt32 (⟨0, 0, 0⟩ : Vector3 ℚ) ⟨3, 0, 0⟩ ⟨0, 3, 0⟩).normal
      = ⟨0, 0, 1⟩ := by
    show Float32.Normalized round32 sqrt32
      (Float32.Cross round32 (Float32.sub round32 (⟨3, 0, 0⟩ : Vector3 ℚ) ⟨0, 0, 0⟩)
        (Float32.sub round32 (⟨0, 3, 0⟩ : Vector3 ℚ) ⟨0, 0, 0⟩)) = _
    rw [h1, h2, h3, h5]
  have hmag : Float32.Magnitude round32 sqrt32
      (Float32.ofVertices round32 sqrt32 (⟨0, 0, 0⟩ : Vector3 ℚ) ⟨3, 0, 0⟩ ⟨0, 3, 0⟩).normal
      = 1 := by
    rw [hN, h6]
  have hc : Vector3.Cross ((⟨3, 0, 0⟩ : Vector3 ℚ) - ⟨0, 0, 0⟩) ((⟨0, 3, 0⟩ : Vector3 ℚ) - ⟨0, 0, 0⟩)
      = ⟨0, 0, 9⟩ := by
    norm_num [Vector3.Cross, Vector3.sub_def]
  have hnd : Vector3.Cross ((⟨3, 0, 0⟩ : Vector3 ℚ) - ⟨0, 0, 0⟩)
      ((⟨0, 3, 0⟩ : Vector3 ℚ) - ⟨0, 0, 0⟩) ≠ ⟨0, 0, 0⟩ := by
    rw [hc]
    intro h
    have hz := congrArg Vector3.z h
    norm_num at hz
  have hs : SqrtExactAt sqrt32 (Vector3.SqrMagnitude (Vector3.Cross
      ((⟨3, 0, 0⟩ : Vector3 ℚ) - ⟨0, 0, 0⟩) ((⟨0, 3, 0⟩ : Vector3 ℚ) - ⟨0, 0, 0⟩))) := by
    rw [hc]
    norm_num [SqrtExactAt, Vector3.SqrMagnitude, f0, f1, f2, f3, f4, s0, s1]
  have hx : (Float32.ofVertices round32 sqrt32 (⟨0, 0, 0⟩ : Vector3 ℚ) ⟨3, 0, 0⟩ ⟨0, 3, 0⟩).normal
      = Vector3.Normalized sqrt32 (Vector3.Cross ((⟨3, 0, 0⟩ : Vector3 ℚ) - ⟨0, 0, 0⟩)
          ((⟨0, 3, 0⟩ : Vector3 ℚ) - ⟨0, 0, 0⟩)) := by
    rw [hN, hc]
    norm_num [Vector3.Normalized, Vector3.Magnitude, f0, f1, f2, f3, f4, s0, s1]
  have h := Triangle_constructors_agree_rounded round32 sqrt32 (⟨0, 0, 0⟩ : Vector3 ℚ)
    ⟨3, 0, 0⟩ ⟨0, 3, 0⟩
  exact ⟨round32_idem, hmag, h.1 round32_idem hmag, hN, h.2 hnd hs hx⟩

end TriangleConstructorEval

section SlabRounding

variable {K : Type} [LinearOrderedField K]

/-- The sub-triangle list of an index buffer, one group of three indices at a time. -/
theorem subTrianglesOf_cons (fl sqrtf : K → K) (mesh : TriangleMesh K) (i0 i1 i2 : Int)
    (rest : List Int) (p0 p1 p2 : Vector3 K)
    (h0 : positionAt mesh.transformedPositions i0 = some p0)
    (h1 : positionAt mesh.transformedPositions i1 = some p1)
    (h2 : positionAt mesh.transformedPositions i2 = some p2) :
    Float32.subTrianglesOf fl sqrtf mesh (i0 :: i1 :: i2 :: rest)
      = some (Float32.meshTriangle fl sqrtf mesh p0 p1 p2)
          :: Float32.subTrianglesOf fl sqrtf mesh rest := by
  unfold Float32.subTrianglesOf
  have hlen : (i0 :: i1 :: i2 :: rest).length / 3 = rest.length / 3 + 1 := by
    simp only [List.length_cons]
    omega
  rw [hlen, List.range_succ_eq_map, List.map_cons, List.map_map]
  congr 1
  · simp only [Nat.mul_zero, List.getElem?_cons_zero, Nat.zero_add, List.getElem?_cons_succ,
      h0, h1, h2]
  · apply List.map_congr_left
    intro k _
    have g0 : (i0 :: i1 :: i2 :: rest)[3 * (k + 1)]? = rest[3 * k]? := by
      have e : 3 * (k + 1) = 3 * k + 1 + 1 + 1 := by ring
      rw [e]
      simp only [List.getElem?_cons_succ]
    have g1 : (i0 :: i1 :: i2 :: rest)[3 * (k + 1) + 1]? = rest[3 * k + 1]? := by
      have e : 3 * (k + 1) + 1 = 3 * k + 1 + 1 + 1 + 1 := by ring
      rw [e]
      simp only [List.getElem?_cons_succ]
    have g2 : (i0 :: i1 :: i2 :: rest)[3 * (k + 1) + 2]? = rest[3 * k + 2]? := by
      have e : 3 * (k + 1) + 2 = 3 * k + 2 + 1 + 1 + 1 := by ring
      rw [e]
      simp only [List.getElem?_cons_succ]
    simp only [Function.comp, Nat.succ_eq_add_one]
    rw [g0, g1, g2]

/-- The rounded mesh loop on a valid index buffer, against the scan of the list of
sub-triangles: every read is in range, the loop returns, its flag is set exactly when it
was set or the scan has a hit, and its closest record is the one the scan selects. -/
theorem meshLoop_eq_scan (fl sqrtf : K → K) (mesh : TriangleMesh K) (ray : Ray K) :
    ∀ (indices : List Int), IndicesValid mesh indices →
      ∀ (d : Bool) (h : HitRecord K),
        (Float32.subTrianglesOf fl sqrtf mesh indices).all Option.isSome = true
        ∧ Float32.meshLoop fl sqrtf mesh ray indices d h.t h
          = some (d || !(Float32.scanHits fl ray
                    ((Float32.subTrianglesOf fl sqrtf mesh indices).filterMap id)).isEmpty,
                  (Float32.closestOf h (Float32.scanHits fl ray
                    ((Float32.subTrianglesOf fl sqrtf mesh indices).filterMap id))).t,
                  Float32.closestOf h (Float32.scanHits fl ray
                    ((Float32.subTrianglesOf fl sqrtf mesh indices).filterMap id)))
  | [], _ => fun d h => by
    simp [Float32.subTrianglesOf, Float32.scanHits, Float32.closestOf, Float32.meshLoop]
  | [_], hv => absurd hv.1 (by simp)
  | [_, _], hv => absurd hv.1 (by simp)
  | i0 :: i1 :: i2 :: rest, hv => by
    intro d h
    have ih := meshLoop_eq_scan fl sqrtf mesh ray rest (IndicesValid_tail mesh i0 i1 i2 rest hv)
    obtain ⟨p0, h0⟩ := positionAt_of_valid mesh.transformedPositions i0 (hv.2 i0 (by simp))
    obtain ⟨p1, h1⟩ := positionAt_of_valid mesh.transformedPositions i1 (hv.2 i1 (by simp))
    obtain ⟨p2, h2⟩ := positionAt_of_valid mesh.transformedPositions i2 (hv.2 i2 (by simp))
    rw [subTrianglesOf_cons fl sqrtf mesh i0 i1 i2 rest p0 p1 p2 h0 h1 h2]
    refine ⟨?_, ?_⟩
    · rw [List.all_cons, (ih d h).1]
      rfl
    · simp only [List.filterMap_cons, id, Float32.scanHits]
      by_cases hhit : (Float32.HitTest_Triangle fl (Float32.meshTriangle fl sqrtf mesh p0 p1 p2)
          ray {} false).1 = true
      · by_cases hlt : (Float32.HitTest_Triangle fl
            (Float32.meshTriangle fl sqrtf mesh p0 p1 p2) ray {} false).2.t < h.t
        · have hrun := (ih true (Float32.HitTest_Triangle fl
            (Float32.meshTriangle fl sqrtf mesh p0 p1 p2) ray {} false).2).2
          simp only [Float32.meshLoop, h0, h1, h2, hhit, hlt, if_true]
          rw [hrun]
          simp [Float32.scanHits, Float32.closestOf, hlt]
        · have hrun := (ih true h).2
          simp only [Float32.meshLoop, h0, h1, h2, hhit, hlt, if_true, if_false]
          rw [hrun]
          simp [Float32.scanHits, Float32.closestOf, hlt]
      · have hrun := (ih d h).2
        simp only [Float32.meshLoop, h0, h1, h2, hhit, if_false]
        rw [hrun]
        simp [Float32.scanHits]

/-- The scan of an empty list has no hits. -/
theorem scanHits_nil (fl : K → K) (ray : Ray K) : Float32.scanHits fl ray [] = [] := rfl

/-- The scan of a list, one triangle at a time. -/
theorem scanHits_cons (fl : K → K) (ray : Ray K) (tri : Triangle K)
    (rest : List (Triangle K)) :
    Float32.scanHits fl ray (tri :: rest)
      = if (Float32.HitTest_Triangle fl tri ray {} false).1 = true then
          (Float32.HitTest_Triangle fl tri ray {} false).2 :: Float32.scanHits fl ray rest
        else Float32.scanHits fl ray rest := by
  unfold Float32.scanHits
  rw [List.filterMap_cons]
  by_cases h : (Float32.HitTest_Triangle fl tri ray {} false).1 = true
  · simp [h]
  · simp [h]

/-- The closest record of a single hit. -/
theorem closestOf_singleton (start hit : HitRecord K) :
    Float32.closestOf start [hit] = if hit.t < start.t then hit else start := rfl

/-- The rounded slab test in terms of its six quotients. -/
theorem SlabTest_TriangleMesh_slabT (fl : K → K) (mesh : TriangleMesh K) (ray : Ray K)
    (hdx : ray.direction.x ≠ 0) (hdy : ray.direction.y ≠ 0) (hdz : ray.direction.z ≠ 0) :
    Float32.SlabTest_TriangleMesh fl mesh ray
      = some (decide
          (min (min (max (Float32.slabT fl mesh.transformedMinAABB.x ray.origin.x ray.direction.x)
                (Float32.slabT fl mesh.transformedMaxAABB.x ray.origin.x ray.direction.x))
              (max (Float32.slabT fl mesh.transformedMinAABB.y ray.origin.y ray.direction.y)
                (Float32.slabT fl mesh.transformedMaxAABB.y ray.origin.y ray.direction.y)))
            (max (Float32.slabT fl mesh.transformedMinAABB.z ray.origin.z ray.direction.z)
              (Float32.slabT fl mesh.transformedMaxAABB.z ray.origin.z ray.direction.z)) > 0
          ∧ min (min (max (Float32.slabT fl mesh.transformedMinAABB.x ray.origin.x ray.direction.x)
                (Float32.slabT fl mesh.transformedMaxAABB.x ray.origin.x ray.direction.x))
              (max (Float32.slabT fl mesh.transformedMinAABB.y ray.origin.y ray.direction.y)
                (Float32.slabT fl mesh.transformedMaxAABB.y ray.origin.y ray.direction.y)))
            (max (Float32.slabT fl mesh.transformedMinAABB.z ray.origin.z ray.direction.z)
              (Float32.slabT fl mesh.transformedMaxAABB.z ray.origin.z ray.direction.z))
            ≥ max (max (min (Float32.slabT fl mesh.transformedMinAABB.x ray.origin.x ray.direction.x)
                (Float32.slabT fl mesh.transformedMaxAABB.x ray.origin.x ray.direction.x))
              (min (Float32.slabT fl mesh.transformedMinAABB.y ray.origin.y ray.direction.y)
                (Float32.slabT fl mesh.transformedMaxAABB.y ray.origin.y ray.direction.y)))
            (min (Float32.slabT fl mesh.transformedMinAABB.z ray.origin.z ray.direction.z)
              (Float32.slabT fl mesh.transformedMaxAABB.z ray.origin.z ray.direction.z)))) := by
  unfold Float32.SlabTest_TriangleMesh Float32.slabT
  rw [if_neg (by simp [hdx, hdy, hdz])]

/-- Where the rounded slab test passes on a mesh with valid indices, the rounded
`HitTest_TriangleMesh` returns what the linear scan returns. -/
theorem HitTest_TriangleMesh_eq_scan_of_slab (fl sqrtf : K → K) (mesh : TriangleMesh K)
    (ray : Ray K) (hitRecord : HitRecord K) (ignoreHitRecord : Bool)
    (hinv : IndexInvariant mesh)
    (hslab : Float32.SlabTest_TriangleMesh fl mesh ray = some true) :
    Float32.HitTest_TriangleMesh fl sqrtf mesh ray hitRecord ignoreHitRecord
      = Float32.HitTest_TriangleMesh_LinearScan fl sqrtf mesh ray hitRecord ignoreHitRecord := by
  obtain ⟨hall, hrun⟩ := meshLoop_eq_scan fl sqrtf mesh ray mesh.indices hinv false {}
  have ht : ({} : HitRecord K).t = FLT_MAX := rfl
  rw [ht] at hrun
  unfold Float32.HitTest_TriangleMesh Float32.HitTest_TriangleMesh_LinearScan
  rw [hslab, if_pos ⟨hinv.1, hall⟩]
  simp only [hrun, Bool.false_or]
  by_cases hh : (Float32.scanHits fl ray
      ((Float32.subTrianglesOf fl sqrtf mesh mesh.indices).filterMap id)).isEmpty = true
  · simp [hh]
  · have hh2 : (Float32.scanHits fl ray
        ((Float32.subTrianglesOf fl sqrtf mesh mesh.indices).filterMap id)).isEmpty = false := by
      simpa using hh
    simp [hh2]

end SlabRounding

section SlabRoundingEval

end SlabRoundingEval

section Binary32Order

end Binary32Order

section GeometryTermRounding

variable {K : Type} [LinearOrderedField K]

end GeometryTermRounding

section GeometryTermEval

end GeometryTermEval

section RoundedRuns

/-- The run of the rounded mesh test on `meshAtSentinel` and `raySentinel`, with binary32
rounding and the correctly rounded `sqrtf`: the slab test passes, the only sub-triangle
is `triangleAtSentinel`, it is hit at `t = FLT_MAX`, and `HitTest_TriangleMesh` returns
true with the value-initialised record whatever record is passed in. -/
theorem meshAtSentinel_rounded_run :
    Float32.SlabTest_TriangleMesh round32 meshAtSentinel raySentinel = some true
    ∧ Float32.HitTest_Triangle round32 triangleAtSentinel raySentinel {} false
        = (true,
            { origin := ⟨16777215, 16777215, 340282346638528859811704183484516925440⟩, normal := ⟨0, 0, 1⟩,
              t := 340282346638528859811704183484516925440, didHit := true, materialIndex := 4 })
    ∧ ∀ hitRecord : HitRecord ℚ,
        Float32.HitTest_TriangleMesh round32 sqrt32 meshAtSentinel raySentinel hitRecord false
          = some (true, { origin := ⟨0, 0, 0⟩, normal := ⟨0, 0, 0⟩, t := FLT_MAX,
                          didHit := false, materialIndex := 0 }) := by
  have f0 : round32 16777214 = 16777214 := by
    have h := round32_dyadic 8388607 1 (by norm_num) (by norm_num)
    norm_num at h
    exact h
  have f1 : round32 340282326356119256160033759537265639424 = 340282326356119256160033759537265639424 := by
    have h := round32_dyadic 8388607 105 (by norm_num) (by norm_num)
    norm_num at h
    exact h
  have f2 : round32 16777215 = 16777215 := by
    have h := round32_dyadic 16777215 0 (by norm_num) (by norm_num)
    norm_num at h
    exact h
  have f3 : round32 340282346638528859811704183484516925440 = 340282346638528859811704183484516925440 := by
    have h := round32_dyadic 16777215 104 (by norm_num) (by norm_num)
    norm_num at h
    exact h
  have f4 : round32 (-1) = -1 := by
    have h := round32_dyadic (-1) 0 (by norm_num) (by norm_num)
    norm_num at h
    exact h
  have f5 : round32 0 = 0 := round32_zero
  have f6 : round32 1 = 1 := by
    have h := round32_dyadic 1 0 (by norm_num) (by norm_num)
    norm_num at h
    exact h
  have s0 : sqrt32 1 = 1 := by
    have h := sqrt32_eval 1 0 (-23) 8388608 8388608 (by norm_num) (by norm_num)
      (by norm_num) (by norm_num) (by norm_num) (by norm_num)
    norm_num at h
    exact h
  have h1 : Float32.slabT round32 meshAtSentinel.transformedMinAABB.x raySentinel.origin.x raySentinel.direction.x = 340282326356119256160033759537265639424 := by
    show Float32.slabT round32 (16777214 : ℚ) 0 (1 / 2 ^ 104) = _
    norm_num [Float32.slabT, f0, f1, f2, f3, f4, f5, f6, s0]
  have h2 : Float32.slabT round32 meshAtSentinel.transformedMaxAABB.x raySentinel.origin.x raySentinel.direction.x = 340282346638528859811704183484516925440 := by
    show Float32.slabT round32 (16777215 : ℚ) 0 (1 / 2 ^ 104) = _
    norm_num [Float32.slabT, f0, f1, f2, f3, f4, f5, f6, s0]
  have h3 : Float32.slabT round32 meshAtSentinel.transformedMinAABB.y raySentinel.origin.y raySentinel.direction.y = 340282326356119256160033759537265639424 := by
    show Float32.slabT round32 (16777214 : ℚ) 0 (1 / 2 ^ 104) = _
    norm_num [Float32.slabT, f0, f1, f2, f3, f4, f5, f6, s0]
  have h4 : Float32.slabT round32 meshAtSentinel.transformedMaxAABB.y raySentinel.origin.y raySentinel.direction.y = 340282346638528859811704183484516925440 := by
    show Float32.slabT round32 (16777215 : ℚ) 0 (1 / 2 ^ 104) = _
    norm_num [Float32.slabT, f0, f1, f2, f3, f4, f5, f6, s0]
  have h5 : Float32.slabT round32 meshAtSentinel.transformedMinAABB.z raySentinel.origin.z raySentinel.direction.z = 340282346638528859811704183484516925440 := by
    show Float32.slabT round32 (340282346638528859811704183484516925440 : ℚ) 0 1 = _
    norm_num [Float32.slabT, f0, f1, f2, f3, f4, f5, f6, s0]
  have h6 : Float32.slabT round32 meshAtSentinel.transformedMaxAABB.z raySentinel.origin.z raySentinel.direction.z = 340282346638528859811704183484516925440 := by
    show Float32.slabT round32 (340282346638528859811704183484516925440 : ℚ) 0 1 = _
    norm_num [Float32.slabT, f0, f1, f2, f3, f4, f5, f6, s0]
  have h7 : Float32.sub round32 triangleAtSentinel.v1 triangleAtSentinel.v0 = ⟨-1, 0, 0⟩ := by
    show Float32.sub round32 (⟨16777214, 16777215, 340282346638528859811704183484516925440⟩ : Vector3 ℚ) (⟨16777215, 16777215, 340282346638528859811704183484516925440⟩ : Vector3 ℚ) = _
    norm_num [Float32.sub, f0, f1, f2, f3, f4, f5, f6, s0]
  have h8 : Float32.sub round32 triangleAtSentinel.v2 triangleAtSentinel.v0 = ⟨0, -1, 0⟩ := by
    show Float32.sub round32 (⟨16777215, 16777214, 340282346638528859811704183484516925440⟩ : Vector3 ℚ) (⟨16777215, 16777215, 340282346638528859811704183484516925440⟩ : Vector3 ℚ) = _
    norm_num [Float32.sub, f0, f1, f2, f3, f4, f5, f6, s0]
  have h9 : Float32.Cross round32 (⟨-1, 0, 0⟩ : Vector3 ℚ) (⟨0, -1, 0⟩ : Vector3 ℚ) = ⟨0, 0, 1⟩ := by
    norm_num [Float32.Cross, f0, f1, f2, f3, f4, f5, f6, s0]
  have h10 : Float32.Dot round32 (⟨0, 0, 1⟩ : Vector3 ℚ) raySentinel.direction = 1 := by
    show Float32.Dot round32 (⟨0, 0, 1⟩ : Vector3 ℚ) (⟨1 / 2 ^ 104, 1 / 2 ^ 104, 1⟩ : Vector3 ℚ) = _
    norm_num [Float32.Dot, f0, f1, f2, f3, f4, f5, f6, s0]
  have h11 : Float32.sub round32 triangleAtSentinel.v0 raySentinel.origin = ⟨16777215, 16777215, 340282346638528859811704183484516925440⟩ := by
    show Float32.sub round32 (⟨16777215, 16777215, 340282346638528859811704183484516925440⟩ : Vector3 ℚ) (⟨0, 0, 0⟩ : Vector3 ℚ) = _
    norm_num [Float32.sub, f0, f1, f2, f3, f4, f5, f6, s0]
  have h12 : Float32.Dot round32 (⟨0, 0, 1⟩ : Vector3 ℚ) (⟨16777215, 16777215, 340282346638528859811704183484516925440⟩ : Vector3 ℚ) = 340282346638528859811704183484516925440 := by
    norm_num [Float32.Dot, f0, f1, f2, f3, f4, f5, f6, s0]
  have h13 : Float32.scale round32 340282346638528859811704183484516925440 raySentinel.direction = ⟨16777215, 16777215, 340282346638528859811704183484516925440⟩ := by
    show Float32.scale round32 340282346638528859811704183484516925440 (⟨1 / 2 ^ 104, 1 / 2 ^ 104, 1⟩ : Vector3 ℚ) = _
    norm_num [Float32.scale, f0, f1, f2, f3, f4, f5, f6, s0]
  have h14 : Float32.add round32 raySentinel.origin (⟨16777215, 16777215, 340282346638528859811704183484516925440⟩ : Vector3 ℚ) = ⟨16777215, 16777215, 340282346638528859811704183484516925440⟩ := by
    show Float32.add round32 (⟨0, 0, 0⟩ : Vector3 ℚ) (⟨16777215, 16777215, 340282346638528859811704183484516925440⟩ : Vector3 ℚ) = _
    norm_num [Float32.add, f0, f1, f2, f3, f4, f5, f6, s0]
  have h15 : Float32.sub round32 triangleAtSentinel.v1 triangleAtSentinel.v0 = ⟨-1, 0, 0⟩ := by
    show Float32.sub round32 (⟨16777214, 16777215, 340282346638528859811704183484516925440⟩ : Vector3 ℚ) (⟨16777215, 16777215, 340282346638528859811704183484516925440⟩ : Vector3 ℚ) = _
    norm_num [Float32.sub, f0, f1, f2, f3, f4, f5, f6, s0]
  have h16 : Float32.sub round32 (⟨16777215, 16777215, 340282346638528859811704183484516925440⟩ : Vector3 ℚ) triangleAtSentinel.v0 = ⟨0, 0, 0⟩ := by
    show Float32.sub round32 (⟨16777215, 16777215, 340282346638528859811704183484516925440⟩ : Vector3 ℚ) (⟨16777215, 16777215, 340282346638528859811704183484516925440⟩ : Vector3 ℚ) = _
    norm_num [Float32.sub, f0, f1, f2, f3, f4, f5, f6, s0]
  have h17 : Float32.Cross round32 (⟨-1, 0, 0⟩ : Vector3 ℚ) (⟨0, 0, 0⟩ : Vector3 ℚ) = ⟨0, 0, 0⟩ := by
    norm_num [Float32.Cross, f0, f1, f2, f3, f4, f5, f6, s0]
  have h18 : Float32.Dot round32 (⟨0, 0, 0⟩ : Vector3 ℚ) (⟨0, 0, 1⟩ : Vector3 ℚ) = 0 := by
    norm_num [Float32.Dot, f0, f1, f2, f3, f4, f5, f6, s0]
  have h19 : Float32.sub round32 triangleAtSentinel.v2 triangleAtSentinel.v1 = ⟨1, -1, 0⟩ := by
    show Float32.sub round32 (⟨16777215, 16777214, 340282346638528859811704183484516925440⟩ : Vector3 ℚ) (⟨16777214, 16777215, 340282346638528859811704183484516925440⟩ : Vector3 ℚ) = _
    norm_num [Float32.sub, f0, f1, f2, f3, f4, f5, f6, s0]
  have h20 : Float32.sub round32 (⟨16777215, 16777215, 340282346638528859811704183484516925440⟩ : Vector3 ℚ) triangleAtSentinel.v1 = ⟨1, 0, 0⟩ := by
    show Float32.sub round32 (⟨16777215, 16777215, 340282346638528859811704183484516925440⟩ : Vector3 ℚ) (⟨16777214, 16777215, 340282346638528859811704183484516925440⟩ : Vector3 ℚ) = _
    norm_num [Float32.sub, f0, f1, f2, f3, f4, f5, f6, s0]
  have h21 : Float32.Cross round32 (⟨1, -1, 0⟩ : Vector3 ℚ) (⟨1, 0, 0⟩ : Vector3 ℚ) = ⟨0, 0, 1⟩ := by
    norm_num [Float32.Cross, f0, f1, f2, f3, f4, f5, f6, s0]
  have h22 : Float32.Dot round32 (⟨0, 0, 1⟩ : Vector3 ℚ) (⟨0, 0, 1⟩ : Vector3 ℚ) = 1 := by
    norm_num [Float32.Dot, f0, f1, f2, f3, f4, f5, f6, s0]
  have h23 : Float32.sub round32 triangleAtSentinel.v0 triangleAtSentinel.v2 = ⟨0, 1, 0⟩ := by
    show Float32.sub round32 (⟨16777215, 16777215, 340282346638528859811704183484516925440⟩ : Vector3 ℚ) (⟨16777215, 16777214, 340282346638528859811704183484516925440⟩ : Vector3 ℚ) = _
    norm_num [Float32.sub, f0, f1, f2, f3, f4, f5, f6, s0]
  have h24 : Float32.sub round32 (⟨16777215, 16777215, 340282346638528859811704183484516925440⟩ : Vector3 ℚ) triangleAtSentinel.v2 = ⟨0, 1, 0⟩ := by
    show Float32.sub round32 (⟨16777215, 16777215, 340282346638528859811704183484516925440⟩ : Vector3 ℚ) (⟨16777215, 16777214, 340282346638528859811704183484516925440⟩ : Vector3 ℚ) = _
    norm_num [Float32.sub, f0, f1, f2, f3, f4, f5, f6, s0]
  have h25 : Float32.Cross round32 (⟨0, 1, 0⟩ : Vector3 ℚ) (⟨0, 1, 0⟩ : Vector3 ℚ) = ⟨0, 0, 0⟩ := by
    norm_num [Float32.Cross, f0, f1, f2, f3, f4, f5, f6, s0]
  have h26 : Float32.Dot round32 (⟨0, 0, 0⟩ : Vector3 ℚ) (⟨0, 0, 1⟩ : Vector3 ℚ) = 0 := by
    norm_num [Float32.Dot, f0, f1, f2, f3, f4, f5, f6, s0]
  have h27 : Float32.sub round32 (⟨16777214, 16777215, 340282346638528859811704183484516925440⟩ : Vector3 ℚ) (⟨16777215, 16777215, 340282346638528859811704183484516925440⟩ : Vector3 ℚ) = ⟨-1, 0, 0⟩ := by
    norm_num [Float32.sub, f0, f1, f2, f3, f4, f5, f6, s0]
  have h28 : Float32.sub round32 (⟨16777215, 16777214, 340282346638528859811704183484516925440⟩ : Vector3 ℚ) (⟨16777215, 16777215, 340282346638528859811704183484516925440⟩ : Vector3 ℚ) = ⟨0, -1, 0⟩ := by
    norm_num [Float32.sub, f0, f1, f2, f3, f4, f5, f6, s0]
  have h29 : Float32.Cross round32 (⟨-1, 0, 0⟩ : Vector3 ℚ) (⟨0, -1, 0⟩ : Vector3 ℚ) = ⟨0, 0, 1⟩ := by
    norm_num [Float32.Cross, f0, f1, f2, f3, f4, f5, f6, s0]
  have h30 : Float32.Magnitude round32 sqrt32 (⟨0, 0, 1⟩ : Vector3 ℚ) = 1 := by
    norm_num [Float32.Magnitude, f0, f1, f2, f3, f4, f5, f6, s0]
  have h31 : Float32.Normalized round32 sqrt32 (⟨0, 0, 1⟩ : Vector3 ℚ) = ⟨0, 0, 1⟩ := by
    unfold Float32.Normalized
    rw [h30]
    norm_num [f0, f1, f2, f3, f4, f5, f6, s0]
  have hslab : Float32.SlabTest_TriangleMesh round32 meshAtSentinel raySentinel = some true := by
    rw [SlabTest_TriangleMesh_slabT round32 meshAtSentinel raySentinel (by norm_num [raySentinel]) (by norm_num [raySentinel])
      (by norm_num [raySentinel]), h1, h2, h3, h4, h5, h6]
    norm_num
  have hcross : Float32.triangleCross round32 triangleAtSentinel = ⟨0, 0, 1⟩ := by
    rw [Float32.triangleCross, h7, h8, h9]
  have hden : Float32.triangleDenom round32 triangleAtSentinel raySentinel = 1 := by
    rw [Float32.triangleDenom, hcross, h10]
  have ht : Float32.triangleT round32 triangleAtSentinel raySentinel = 340282346638528859811704183484516925440 := by
    unfold Float32.triangleT
    rw [hden, hcross, h11, h12]
    norm_num [f0, f1, f2, f3, f4, f5, f6, s0]
  have hP : Float32.trianglePoint round32 triangleAtSentinel raySentinel = ⟨16777215, 16777215, 340282346638528859811704183484516925440⟩ := by
    rw [Float32.trianglePoint, ht, h13, h14]
  have he0 : Float32.triangleEdge round32 triangleAtSentinel raySentinel triangleAtSentinel.v0 triangleAtSentinel.v1 = 0 := by
    rw [Float32.triangleEdge, hP, hcross, h15, h16, h17, h18]
  have he1 : Float32.triangleEdge round32 triangleAtSentinel raySentinel triangleAtSentinel.v1 triangleAtSentinel.v2 = 1 := by
    rw [Float32.triangleEdge, hP, hcross, h19, h20, h21, h22]
  have he2 : Float32.triangleEdge round32 triangleAtSentinel raySentinel triangleAtSentinel.v2 triangleAtSentinel.v0 = 0 := by
    rw [Float32.triangleEdge, hP, hcross, h23, h24, h25, h26]
  have htri : Float32.meshTriangle round32 sqrt32 meshAtSentinel (⟨16777215, 16777215, 340282346638528859811704183484516925440⟩ : Vector3 ℚ) (⟨16777214, 16777215, 340282346638528859811704183484516925440⟩ : Vector3 ℚ) (⟨16777215, 16777214, 340282346638528859811704183484516925440⟩ : Vector3 ℚ) = triangleAtSentinel := by
    have hn : Float32.Normalized round32 sqrt32 (Float32.Cross round32
        (Float32.sub round32 (⟨16777214, 16777215, 340282346638528859811704183484516925440⟩ : Vector3 ℚ) (⟨16777215, 16777215, 340282346638528859811704183484516925440⟩ : Vector3 ℚ)) (Float32.sub round32 (⟨16777215, 16777214, 340282346638528859811704183484516925440⟩ : Vector3 ℚ) (⟨16777215, 16777215, 340282346638528859811704183484516925440⟩ : Vector3 ℚ)))
        = ⟨0, 0, 1⟩ := by
      rw [h27, h28, h29, h31]
    unfold Float32.meshTriangle Float32.ofVertices
    simp only [hn]
    rfl
  have htrue : (Float32.HitTest_Triangle round32 triangleAtSentinel raySentinel {} false).1 = true := by
    rw [HitTest_Triangle_fst_iff_fl, hden, ht, he0, he1, he2]
    norm_num [raySentinel, epsilon32, FLT_MAX]
  have hhit : Float32.HitTest_Triangle round32 triangleAtSentinel raySentinel {} false
      = (true,
            { origin := ⟨16777215, 16777215, 340282346638528859811704183484516925440⟩, normal := ⟨0, 0, 1⟩,
              t := 340282346638528859811704183484516925440, didHit := true, materialIndex := 4 }) := by
    refine Prod.ext htrue ?_
    rw [HitTest_Triangle_snd_of_true_fl round32 triangleAtSentinel raySentinel {} htrue, hP, ht]
    rfl
  have p0 : positionAt meshAtSentinel.transformedPositions 0 = some ⟨16777215, 16777215, 340282346638528859811704183484516925440⟩ := rfl
  have p1 : positionAt meshAtSentinel.transformedPositions 1 = some ⟨16777214, 16777215, 340282346638528859811704183484516925440⟩ := rfl
  have p2 : positionAt meshAtSentinel.transformedPositions 2 = some ⟨16777215, 16777214, 340282346638528859811704183484516925440⟩ := rfl
  have hidx : meshAtSentinel.indices = [0, 1, 2] := rfl
  have hinv : IndexInvariant meshAtSentinel := by
    refine ⟨by simp [meshAtSentinel], ?_⟩
    intro i hi
    simp only [meshAtSentinel, List.mem_cons, List.mem_singleton, List.not_mem_nil, or_false] at hi
    rcases hi with rfl | rfl | rfl <;> simp [meshAtSentinel]
  have hsub : Float32.subTrianglesOf round32 sqrt32 meshAtSentinel meshAtSentinel.indices
      = [some triangleAtSentinel] := by
    rw [hidx, subTrianglesOf_cons round32 sqrt32 meshAtSentinel 0 1 2 [] _ _ _ p0 p1 p2, htri]
    simp [Float32.subTrianglesOf]
  have hf : ([some triangleAtSentinel] : List (Option (Triangle ℚ))).filterMap id
      = [triangleAtSentinel] := rfl
  have hlen : meshAtSentinel.indices.length % 3 = 0 := by rw [hidx]; rfl
  have hall : ([some triangleAtSentinel] : List (Option (Triangle ℚ))).all Option.isSome
      = true := rfl
  refine ⟨hslab, hhit, ?_⟩
  intro hitRecord
  rw [HitTest_TriangleMesh_eq_scan_of_slab round32 sqrt32 meshAtSentinel raySentinel hitRecord
    false hinv hslab]
  unfold Float32.HitTest_TriangleMesh_LinearScan
  rw [hsub, if_pos ⟨hlen, hall⟩, hf, scanHits_cons, scanHits_nil, hhit]
  simp only [if_true, closestOf_singleton]
  have hnot : ¬ ((340282346638528859811704183484516925440 : ℚ) < FLT_MAX) := by
    unfold FLT_MAX
    norm_num
  simp only [hnot, if_false]
  rfl

/-- C16 (failing input): `meshAtSentinel` satisfies the index invariant and `raySentinel`
passes its slab test; the only sub-triangle is hit, at `t = FLT_MAX`, with a record that
carries the mesh's material index 4.  The comparison `hit.t < closestT` with the initial
`closestT = FLT_MAX` is strict, so `closestHit` is never assigned: `HitTest_TriangleMesh`
returns true and overwrites the caller's record with the value-initialised one, which is
the record of no sub-triangle hit (`didHit = false`, material index 0).  All inputs are
binary32 numbers and no operation of the run rounds: the run with binary32 rounding gives
the same results. -/
theorem HitTest_TriangleMesh_sentinel_record :
    IndexInvariant meshAtSentinel
    ∧ SlabTest_TriangleMesh meshAtSentinel raySentinel = true
    ∧ subTriangleAt Rat.sqrt meshAtSentinel 0 = some triangleAtSentinel
    ∧ HitTest_Triangle triangleAtSentinel raySentinel {} false
        = (true, { origin := ⟨16777215, 16777215, FLT_MAX⟩
                   normal := ⟨0, 0, 1⟩
                   t := FLT_MAX
                   didHit := true
                   materialIndex := 4 })
    ∧ HitTest_TriangleMesh Rat.sqrt meshAtSentinel raySentinel
        { origin := ⟨1, 1, 1⟩, normal := ⟨1, 0, 0⟩, t := 1, didHit := true, materialIndex := 9 }
        false
        = some (true, { origin := ⟨0, 0, 0⟩, normal := ⟨0, 0, 0⟩, t := FLT_MAX, didHit := false,
                        materialIndex := 0 })
    ∧ meshAtSentinel.materialIndex = 4
    ∧ Float32.SlabTest_TriangleMesh round32 meshAtSentinel raySentinel = some true
    ∧ (Float32.HitTest_Triangle round32 triangleAtSentinel raySentinel {} false).1 = true
    ∧ (Float32.HitTest_Triangle round32 triangleAtSentinel raySentinel {} false).2.t
        = FLT_MAX
    ∧ (Float32.HitTest_Triangle round32 triangleAtSentinel raySentinel {} false).2.materialIndex
        = 4
    ∧ Float32.HitTest_TriangleMesh round32 sqrt32 meshAtSentinel raySentinel
        { origin := ⟨1, 1, 1⟩, normal := ⟨1, 0, 0⟩, t := 1, didHit := true, materialIndex := 9 }
        false
        = some (true, { origin := ⟨0, 0, 0⟩, normal := ⟨0, 0, 0⟩, t := FLT_MAX, didHit := false,
                        materialIndex := 0 }) := by
  obtain ⟨hs, hh, hrun⟩ := meshAtSentinel_rounded_run
  refine ⟨meshAtSentinel_run.1, meshAtSentinel_run.2.1, meshAtSentinel_run.2.2.1,
    meshAtSentinel_run.2.2.2.1, meshAtSentinel_run.2.2.2.2 _, rfl, hs, ?_, ?_, ?_, hrun _⟩
  · rw [hh]
  · rw [hh]
    rfl
  · rw [hh]

/-- C21 (failing input): `HitTest_TriangleMesh` on `meshAtSentinel` and `raySentinel`,
called with a fresh record and `ignoreHitRecord = false`, returns true, yet the record it
hands back has `didHit = false`: the only sub-triangle is hit at `t = FLT_MAX`, which the
strict comparison with the initial `closestT` never records.  `HitTest_Triangle` on that
sub-triangle, like every other test, sets `didHit` when it returns true.  All inputs are
binary32 numbers and no operation of the run rounds: the run with binary32 rounding gives
the same results. -/
theorem HitTest_TriangleMesh_true_without_didHit :
    (∃ r, HitTest_TriangleMesh Rat.sqrt meshAtSentinel raySentinel {} false = some (true, r)
      ∧ r.didHit = false)
    ∧ subTriangleAt Rat.sqrt meshAtSentinel 0 = some triangleAtSentinel
    ∧ (HitTest_Triangle triangleAtSentinel raySentinel {} false).1 = true
    ∧ (HitTest_Triangle triangleAtSentinel raySentinel {} false).2.didHit = true
    ∧ (∃ r, Float32.HitTest_TriangleMesh round32 sqrt32 meshAtSentinel raySentinel {} false
          = some (true, r)
        ∧ r.didHit = false)
    ∧ (Float32.HitTest_Triangle round32 triangleAtSentinel raySentinel {} false).1 = true
    ∧ (Float32.HitTest_Triangle round32 triangleAtSentinel raySentinel {} false).2.didHit
        = true := by
  obtain ⟨_, _, hsub, hhit, hrun⟩ := meshAtSentinel_run
  obtain ⟨_, hh, hrun32⟩ := meshAtSentinel_rounded_run
  refine ⟨⟨_, hrun {}, rfl⟩, hsub, ?_, ?_, ⟨_, hrun32 {}, rfl⟩, ?_, ?_⟩
  · rw [hhit]
  · rw [hhit]
  · rw [hh]
  · rw [hh]

/-- C15 (failing input): `meshStaleBox` is the only primitive of the scene and the slab
test fails on it for `rayQuarter` (`tmin = 400 > tmax = 101`); all inputs are binary32
numbers and no operation of the run rounds.  `HitTest_TriangleMesh` returns false at the
slab test and `GetClosestHit` reports no hit, while `DoesHit` returns true for the same
scene and ray: its mesh loop tests the sub-triangles, the first of which is hit at
`t = 3`, without calling `SlabTest_TriangleMesh`. -/
theorem DoesHit_skips_slab_test :
    SlabTest_TriangleMesh meshStaleBox rayQuarter = false
    ∧ HitTest_TriangleMesh Rat.sqrt meshStaleBox rayQuarter {} false = some (false, {})
    ∧ GetClosestHit Rat.sqrt { m_TriangleMeshGeometries := [meshStaleBox] } rayQuarter {}
        = some {}
    ∧ DoesHit Rat.sqrt { m_TriangleMeshGeometries := [meshStaleBox] } rayQuarter = some true := by
  have r1 : Rat.sqrt 1024 = 32 := by
    have e : (1024 : ℚ) = 32 * 32 := by norm_num
    rw [e, rat_sqrt_sq 32 (by norm_num)]
  have p0 : positionAt meshStaleBox.transformedPositions 0 = some ⟨0, 0, 3⟩ := rfl
  have p1 : positionAt meshStaleBox.transformedPositions 1 = some ⟨4, 0, 3⟩ := rfl
  have p2 : positionAt meshStaleBox.transformedPositions 2 = some ⟨0, 8, 3⟩ := rfl
  have hidx : meshStaleBox.indices = [0, 1, 2, 3, 4, 5] := rfl
  have hslab : SlabTest_TriangleMesh meshStaleBox rayQuarter = false := by
    norm_num [SlabTest_TriangleMesh, meshStaleBox, rayQuarter]
  have hmesh : HitTest_TriangleMesh Rat.sqrt meshStaleBox rayQuarter {} false
      = some (false, {}) := by
    unfold HitTest_TriangleMesh
    rw [hslab]
    rfl
  refine ⟨hslab, hmesh, ?_, ?_⟩
  · unfold GetClosestHit
    simp only [List.foldl_nil, meshesLoop, hmesh]
    rfl
  · unfold DoesHit
    simp only [List.any_nil, Bool.false_eq_true, if_false, doesHitMeshes]
    rw [hidx]
    simp only [doesHitIndices, p0, p1, p2]
    norm_num [HitTest_Triangle_Bool, HitTest_Triangle, meshTriangle, Triangle.ofVertices,
      meshStaleBox, rayQuarter, Vector3.Dot, Vector3.Cross, Vector3.Normalized,
      Vector3.Magnitude, FLT_MAX, r1, Vector3.add_def, Vector3.sub_def, Vector3.smul_def]

end RoundedRuns

end dae
